import Mathlib

set_option autoImplicit false

/-!
# Coffee sales importer: normalisation-and-load pipeline

A shallow embedding of `src/import-sales.js` (class `CoffeeSalesImporter`) and of the
time-of-day preset of `src/query-db.js`.

* JavaScript values that reach the pipeline are spreadsheet cells: `Cell`.
* JavaScript numbers are `JSNum`: NaN, the infinities, or a finite decimal.  Arithmetic on
  finite values is exact decimal arithmetic; the binary rounding of IEEE doubles is outside
  the model.
* The SQLite store is the record `State`: five tables (rows in rowid order together with
  the AUTOINCREMENT counter of the table) and the four lookup caches of the importer.
  Store operations are total: an I/O failure of the database is outside the model.
* Asynchronous code is sequential (every call is awaited), so it is embedded as explicit
  state passing.
-/

namespace CoffeeSales

/-! ## Strings -/

/-- The code points of `WhiteSpace` and `LineTerminator`, which `String.prototype.trim`
strips and `parseInt` / `parseFloat` skip. -/
def isWhiteSpace (c : Char) : Bool :=
  let n := c.toNat
  n = 9 || n = 10 || n = 11 || n = 12 || n = 13 || n = 32 || n = 160 || n = 5760 ||
  (8192 ≤ n && n ≤ 8202) || n = 8232 || n = 8233 || n = 8239 || n = 8287 ||
  n = 12288 || n = 65279

/-- Lower-case mapping of one character as in `String.prototype.toLowerCase`, for the
ASCII and Latin-1 capital letters (which covers Spanish and English headers and names);
every other character is left as it is.  Outside these two ranges the model differs from
JavaScript, which also maps the capital letters of the other Unicode blocks. -/
def lowerChar (c : Char) : Char :=
  let n := c.toNat
  if (65 ≤ n ∧ n ≤ 90) ∨ (192 ≤ n ∧ n ≤ 222 ∧ n ≠ 215) then Char.ofNat (n + 32) else c

/-- Lower-case mapping of one character as in SQLite's built-in `LOWER()`: ASCII only. -/
def sqlLowerChar (c : Char) : Char :=
  let n := c.toNat
  if 65 ≤ n ∧ n ≤ 90 then Char.ofNat (n + 32) else c

/-- JavaScript `s.toLowerCase()`. -/
def toLowerCase (s : String) : String := ⟨s.data.map lowerChar⟩

/-- SQL `LOWER(s)`. -/
def sqlLower (s : String) : String := ⟨s.data.map sqlLowerChar⟩

/-- Strip white space at both ends of a list of characters. -/
def trimList (l : List Char) : List Char :=
  ((l.dropWhile isWhiteSpace).reverse.dropWhile isWhiteSpace).reverse

/-- JavaScript `s.trim()`. -/
def trim (s : String) : String := ⟨trimList s.data⟩

/-- JavaScript `s.includes(sub)`. -/
def includes (s sub : String) : Bool :=
  s.data.tails.any (fun t => sub.data.isPrefixOf t)

/-! ## Numbers -/

/-- A finite decimal `mant * 10 ^ exp`. -/
structure Dec where
  mant : Int
  exp : Int
deriving DecidableEq, Repr

/-- Remove trailing zeros of the mantissa (at most `fuel` of them). -/
def stripZeros : Nat → Int → Int → Int × Int
  | 0, m, e => (m, e)
  | fuel + 1, m, e => if m % 10 = 0 then stripZeros fuel (m / 10) (e + 1) else (m, e)

/-- The normal form of a decimal: zero is `0 * 10 ^ 0`, and the mantissa of a nonzero value
is not divisible by ten. -/
def Dec.norm (d : Dec) : Dec :=
  if d.mant = 0 then ⟨0, 0⟩
  else ⟨(stripZeros d.mant.natAbs d.mant d.exp).1, (stripZeros d.mant.natAbs d.mant d.exp).2⟩

/-- The decimal of an integer. -/
def Dec.ofInt (z : Int) : Dec := Dec.norm ⟨z, 0⟩

/-- Exact product of two decimals.  JavaScript multiplies binary64 values and rounds the
result; the two agree only where the factors and the product are exactly representable. -/
def Dec.mul (a b : Dec) : Dec := Dec.norm ⟨a.mant * b.mant, a.exp + b.exp⟩

/-- A JavaScript number. -/
inductive JSNum where
  | nan
  | inf (neg : Bool)
  | fin (d : Dec)
deriving DecidableEq, Repr

/-- The number of an integer. -/
def JSNum.ofInt (z : Int) : JSNum := .fin (Dec.ofInt z)

/-- ECMAScript `ToBoolean` on a number: NaN and zero are falsy. -/
def JSNum.truthy : JSNum → Bool
  | .nan => false
  | .inf _ => true
  | .fin d => decide (d.mant ≠ 0)

/-- The operator `a * b` on numbers, with the exact product on finite values: the rounding
and the overflow of binary64 are not modelled. -/
def JSNum.mul : JSNum → JSNum → JSNum
  | .nan, _ => .nan
  | _, .nan => .nan
  | .inf a, .inf b => .inf (xor a b)
  | .inf a, .fin d => if d.mant = 0 then .nan else .inf (xor a (decide (d.mant < 0)))
  | .fin d, .inf b => if d.mant = 0 then .nan else .inf (xor (decide (d.mant < 0)) b)
  | .fin a, .fin b => .fin (Dec.mul a b)

/-- The operator `a || b` on numbers. -/
def JSNum.orElse (a b : JSNum) : JSNum := if a.truthy then a else b

/-- The decimal digit character of `n % 10`. -/
def digitChar (n : Nat) : Char := Char.ofNat (48 + n % 10)

/-- Decimal digits of a natural number, most significant first (`fuel` bounds the count). -/
def natDigitsFuel : Nat → Nat → List Char
  | 0, n => [digitChar n]
  | fuel + 1, n => if n < 10 then [digitChar n] else natDigitsFuel fuel (n / 10) ++ [digitChar n]

/-- Decimal digits of a natural number, most significant first. -/
def natDigits (n : Nat) : List Char := natDigitsFuel n n

/-- ECMAScript `Number.prototype.toString()` of a finite number (ECMAScript `Number::toString`, radix
ten): with `k` digits and decimal point position `n`, plain notation for `-6 < n ≤ 21` and
exponent notation otherwise. -/
def numToString (d : Dec) : String :=
  let d := d.norm
  if d.mant = 0 then "0" else
  let sign : List Char := if d.mant < 0 then ['-'] else []
  let ds := natDigits d.mant.natAbs
  let k : Int := ds.length
  let n : Int := k + d.exp
  let body : List Char :=
    if k ≤ n ∧ n ≤ 21 then ds ++ List.replicate (n - k).toNat '0'
    else if 0 < n ∧ n ≤ 21 then ds.take n.toNat ++ ['.'] ++ ds.drop n.toNat
    else if -6 < n ∧ n ≤ 0 then ['0', '.'] ++ List.replicate (-n).toNat '0' ++ ds
    else
      let e := n - 1
      let es : List Char := (if e < 0 then ['-'] else ['+']) ++ natDigits e.natAbs
      if ds.length = 1 then ds ++ ['e'] ++ es
      else ds.take 1 ++ ['.'] ++ ds.drop 1 ++ ['e'] ++ es
  ⟨sign ++ body⟩

/-- Is the character a decimal digit? -/
def isDigit (c : Char) : Bool := 48 ≤ c.toNat && c.toNat ≤ 57

/-- Value of a hexadecimal digit character, if it is one. -/
def hexVal (c : Char) : Option Nat :=
  let n := c.toNat
  if 48 ≤ n ∧ n ≤ 57 then some (n - 48)
  else if 97 ≤ n ∧ n ≤ 102 then some (n - 87)
  else if 65 ≤ n ∧ n ≤ 70 then some (n - 55)
  else none

/-- Value of a list of decimal digit characters. -/
def digitsVal (ds : List Char) : Nat := ds.foldl (fun a c => a * 10 + (c.toNat - 48)) 0

/-- Value of a list of hexadecimal digit characters. -/
def hexDigitsVal (ds : List Char) : Nat := ds.foldl (fun a c => a * 16 + (hexVal c).getD 0) 0

/-- Split an optional sign off the front: `true` for a minus sign. -/
def takeSign : List Char → Bool × List Char
  | '-' :: r => (true, r)
  | '+' :: r => (false, r)
  | cs => (false, cs)

/-- An integer with the given sign. -/
def signed (neg : Bool) (n : Nat) : Int := if neg then -(n : Int) else (n : Int)

/-- JavaScript `parseInt(s)` on a string (no radix argument): skip leading white space, read a sign,
an optional `0x` marker and the longest run of digits; NaN when there is no digit.  The
value is the exact integer: the rounding to binary64 and the overflow to `Infinity` of a
very long run of digits are not modelled. -/
def parseIntStr (s : String) : JSNum :=
  let cs := s.data.dropWhile isWhiteSpace
  let (neg, cs) := takeSign cs
  match cs with
  | '0' :: x :: r =>
    if x = 'x' ∨ x = 'X' then
      let hs := r.takeWhile (fun c => (hexVal c).isSome)
      if hs.isEmpty then .nan else JSNum.ofInt (signed neg (hexDigitsVal hs))
    else JSNum.ofInt (signed neg (digitsVal (cs.takeWhile isDigit)))
  | _ =>
    let ds := cs.takeWhile isDigit
    if ds.isEmpty then .nan else JSNum.ofInt (signed neg (digitsVal ds))

/-- The exponent part of a decimal literal: `e` or `E`, an optional sign and at least one
digit; zero when the part is absent or malformed. -/
def parseExponent : List Char → Int
  | c :: r =>
    if c = 'e' ∨ c = 'E' then
      let (neg, r) := takeSign r
      let ds := r.takeWhile isDigit
      if ds.isEmpty then 0 else signed neg (digitsVal ds)
    else 0
  | [] => 0

/-- JavaScript `parseFloat(s)` on a string: skip leading white space and read the longest prefix that
is a decimal literal (`Infinity`, or digits with an optional fraction and exponent); NaN
when there is none.  The value is the exact decimal: the rounding to binary64, the overflow
to `Infinity` and the underflow to zero are not modelled. -/
def parseFloatStr (s : String) : JSNum :=
  let cs := s.data.dropWhile isWhiteSpace
  let (neg, cs) := takeSign cs
  if "Infinity".data.isPrefixOf cs then .inf neg else
  let ip := cs.takeWhile isDigit
  let r1 := cs.dropWhile isDigit
  let fp := match r1 with
    | '.' :: r => r.takeWhile isDigit
    | _ => []
  let r2 := match r1 with
    | '.' :: r => r.dropWhile isDigit
    | _ => r1
  if ip.isEmpty ∧ fp.isEmpty then .nan
  else .fin (Dec.norm ⟨signed neg (digitsVal (ip ++ fp)), parseExponent r2 - (fp.length : Int)⟩)

/-! ## Cells -/

/-- A value of a row delivered by `XLSX.utils.sheet_to_json(worksheet, { header: 1 })` for
text and numeric cells: `null` stands for `null`, `undefined` and a hole of the row array
(the code tells them apart nowhere: it tests with `!= null`, `?.` and truthiness). -/
inductive Cell where
  | null
  | str (s : String)
  | num (d : Dec)
deriving DecidableEq, Repr

/-- ECMAScript `ToBoolean` on a cell. -/
def Cell.truthy : Cell → Bool
  | .null => false
  | .str s => decide (s ≠ "")
  | .num d => decide (d.mant ≠ 0)

/-- The expression `v?.toString()`: `none` is `undefined`. -/
def Cell.toStringOpt : Cell → Option String
  | .null => none
  | .str s => some s
  | .num d => some (numToString d)

/-- JavaScript `String(v)`, the conversion `parseInt` and `parseFloat` apply to their argument. -/
def Cell.toStr : Cell → String
  | .null => "null"
  | .str s => s
  | .num d => numToString d

/-- JavaScript `parseFloat(v)`.  On a finite number it is the number itself (its string form reads
back as the same value). -/
def parseFloat : Cell → JSNum
  | .num d => .fin d.norm
  | c => parseFloatStr c.toStr

/-- JavaScript `parseInt(v)`: the argument is converted to a string first, a number included. -/
def parseInt (c : Cell) : JSNum := parseIntStr c.toStr

/-- Does the driver bind the number as an INTEGER?  It does so for an integer in the range
of a signed 32-bit integer, and binds every other number as a REAL. -/
def Dec.isInt32 (d : Dec) : Bool :=
  decide (0 ≤ d.norm.exp) &&
    decide (-2147483648 ≤ d.norm.mant * 10 ^ d.norm.exp.toNat ∧
      d.norm.mant * 10 ^ d.norm.exp.toNat ≤ 2147483647)

/-- Exponent part of the text of a REAL: a sign and at least two digits. -/
def sqlExponent (e : Int) : List Char :=
  (if e < 0 then ['-'] else ['+']) ++
    (if e.natAbs < 10 then '0' :: natDigits e.natAbs else natDigits e.natAbs)

/-- The text SQLite gives a REAL stored in a column of TEXT affinity (format `%!.15g`):
at most fifteen significant digits, a decimal point always followed by a digit, and
exponent notation when the decimal exponent is below -4 or above 14.  The text is computed
from the decimal value `d`, which is exact for a number of at most fifteen significant
digits. -/
def sqlRealText (d : Dec) : String :=
  let n0 := d.norm
  let k0 := (natDigits n0.mant.natAbs).length
  let r : Dec :=
    if k0 ≤ 15 then ⟨n0.mant.natAbs, n0.exp⟩
    else Dec.norm ⟨(n0.mant.natAbs / 10 ^ (k0 - 15)
        + (if 10 ^ (k0 - 15) ≤ 2 * (n0.mant.natAbs % 10 ^ (k0 - 15)) then 1 else 0) : Nat),
      n0.exp + ((k0 - 15 : Nat) : Int)⟩
  let sign : List Char := if n0.mant < 0 then ['-'] else []
  let ds := natDigits r.mant.natAbs
  let k : Int := ds.length
  let n : Int := k + r.exp
  let body : List Char :=
    if n - 1 < -4 ∨ 15 ≤ n - 1 then
      ds.take 1 ++ ['.'] ++ (if ds.length = 1 then ['0'] else ds.drop 1) ++ ['e']
        ++ sqlExponent (n - 1)
    else if k ≤ n then ds ++ List.replicate (n - k).toNat '0' ++ ['.', '0']
    else if 0 < n then ds.take n.toNat ++ ['.'] ++ ds.drop n.toNat
    else ['0', '.'] ++ List.replicate (-n).toNat '0' ++ ds
  ⟨sign ++ body⟩

/-- The text stored in a column of TEXT affinity when the raw cell is bound to the
`INSERT` (lines 188-192, 252-256, 285-289): a text cell as it is, a number as the text of
the INTEGER or REAL it is bound as.  A null name is never bound (it has no key). -/
def Cell.sqlText : Cell → String
  | .null => ""
  | .str s => s
  | .num d => if d.isInt32 then numToString d else sqlRealText d

/-! ## Dates -/

/-- What the run takes from its surroundings: the date parser of the JavaScript engine
(`none` is an unparseable string), the offset of local time from UTC in milliseconds at a
given instant, and the clock read by `new Date()` while row `i` of sheet `j` is mapped. -/
structure Env where
  parseDate : String → Option Int
  tzOffset : Int → Int
  clock : Nat → Nat → Int

/-- ECMAScript `TimeClip`: a time value is valid up to 8.64e15 milliseconds from the epoch. -/
def timeClip (t : Int) : Option Int :=
  if t.natAbs ≤ 8640000000000000 then some t else none

/-- Integer part of a decimal, rounding towards zero. -/
def Dec.trunc (d : Dec) : Int :=
  if 0 ≤ d.exp then d.mant * 10 ^ d.exp.toNat
  else signed (decide (d.mant < 0)) (d.mant.natAbs / 10 ^ (-d.exp).toNat)

/-- The time value of `new Date(v)` for a truthy cell `v`; `none` is an invalid date. -/
def newDate (env : Env) : Cell → Option Int
  | .null => none
  | .str s => (env.parseDate s).bind timeClip
  | .num d => timeClip d.trunc

/-- Lines 374 and 384: `getValue([...]) || new Date()`, then `new Date(fecha)` unless
`fecha` already is a date. -/
def fechaObj (env : Env) (now : Int) (fecha : Cell) : Option Int :=
  if fecha.truthy then newDate env fecha else some now

/-- ECMAScript `LocalTime(t)`. -/
def localTime (env : Env) (t : Int) : Int := t + env.tzOffset t

/-- ECMAScript `HourFromTime`. -/
def hourFromTime (t : Int) : Nat := ((t / 3600000) % 24).toNat

/-- ECMAScript `MinFromTime`. -/
def minFromTime (t : Int) : Nat := ((t / 60000) % 60).toNat

/-- ECMAScript `SecFromTime`. -/
def secFromTime (t : Int) : Nat := ((t / 1000) % 60).toNat

/-- ECMAScript `msFromTime`. -/
def msFromTime (t : Int) : Nat := (t % 1000).toNat

/-- ECMAScript `Day(t)`: days since the epoch. -/
def dayNumber (t : Int) : Int := t / 86400000

/-- ECMAScript `WeekDay(t)`: 0 is Sunday. -/
def weekDay (t : Int) : Nat := ((dayNumber t + 4) % 7).toNat

/-- Year, month (1 to 12) and day of month of a day number in the proleptic Gregorian
calendar. -/
def civilFromDays (z0 : Int) : Int × Int × Int :=
  let z := z0 + 719468
  let era := z / 146097
  let doe := z % 146097
  let yoe := (doe - doe / 1460 + doe / 36524 - doe / 146096) / 365
  let doy := doe - (365 * yoe + yoe / 4 - yoe / 100)
  let mp := (5 * doy + 2) / 153
  let d := doy - (153 * mp + 2) / 5 + 1
  let m := if mp < 10 then mp + 3 else mp - 9
  (if m ≤ 2 then yoe + era * 400 + 1 else yoe + era * 400, m, d)

/-- JavaScript `fechaObj.getHours()`. -/
def getHours (env : Env) (t : Int) : Nat := hourFromTime (localTime env t)

/-- JavaScript `fechaObj.getDay()`. -/
def getDay (env : Env) (t : Int) : Nat := weekDay (localTime env t)

/-- JavaScript `fechaObj.getMonth()`: 0 is January. -/
def getMonth (env : Env) (t : Int) : Nat :=
  ((civilFromDays (dayNumber (localTime env t))).2.1 - 1).toNat

/-- Decimal digits of `n`, padded with zeros on the left to width `w`. -/
def padDigits (w n : Nat) : List Char :=
  List.replicate (w - (natDigits n).length) '0' ++ natDigits n

/-- The year of an ISO date string: four digits, or a sign and six digits outside 0..9999. -/
def isoYear (y : Int) : List Char :=
  if 0 ≤ y ∧ y ≤ 9999 then padDigits 4 y.toNat
  else (if y < 0 then ['-'] else ['+']) ++ padDigits 6 y.natAbs

/-- JavaScript `fechaObj.toISOString()` of a valid date: the UTC calendar date and time. -/
def toISOString (t : Int) : String :=
  let c := civilFromDays (dayNumber t)
  ⟨isoYear c.1 ++ ['-'] ++ padDigits 2 c.2.1.toNat ++ ['-'] ++ padDigits 2 c.2.2.toNat ++ ['T']
    ++ padDigits 2 (hourFromTime t) ++ [':'] ++ padDigits 2 (minFromTime t) ++ [':']
    ++ padDigits 2 (secFromTime t) ++ ['.'] ++ padDigits 3 (msFromTime t) ++ ['Z']⟩

/-- Pieces of a list of characters between occurrences of `sep`. -/
def splitList (sep : Char) : List Char → List (List Char)
  | [] => [[]]
  | c :: cs =>
    if c = sep then [] :: splitList sep cs
    else match splitList sep cs with
      | [] => [[c]]
      | h :: t => (c :: h) :: t

/-- The expression `s.split(sep)[i]`. -/
def splitAt (s : String) (sep : Char) (i : Nat) : String :=
  ⟨(splitList sep s.data).getD i []⟩

/-- Line 390: the weekday name table. -/
def diasSemana : List String :=
  ["Domingo", "Lunes", "Martes", "Miércoles", "Jueves", "Viernes", "Sábado"]

/-- Lines 391-392: the month name table. -/
def meses : List String :=
  ["Enero", "Febrero", "Marzo", "Abril", "Mayo", "Junio",
   "Julio", "Agosto", "Septiembre", "Octubre", "Noviembre", "Diciembre"]

/-- Lines 398-400: the day-period bucket of a local hour. -/
def periodoDia (hora : Nat) : String :=
  if 12 ≤ hora ∧ hora < 18 then "Tarde"
  else if 18 ≤ hora then "Noche"
  else "Mañana"

/-- The labels that the time-of-day preset of the query tool orders by, with their rank
(`src/query-db.js`, case 9: `CASE periodo_dia WHEN ... THEN ...`). -/
def presetPeriodoOrder : List (String × Nat) :=
  [("Mañana", 1), ("Tarde", 2), ("Noche", 3)]

/-! ## The store and the lookup caches -/

/-- A row of `productos`.  Only the columns the importer writes are kept; the columns left
to their declared default (`activo`, `fecha_creacion`, ...) are never read by the pipeline.
A bound name is stored as text (the column has TEXT affinity); the text SQLite keeps for a
bound number is taken to be the string JavaScript prints for it. -/
structure Producto where
  id_producto : Nat
  nombre_producto : String
  categoria : Cell
  precio_base : Cell
deriving DecidableEq, Repr

/-- A row of `clientes`, with the four aggregate columns. -/
structure Cliente where
  id_cliente : Nat
  codigo_anonimo : String
  tipo_cliente : Cell
  fecha_primer_compra : Option String
  fecha_ultima_compra : Option String
  total_compras : Nat
  monto_total_gastado : JSNum
deriving DecidableEq, Repr

/-- A row of `metodos_pago`. -/
structure MetodoPago where
  id_metodo_pago : Nat
  tipo_pago : String
  descripcion : Cell
deriving DecidableEq, Repr

/-- A row of `sucursales`. -/
structure Sucursal where
  id_sucursal : Nat
  nombre_sucursal : String
  direccion : Cell
  ciudad : Cell
deriving DecidableEq, Repr

/-- The record `mapExcelRowToVenta` returns (lines 412-428): the fifteen bound columns of a
`ventas` row. -/
structure VentaData where
  fecha_venta : String
  fecha_hora_venta : String
  hora_del_dia : String
  id_producto : Nat
  id_metodo_pago : Nat
  id_cliente : Option Nat
  id_sucursal : Nat
  precio_unitario : JSNum
  cantidad : JSNum
  monto_total : JSNum
  periodo_dia : String
  dia_semana : String
  nombre_mes : String
  numero_dia_semana : Nat
  numero_mes : Nat
deriving DecidableEq, Repr

/-- A row of `ventas`. -/
structure Venta where
  id_venta : Nat
  data : VentaData
deriving DecidableEq, Repr

/-- A table: its rows in rowid order and the AUTOINCREMENT counter kept for it in
`sqlite_sequence` (the largest rowid the table ever held). -/
structure Table (α : Type) where
  rows : List α
  seq : Nat
deriving DecidableEq, Repr

/-- The table right after `DROP TABLE IF EXISTS` and `CREATE TABLE`. -/
def Table.empty {α : Type} : Table α := ⟨[], 0⟩

/-- The rowid an AUTOINCREMENT column gives the next inserted row: one more than the
largest rowid that ever existed in the table. -/
def Table.nextId {α : Type} (idOf : α → Nat) (t : Table α) : Nat :=
  (t.rows.foldl (fun m r => max m (idOf r)) t.seq) + 1

/-- SQL `INSERT INTO t ...`: append the row built from its new rowid; returns `lastID`. -/
def Table.insert {α : Type} (idOf : α → Nat) (mk : Nat → α) (t : Table α) : Nat × Table α :=
  (t.nextId idOf, ⟨t.rows ++ [mk (t.nextId idOf)], t.nextId idOf⟩)

/-- One lookup cache, a plain JavaScript object used as a map from keys to identifiers:
the list of the assignments `cache[key] = id` made so far, latest first.  These are the
own properties of the object; the properties it inherits from `Object.prototype` are in
`objectPrototypeKeys` and are read by `Cache.read`. -/
abbrev Cache := List (String × Nat)

/-- The property read `cache[key]` among the own properties: `none` is `undefined`. -/
def Cache.get (c : Cache) (key : String) : Option Nat := List.lookup key c

/-- The assignment `cache[key] = id`. -/
def Cache.set (c : Cache) (key : String) (id : Nat) : Cache := (key, id) :: c

/-- The test `if (cache[key])` on the own properties: the cached identifier when it is
truthy.  It is the test of the source for every key that is not the name of an inherited
property (`Cache.read`, `lookupOrInsertFull`). -/
def Cache.hit (c : Cache) (key : String) : Option Nat :=
  match c.get key with
  | some id => if id = 0 then none else some id
  | none => none

/-- The object `this.lookupCaches` (lines 161-166). -/
structure Caches where
  productos : Cache
  clientes : Cache
  sucursales : Cache
  metodos_pago : Cache
deriving DecidableEq, Repr

/-- The database together with the lookup caches of the importer. -/
structure State where
  clientes : Table Cliente
  productos : Table Producto
  metodos_pago : Table MetodoPago
  sucursales : Table Sucursal
  ventas : Table Venta
  lookupCaches : Caches
deriving DecidableEq, Repr

/-- The store and the caches right after the schema has been created: five empty tables
whose counters restart, and four empty cache objects. -/
def freshState : State :=
  { clientes := Table.empty, productos := Table.empty, metodos_pago := Table.empty,
    sucursales := Table.empty, ventas := Table.empty,
    lookupCaches := { productos := [], clientes := [], sucursales := [], metodos_pago := [] } }

/-- Source function `createERSchema` (lines 116-133): every table is dropped and created again, and
`initializeLookupCaches` replaces the four caches by empty objects. -/
def createERSchema (_s : State) : State := freshState

/-! ## Entity resolver -/

/-- The body the four resolvers share once the key is known to be usable: return the cached
identifier if `cache[key]` is truthy; otherwise take the first row the `SELECT` finds, or
insert a new row; store the identifier in the cache and return it.  The `SELECT` has no
`ORDER BY`: when several rows match, the model takes the one inserted first, which SQL
does not promise.  Keys that name an inherited property of the cache object are handled
by `lookupOrInsertFull`. -/
def lookupOrInsert {α : Type} (idOf : α → Nat) (isMatch : α → Bool) (mk : Nat → α)
    (key : String) (c : Cache) (t : Table α) : Nat × Cache × Table α :=
  match c.hit key with
  | some id => (id, c, t)
  | none =>
    match t.rows.find? isMatch with
    | some r => (idOf r, c.set key (idOf r), t)
    | none => ((t.insert idOf mk).1, c.set key (t.insert idOf mk).1, (t.insert idOf mk).2)

/-- The expression `nombre?.toString().toLowerCase().trim()` (lines 172, 233, 266). -/
def normKey (v : Cell) : Option String :=
  v.toStringOpt.map (fun x => trim (toLowerCase x))

/-- The usable key of a product, store or payment name: `none` when `!key` holds, that is
when the key is `undefined` or the empty string. -/
def truthyKey (v : Cell) : Option String :=
  match normKey v with
  | some key => if key = "" then none else some key
  | none => none

/-- Lines 175-198 of `getOrCreateProducto`: cache, `SELECT id_producto FROM productos WHERE
LOWER(nombre_producto) = ?` with the key, `INSERT` of the raw name and the attributes; the
stored name is the text SQLite keeps for the bound cell (`Cell.sqlText`). -/
def productoBody (key : String) (nombre categoria precioBase : Cell) (s : State) :
    Nat × State :=
  let r := lookupOrInsert Producto.id_producto
    (fun p => decide (sqlLower p.nombre_producto = key))
    (fun id => ⟨id, nombre.sqlText, categoria, precioBase⟩)
    key s.lookupCaches.productos s.productos
  (r.1, { s with productos := r.2.2,
                 lookupCaches := { s.lookupCaches with productos := r.2.1 } })

/-- Source function `getOrCreateProducto` (lines 171-199): `null` for an unusable key. -/
def getOrCreateProducto (nombre categoria precioBase : Cell) (s : State) :
    Option Nat × State :=
  match truthyKey nombre with
  | none => (none, s)
  | some key => (some (productoBody key nombre categoria precioBase s).1,
      (productoBody key nombre categoria precioBase s).2)

/-- Lines 206-229 of `getOrCreateCliente`: the `SELECT` compares `codigo_anonimo` with the
key exactly, and the key itself is inserted. -/
def clienteBody (key : String) (tipoCliente : Cell) (s : State) : Nat × State :=
  let r := lookupOrInsert Cliente.id_cliente
    (fun c => decide (c.codigo_anonimo = key))
    (fun id => ⟨id, key, tipoCliente, none, none, 0, JSNum.ofInt 0⟩)
    key s.lookupCaches.clientes s.clientes
  (r.1, { s with clientes := r.2.2,
                 lookupCaches := { s.lookupCaches with clientes := r.2.1 } })

/-- Source function `getOrCreateCliente` (lines 201-230): `null` for a falsy code; the key is trimmed but
not lower-cased. -/
def getOrCreateCliente (codigoAnonimo tipoCliente : Cell) (s : State) : Option Nat × State :=
  if codigoAnonimo.truthy then
    (some (clienteBody (trim codigoAnonimo.toStr) tipoCliente s).1,
      (clienteBody (trim codigoAnonimo.toStr) tipoCliente s).2)
  else (none, s)

/-- Lines 239-262 of `getOrCreateSucursal`. -/
def sucursalBody (key : String) (nombre direccion ciudad : Cell) (s : State) : Nat × State :=
  let r := lookupOrInsert Sucursal.id_sucursal
    (fun x => decide (sqlLower x.nombre_sucursal = key))
    (fun id => ⟨id, nombre.sqlText, direccion, ciudad⟩)
    key s.lookupCaches.sucursales s.sucursales
  (r.1, { s with sucursales := r.2.2,
                 lookupCaches := { s.lookupCaches with sucursales := r.2.1 } })

/-- Lines 272-295 of `getOrCreateMetodoPago`. -/
def metodoPagoBody (key : String) (tipoPago descripcion : Cell) (s : State) : Nat × State :=
  let r := lookupOrInsert MetodoPago.id_metodo_pago
    (fun x => decide (sqlLower x.tipo_pago = key))
    (fun id => ⟨id, tipoPago.sqlText, descripcion⟩)
    key s.lookupCaches.metodos_pago s.metodos_pago
  (r.1, { s with metodos_pago := r.2.2,
                 lookupCaches := { s.lookupCaches with metodos_pago := r.2.1 } })

/-- Source function `getOrCreateSucursal` (lines 232-263) with a bound on the depth of its recursion:
`none` when the bound is reached.  With an unusable key the function calls itself on the
sentinel name. -/
def getOrCreateSucursalFuel : Nat → Cell → Cell → Cell → State → Option (Nat × State)
  | 0, _, _, _, _ => none
  | fuel + 1, nombre, direccion, ciudad, s =>
    match truthyKey nombre with
    | none =>
      getOrCreateSucursalFuel fuel (.str "Sucursal Principal") (.str "Sin dirección")
        (.str "Sin ciudad") s
    | some key => some (sucursalBody key nombre direccion ciudad s)

/-- Source function `getOrCreateMetodoPago` (lines 265-296) with a bound on the depth of its recursion. -/
def getOrCreateMetodoPagoFuel : Nat → Cell → Cell → State → Option (Nat × State)
  | 0, _, _, _ => none
  | fuel + 1, tipoPago, descripcion, s =>
    match truthyKey tipoPago with
    | none => getOrCreateMetodoPagoFuel fuel (.str "Efectivo") (.str "Pago en efectivo") s
    | some key => some (metodoPagoBody key tipoPago descripcion s)

/-- Source function `getOrCreateSucursal`: the recursion is at most one call deep (the sentinel name has a
usable key), so a bound of two never runs out; see `getOrCreateSucursalFuel_eq`. -/
def getOrCreateSucursal (nombre direccion ciudad : Cell) (s : State) : Option Nat × State :=
  match getOrCreateSucursalFuel 2 nombre direccion ciudad s with
  | some r => (some r.1, r.2)
  | none => (none, s)

/-- Source function `getOrCreateMetodoPago`: see `getOrCreateMetodoPagoFuel_eq`. -/
def getOrCreateMetodoPago (tipoPago descripcion : Cell) (s : State) : Option Nat × State :=
  match getOrCreateMetodoPagoFuel 2 tipoPago descripcion s with
  | some r => (some r.1, r.2)
  | none => (none, s)

/-- The property names that every plain object inherits from `Object.prototype`: the
caches are created as `{}` (lines 161-166), so a property read with one of these names
finds a function (or, for `__proto__`, the prototype object) when the cache has no entry
of its own under that name. -/
def objectPrototypeKeys : List String :=
  ["constructor", "__proto__", "hasOwnProperty", "isPrototypeOf", "propertyIsEnumerable",
   "toLocaleString", "toString", "valueOf", "__defineGetter__", "__defineSetter__",
   "__lookupGetter__", "__lookupSetter__"]

/-- The value of the property read `cache[key]`, inherited properties included. -/
inductive CacheValue where
  | undefined
  | id (n : Nat)
  | inherited (name : String)
deriving DecidableEq, Repr

/-- The property read `cache[key]` in full: the cache's own entry, else the inherited
property of that name, else `undefined`. -/
def Cache.read (c : Cache) (key : String) : CacheValue :=
  match c.get key with
  | some id => .id id
  | none => if key ∈ objectPrototypeKeys then .inherited key else .undefined

/-- The value a resolver returns: null, the identifier of a row, or a value inherited
from `Object.prototype`, which is truthy and is the identifier of no row. -/
inductive Resolved where
  | null
  | id (n : Nat)
  | inherited (name : String)
deriving DecidableEq, Repr

/-- ECMAScript `ToBoolean` on the value a resolver returns (the test of line 408). -/
def Resolved.truthy : Resolved → Bool
  | .null => false
  | .id n => decide (n ≠ 0)
  | .inherited _ => true

/-- The body the four resolvers share, with the cache read in full: when `cache[key]` is
an inherited value, the test `if (cache[key])` succeeds and that value is returned at once,
with no `SELECT`, no `INSERT` and no cache write; for every other key the body is
`lookupOrInsert`. -/
def lookupOrInsertFull {α : Type} (idOf : α → Nat) (isMatch : α → Bool) (mk : Nat → α)
    (key : String) (c : Cache) (t : Table α) : Resolved × Cache × Table α :=
  match c.read key with
  | .inherited name => (.inherited name, c, t)
  | _ => (.id (lookupOrInsert idOf isMatch mk key c t).1,
      (lookupOrInsert idOf isMatch mk key c t).2.1, (lookupOrInsert idOf isMatch mk key c t).2.2)

/-- Source function `getOrCreateProducto` (lines 171-199) with the cache read in full. -/
def getOrCreateProductoFull (nombre categoria precioBase : Cell) (s : State) :
    Resolved × State :=
  match truthyKey nombre with
  | none => (.null, s)
  | some key =>
    let r := lookupOrInsertFull Producto.id_producto
      (fun p => decide (sqlLower p.nombre_producto = key))
      (fun id => ⟨id, nombre.sqlText, categoria, precioBase⟩)
      key s.lookupCaches.productos s.productos
    (r.1, { s with productos := r.2.2,
                   lookupCaches := { s.lookupCaches with productos := r.2.1 } })

/-- Source function `getOrCreateCliente` (lines 201-230) with the cache read in full. -/
def getOrCreateClienteFull (codigoAnonimo tipoCliente : Cell) (s : State) :
    Resolved × State :=
  if codigoAnonimo.truthy then
    let r := lookupOrInsertFull Cliente.id_cliente
      (fun c => decide (c.codigo_anonimo = trim codigoAnonimo.toStr))
      (fun id => ⟨id, trim codigoAnonimo.toStr, tipoCliente, none, none, 0, JSNum.ofInt 0⟩)
      (trim codigoAnonimo.toStr) s.lookupCaches.clientes s.clientes
    (r.1, { s with clientes := r.2.2,
                   lookupCaches := { s.lookupCaches with clientes := r.2.1 } })
  else (.null, s)

/-! ## Row mapper -/

/-- JavaScript `xs.findIndex(p)`: `none` is the result -1. -/
def findIndex {α : Type} (p : α → Bool) : List α → Option Nat
  | [] => none
  | a :: l => if p a then some 0 else (findIndex p l).map (· + 1)

/-- The predicate of line 364: `h && h.toString().toLowerCase().includes(name.toLowerCase())`. -/
def headerMatches (name : String) (h : Cell) : Bool :=
  h.truthy && includes (toLowerCase h.toStr) (toLowerCase name)

/-- The element read `row[index]`: a hole or an index past the end is `undefined`. -/
def cellAt (row : List Cell) (index : Nat) : Cell := row.getD index .null

/-- The helper `getValue` (lines 361-371): for each name in turn, the first header containing
it is located, and its cell is returned when it is not null. -/
def getValue (headers row : List Cell) : List String → Cell
  | [] => .null
  | name :: rest =>
    match findIndex (headerMatches name) headers with
    | some index => if cellAt row index ≠ .null then cellAt row index else getValue headers row rest
    | none => getValue headers row rest

/-- The recognised substrings of each logical field (lines 374-381). -/
def fechaNames : List String := ["fecha", "date", "día"]

/-- Product field. -/
def productoNames : List String := ["producto", "product", "item", "coffee"]

/-- Category field. -/
def categoriaNames : List String := ["categoria", "category", "tipo"]

/-- Price field. -/
def precioNames : List String := ["precio", "price", "total", "amount"]

/-- Quantity field. -/
def cantidadNames : List String := ["cantidad", "quantity", "qty"]

/-- Client field. -/
def clienteNames : List String := ["cliente", "customer", "client"]

/-- Payment method field. -/
def metodoPagoNames : List String := ["pago", "payment", "método"]

/-- Store field. -/
def sucursalNames : List String := ["sucursal", "store", "location", "branch"]

/-- Line 378: `getValue([...]) || 1`. -/
def cantidadCell (headers row : List Cell) : Cell :=
  if (getValue headers row cantidadNames).truthy then getValue headers row cantidadNames
  else .num ⟨1, 0⟩

/-- Is an identifier returned by a resolver truthy (neither `null` nor 0)? -/
def idTruthy : Option Nat → Bool
  | some id => decide (id ≠ 0)
  | none => false

/-- The four identifiers obtained in lines 403-406. -/
structure ForeignKeys where
  idProducto : Option Nat
  idCliente : Option Nat
  idSucursal : Option Nat
  idMetodoPago : Option Nat
deriving DecidableEq, Repr

/-- Lines 403-406 of `mapExcelRowToVenta`: the four resolver calls, in this order; the
client resolver is only called for a truthy client cell. -/
def resolveForeignKeys (producto categoria precio cliente sucursal metodoPago : Cell)
    (s : State) : ForeignKeys × State :=
  let r1 := getOrCreateProducto producto categoria precio s
  let r2 := if cliente.truthy then getOrCreateCliente cliente .null r1.2 else (none, r1.2)
  let r3 := getOrCreateSucursal sucursal .null .null r2.2
  let r4 := getOrCreateMetodoPago metodoPago .null r3.2
  (⟨r1.1, r2.1, r3.1, r4.1⟩, r4.2)

/-- Lines 385-400 and 412-428 of `mapExcelRowToVenta`: the record built from the date `t`,
the price and quantity values and the resolved identifiers. -/
def ventaRecord (env : Env) (t : Int) (precio cantidad : Cell) (k : ForeignKeys) : VentaData :=
  { fecha_venta := splitAt (toISOString t) 'T' 0
    fecha_hora_venta := toISOString t
    hora_del_dia := splitAt (splitAt (toISOString t) 'T' 1) '.' 0
    id_producto := k.idProducto.getD 0
    id_metodo_pago := k.idMetodoPago.getD 0
    id_cliente := k.idCliente
    id_sucursal := k.idSucursal.getD 0
    precio_unitario := (parseFloat precio).orElse (JSNum.ofInt 0)
    cantidad := (parseInt cantidad).orElse (JSNum.ofInt 1)
    monto_total :=
      ((parseFloat precio).orElse (JSNum.ofInt 0)).mul ((parseInt cantidad).orElse (JSNum.ofInt 1))
    periodo_dia := periodoDia (getHours env t)
    dia_semana := diasSemana.getD (getDay env t) ""
    nombre_mes := meses.getD (getMonth env t) ""
    numero_dia_semana := getDay env t
    numero_mes := getMonth env t + 1 }

/-- Lines 375-381 and 403-406 together: the resolver calls on the values `getValue`
extracts from the row. -/
def resolveRow (row headers : List Cell) (s : State) : ForeignKeys × State :=
  resolveForeignKeys (getValue headers row productoNames) (getValue headers row categoriaNames)
    (getValue headers row precioNames) (getValue headers row clienteNames)
    (getValue headers row sucursalNames) (getValue headers row metodoPagoNames) s

/-- The test of line 408, negated: the three required identifiers are truthy. -/
def keysTruthy (k : ForeignKeys) : Bool :=
  idTruthy k.idProducto && idTruthy k.idSucursal && idTruthy k.idMetodoPago

/-- Source function `mapExcelRowToVenta` (lines 359-429).  `now` is the value of `new Date()` at the call.
An exception is the `error` result: `toISOString` throws on an invalid date (line 385,
before any resolver runs), and line 409 throws when a required identifier is falsy.  The
state is returned in both cases, because the resolvers run before the check of line 408. -/
def mapExcelRowToVenta (env : Env) (now : Int) (row headers : List Cell) (s : State) :
    Except String VentaData × State :=
  match fechaObj env now (getValue headers row fechaNames) with
  | none => (.error "Invalid time value", s)
  | some t =>
    if keysTruthy (resolveRow row headers s).1 then
      (.ok (ventaRecord env t (getValue headers row precioNames) (cantidadCell headers row)
        (resolveRow row headers s).1), (resolveRow row headers s).2)
    else (.error "Failed to resolve required foreign keys", (resolveRow row headers s).2)

/-! ## Import orchestrator -/

/-- Source call `stmt.run([...])` (lines 513-529): insert the record into `ventas`. -/
def insertVenta (v : VentaData) (s : State) : State :=
  { s with ventas := (s.ventas.insert Venta.id_venta (fun id => ⟨id, v⟩)).2 }

/-- The counters of one sheet and the row errors written to the console
(`Row i+1 error: message`). -/
structure SheetReport where
  successCount : Nat
  errorCount : Nat
  reported : List (Nat × String)
deriving DecidableEq, Repr

/-- One turn of the row loop (lines 508-540) for the row at index `i`. -/
def rowStep (env : Env) (sheet : Nat) (headers row : List Cell) (i : Nat)
    (acc : State × SheetReport) : State × SheetReport :=
  match mapExcelRowToVenta env (env.clock sheet i) row headers acc.1 with
  | (.ok ventaData, s) =>
    (insertVenta ventaData s, { acc.2 with successCount := acc.2.successCount + 1 })
  | (.error message, s) =>
    (s, { acc.2 with
          errorCount := acc.2.errorCount + 1
          reported :=
            if acc.2.errorCount + 1 ≤ 10 then acc.2.reported ++ [(i + 1, message)]
            else acc.2.reported })

/-- The row loop (lines 500-541) over the rows from index `i` on. -/
def rowLoop (env : Env) (sheet : Nat) (headers : List Cell) :
    List (List Cell) → Nat → State × SheetReport → State × SheetReport
  | [], _, acc => acc
  | row :: rest, i, acc => rowLoop env sheet headers rest (i + 1) (rowStep env sheet headers row i acc)

/-- One sheet (lines 469-550): `data` is the array of rows of the sheet, header row first.
A sheet with at most one row is skipped and has no report. -/
def importSheet (env : Env) (sheet : Nat) (data : List (List Cell)) (s : State) :
    State × Option SheetReport :=
  match data with
  | headers :: row :: rows =>
    let r := rowLoop env sheet headers (row :: rows) 0 (s, ⟨0, 0, []⟩)
    (r.1, some r.2)
  | _ => (s, none)

/-- The loop over the sheets of the workbook, from sheet number `j` on. -/
def importSheets (env : Env) : List (List (List Cell)) → Nat → State →
    State × List (Option SheetReport)
  | [], _, s => (s, [])
  | data :: rest, j, s =>
    let r := importSheets env rest (j + 1) (importSheet env j data s).1
    (r.1, (importSheet env j data s).2 :: r.2)

/-! ## Aggregation pass -/

/-- Exact sum of two decimals.  SQLite and JavaScript add binary64 values and round the
result. -/
def Dec.add (a b : Dec) : Dec :=
  Dec.norm ⟨a.mant * 10 ^ (a.exp - min a.exp b.exp).toNat
    + b.mant * 10 ^ (b.exp - min a.exp b.exp).toNat, min a.exp b.exp⟩

/-- The operator `a + b` on numbers, with the exact sum on finite values: the rounding and
the overflow of binary64 are not modelled. -/
def JSNum.add : JSNum → JSNum → JSNum
  | .nan, _ => .nan
  | _, .nan => .nan
  | .inf a, .inf b => if a = b then .inf a else .nan
  | .inf a, .fin _ => .inf a
  | .fin _, .inf b => .inf b
  | .fin a, .fin b => .fin (Dec.add a b)

/-- The sales of one client: `FROM ventas WHERE ventas.id_cliente = clientes.id_cliente`. -/
def ventasDeCliente (s : State) (id : Nat) : List VentaData :=
  (s.ventas.rows.map Venta.data).filter (fun v => decide (v.id_cliente = some id))

/-- SQL `COALESCE(SUM(monto_total), 0)` with the exact sum: a sum that is not a number is
stored as NULL by SQLite and so replaced by 0.  The floating-point summation of SQLite is
left open in `updateClientStatisticsWith`. -/
def sumMontoTotal (vs : List VentaData) : JSNum :=
  match (vs.map VentaData.monto_total).foldl JSNum.add (JSNum.ofInt 0) with
  | .nan => JSNum.ofInt 0
  | x => x

/-- Lexicographic comparison of two lists of characters by code point. -/
def ltChars : List Char → List Char → Bool
  | _, [] => false
  | [], _ :: _ => true
  | a :: as, b :: bs =>
    if a.toNat < b.toNat then true else if a.toNat = b.toNat then ltChars as bs else false

/-- The comparison `a < b` of two text values in SQLite (BINARY collation). -/
def textLt (a b : String) : Bool := ltChars a.data b.data

/-- SQL `MIN(fecha_venta)` over text values: `none` is NULL (no row). -/
def minFecha : List String → Option String
  | [] => none
  | a :: l => some (l.foldl (fun m x => if textLt x m then x else m) a)

/-- SQL `MAX(fecha_venta)` over text values. -/
def maxFecha : List String → Option String
  | [] => none
  | a :: l => some (l.foldl (fun m x => if textLt m x then x else m) a)

/-- Source function `updateClientStatistics` (lines 556-586): the `UPDATE` touches the rows of `clientes`
whose identifier occurs as a non-null `id_cliente` of `ventas`. -/
def updateClientStatistics (s : State) : State :=
  { s with clientes := { s.clientes with rows := s.clientes.rows.map (fun c =>
      if c.id_cliente ∈ s.ventas.rows.filterMap (fun v => v.data.id_cliente) then
        { c with
          total_compras := (ventasDeCliente s c.id_cliente).length
          monto_total_gastado := sumMontoTotal (ventasDeCliente s c.id_cliente)
          fecha_primer_compra :=
            minFecha ((ventasDeCliente s c.id_cliente).map VentaData.fecha_venta)
          fecha_ultima_compra :=
            maxFecha ((ventasDeCliente s c.id_cliente).map VentaData.fecha_venta) }
      else c) } }

/-- Source function `updateClientStatistics` (lines 556-586) over any aggregate function of the store:
`sqlSum` is the value of `SUM(monto_total)` for the totals of the rows it is applied to,
in rowid order (`none` is NULL).  The floating-point summation of the store is not fixed
here; `updateClientStatistics` is the instance with the exact sum. -/
def updateClientStatisticsWith (sqlSum : List JSNum → Option JSNum) (s : State) : State :=
  { s with clientes := { s.clientes with rows := s.clientes.rows.map (fun c =>
      if c.id_cliente ∈ s.ventas.rows.filterMap (fun v => v.data.id_cliente) then
        { c with
          total_compras := (ventasDeCliente s c.id_cliente).length
          monto_total_gastado :=
            (sqlSum ((ventasDeCliente s c.id_cliente).map VentaData.monto_total)).getD
              (JSNum.ofInt 0)
          fecha_primer_compra :=
            minFecha ((ventasDeCliente s c.id_cliente).map VentaData.fecha_venta)
          fecha_ultima_compra :=
            maxFecha ((ventasDeCliente s c.id_cliente).map VentaData.fecha_venta) }
      else c) } }

/-- The exact sum as an aggregate function: NULL when it is not a number. -/
def exactSum (l : List JSNum) : Option JSNum :=
  match l.foldl JSNum.add (JSNum.ofInt 0) with
  | .nan => none
  | x => some x

/-- Source function `importData` (lines 466-554): every sheet of the workbook in turn, then the
aggregation pass.  Returns the final state and the report of each sheet. -/
def importData (env : Env) (workbook : List (List (List Cell))) (s : State) :
    State × List (Option SheetReport) :=
  (updateClientStatistics (importSheets env workbook 0 s).1, (importSheets env workbook 0 s).2)

/-! ## Sequences of resolver calls -/

/-- One call of a resolver with its arguments. -/
inductive ResolverCall where
  | producto (nombre categoria precioBase : Cell)
  | cliente (codigoAnonimo tipoCliente : Cell)
  | sucursal (nombre direccion ciudad : Cell)
  | metodoPago (tipoPago descripcion : Cell)
deriving DecidableEq, Repr

/-- Perform one resolver call. -/
def ResolverCall.run : ResolverCall → State → Option Nat × State
  | .producto n c p, s => getOrCreateProducto n c p s
  | .cliente k t, s => getOrCreateCliente k t s
  | .sucursal n d c, s => getOrCreateSucursal n d c s
  | .metodoPago t d, s => getOrCreateMetodoPago t d s

/-- Perform resolver calls one after the other; the state after the last one. -/
def runCalls : List ResolverCall → State → State
  | [], s => s
  | c :: rest, s => runCalls rest (c.run s).2

/-! ## Predicates used in the statements -/

/-- The key is settled at the identifier `id`: either the cache yields `id` for it, or the
cache has no truthy entry for it and the `SELECT` finds a row with identifier `id`. -/
def Settled {α : Type} (idOf : α → Nat) (isMatch : α → Bool) (key : String) (id : Nat)
    (c : Cache) (t : Table α) : Prop :=
  c.hit key = some id ∨ (c.hit key = none ∧ ∃ r, t.rows.find? isMatch = some r ∧ idOf r = id)

/-- A product key is settled in a state. -/
def SettledProducto (key : String) (id : Nat) (s : State) : Prop :=
  Settled Producto.id_producto (fun p => decide (sqlLower p.nombre_producto = key)) key id
    s.lookupCaches.productos s.productos

/-- A store key is settled in a state. -/
def SettledSucursal (key : String) (id : Nat) (s : State) : Prop :=
  Settled Sucursal.id_sucursal (fun x => decide (sqlLower x.nombre_sucursal = key)) key id
    s.lookupCaches.sucursales s.sucursales

/-- A payment method key is settled in a state. -/
def SettledMetodoPago (key : String) (id : Nat) (s : State) : Prop :=
  Settled MetodoPago.id_metodo_pago (fun x => decide (sqlLower x.tipo_pago = key)) key id
    s.lookupCaches.metodos_pago s.metodos_pago

/-- The key under which a store name is resolved: its usable key, or the key of the
sentinel name `Sucursal Principal` when it has none. -/
def sucursalKey (nombre : Cell) : String := (truthyKey nombre).getD "sucursal principal"

/-- The key under which a payment type is resolved: its usable key, or the key of the
sentinel name `Efectivo` when it has none. -/
def metodoPagoKey (tipoPago : Cell) : String := (truthyKey tipoPago).getD "efectivo"

/-- A name that is null, empty or made of white space only. -/
def Blank (v : Cell) : Prop :=
  v = .null ∨ ∃ w : String, v = .str w ∧ ∀ c ∈ w.data, isWhiteSpace c = true

/-- The results of the successive `mapExcelRowToVenta` calls that the row loop makes on
the rows from index `i` on, started in state `s`. -/
def rowResults (env : Env) (sheet : Nat) (headers : List Cell) :
    List (List Cell) → Nat → State → List (Except String VentaData)
  | [], _, _ => []
  | row :: rest, i, s =>
    (mapExcelRowToVenta env (env.clock sheet i) row headers s).1 ::
      rowResults env sheet headers rest (i + 1) (rowStep env sheet headers row i (s, ⟨0, 0, []⟩)).1

/-- The records of the successful results, in order. -/
def okRecords : List (Except String VentaData) → List VentaData
  | [] => []
  | .ok v :: rest => v :: okRecords rest
  | .error _ :: rest => okRecords rest

/-- The number of failed results. -/
def errorTotal : List (Except String VentaData) → Nat
  | [] => 0
  | .ok _ :: rest => errorTotal rest
  | .error _ :: rest => errorTotal rest + 1

/-- A sample environment: no string parses as a date, local time is UTC, and the clock
stands at 2024-11-05T23:00:00.123Z. -/
def sampleEnv : Env := ⟨fun _ => none, fun _ => 0, fun _ _ => 1730847600123⟩

/-- A sample workbook of one sheet with three data rows; the second has no product. -/
def sampleWorkbook : List (List (List Cell)) :=
  [[[.str "Producto", .str "Precio", .str "Cantidad", .str "Cliente"],
    [.str "Latte", .num ⟨35, -1⟩, .num ⟨2, 0⟩, .str "C1"],
    [.null, .num ⟨35, -1⟩, .num ⟨1, 0⟩],
    [.str " latte ", .str "abc", .null, .null]]]

/-- A sample sheet body of one hundred data rows (columns product and price) in which the
rows 5 and 50 have no product. -/
def sampleRows : List (List Cell) :=
  (List.range 100).map (fun i =>
    if i = 4 ∨ i = 49 then [.null, .num ⟨35, -1⟩] else [.str "Latte", .num ⟨35, -1⟩])

/-- No row of a reference table that a sale must refer to has the identifier 0 (SQLite
never assigns it; it is the one identifier that JavaScript treats as falsy). -/
def PositiveIds (s : State) : Prop :=
  (∀ p ∈ s.productos.rows, p.id_producto ≠ 0) ∧ (∀ x ∈ s.sucursales.rows, x.id_sucursal ≠ 0) ∧
  (∀ m ∈ s.metodos_pago.rows, m.id_metodo_pago ≠ 0)

/-- The cell under the first header that contains `name`; null when no header contains it
(or when that cell is missing). -/
def firstCell (headers row : List Cell) (name : String) : Cell :=
  match findIndex (headerMatches name) headers with
  | some index => cellAt row index
  | none => .null

/-- The first cell of a list that is not null; null when there is none. -/
def firstNonNull : List Cell → Cell
  | [] => .null
  | c :: rest => if c ≠ .null then c else firstNonNull rest

/-- The rows of `ventas` whose `id_cliente` is `id`. -/
def ventasRowsDe (s : State) (id : Nat) : List Venta :=
  s.ventas.rows.filter (fun v => decide (v.data.id_cliente = some id))

/-- A sample workbook with a date column: three sales of client `C1` on 1970-01-04,
1970-01-01 and 1970-01-02, and one sale of client `C2`. -/
def sampleWorkbookFechas : List (List (List Cell)) :=
  [[[.str "Fecha", .str "Producto", .str "Precio", .str "Cliente"],
    [.num ⟨259200000, 0⟩, .str "Latte", .num ⟨35, -1⟩, .str "C1"],
    [.num ⟨1, 0⟩, .str "Mocha", .num ⟨2, 0⟩, .str "C1"],
    [.num ⟨86400000, 0⟩, .str "Latte", .num ⟨35, -1⟩, .str "C1"],
    [.num ⟨86400000, 0⟩, .str "Latte", .num ⟨35, -1⟩, .str "C2"]]]

/-- The store after the sheets of `sampleWorkbookFechas` have been loaded into a fresh
schema, before the aggregation pass. -/
def sampleLoaded : State := (importSheets sampleEnv sampleWorkbookFechas 0 freshState).1

/-- Source function `initializeLookupCaches` (lines 158-169): the four caches are replaced by
empty objects; the database is not touched. -/
def initializeLookupCaches (s : State) : State :=
  { s with lookupCaches := { productos := [], clientes := [], sucursales := [],
                             metodos_pago := [] } }

/-- The sample store with one more client, `C9`, who has no sale. -/
def sampleIdle : State := (getOrCreateCliente (.str "C9") .null sampleLoaded).2

/-- The row errors of one sheet in source order: for every failed result, at index `i`
counted from `start`, the pair of the row number `i + 1` and the message, as the line
`Row i+1 error: message` shows them. -/
def failureLines : List (Except String VentaData) → Nat → List (Nat × String)
  | [], _ => []
  | .ok _ :: rest, i => failureLines rest (i + 1)
  | .error message :: rest, i => (i + 1, message) :: failureLines rest (i + 1)

/-- The results of the row mapper on the data rows `rows` of sheet number `k` of the
workbook, under the header row `headers`, when the sheets before it have been loaded from
the state `s`. -/
def sheetResults (env : Env) (workbook : List (List (List Cell))) (s : State) (k : Nat)
    (headers : List Cell) (rows : List (List Cell)) : List (Except String VentaData) :=
  rowResults env k headers rows 0 (importSheets env (workbook.take k) 0 s).1

/-- A sample workbook of two sheets: in the first, twelve rows without a product and then a
complete row; in the second, a row without a product and a complete row. -/
def sampleWorkbookErrors : List (List (List Cell)) :=
  [[.str "Producto", .str "Precio"] ::
      (List.replicate 12 [.null, .num ⟨1, 0⟩] ++ [[.str "Latte", .num ⟨35, -1⟩]]),
   [[.str "Producto", .str "Precio"], [.null, .num ⟨1, 0⟩], [.str "Latte", .num ⟨35, -1⟩]]]

/-- A sample workbook of three sheets: an empty sheet, a sheet with a header row only, and
a sheet with one data row. -/
def sampleWorkbookShort : List (List (List Cell)) :=
  [[], [[.str "Producto", .str "Precio"]],
   [[.str "Producto", .str "Precio"], [.str "Latte", .num ⟨35, -1⟩]]]

/-- One operation on the store: a call of a resolver, or the import of one data row, that
is the turn of the row loop of `importData` for the row at index `i` of sheet `sheet`. -/
inductive Step where
  | resolve (call : ResolverCall)
  | importRow (env : Env) (sheet : Nat) (headers row : List Cell) (i : Nat)

/-- The state after one operation. -/
def Step.run : Step → State → State
  | .resolve call, s => (call.run s).2
  | .importRow env sheet headers row i, s =>
    (rowStep env sheet headers row i (s, ⟨0, 0, []⟩)).1

/-- The state after a sequence of operations. -/
def runSteps : List Step → State → State
  | [], s => s
  | st :: rest, s => runSteps rest (st.run s)

/-- Every row of `t` is still in `t2`, unchanged and at the same place: the rows of `t2`
are the rows of `t` followed by appended rows. -/
def RowsKept {α : Type} (t t2 : Table α) : Prop := ∃ l, t2.rows = t.rows ++ l

/-- The rows of `productos`, `sucursales` and `metodos_pago` of the state `s` are kept in
the state `s2`. -/
def ReferenceRowsKept (s s2 : State) : Prop :=
  RowsKept s.productos s2.productos ∧ RowsKept s.sucursales s2.sucursales ∧
  RowsKept s.metodos_pago s2.metodos_pago

/-- The rows of the four reference tables of the state `s` are kept in the state `s2`. -/
def AllRowsKept (s s2 : State) : Prop :=
  ReferenceRowsKept s s2 ∧ RowsKept s.clientes s2.clientes

/-- The date parser of the sample environments: ISO date-only strings are read as
midnight UTC of that day (ECMAScript `Date.parse`); only the two dates used are listed. -/
def sampleParseDate (s : String) : Option Int :=
  if s = "2024-01-15" then some 1705276800000
  else if s = "2024-02-01" then some 1706745600000
  else none

/-- A sample environment whose local time is six hours behind UTC all year (as in
Guatemala City). -/
def sampleEnvWest : Env := ⟨sampleParseDate, fun _ => -21600000, fun _ _ => 1730847600123⟩

/-- The same environment with local time equal to UTC. -/
def sampleEnvUTC : Env := ⟨sampleParseDate, fun _ => 0, fun _ _ => 1730847600123⟩

/-- The calendar fields of the records among the results: date, time of day, weekday index
and name, month number and name. -/
def calendarFields (res : List (Except String VentaData)) :
    List (String × String × Nat × String × Nat × String) :=
  (okRecords res).map (fun v =>
    (v.fecha_venta, v.hora_del_dia, v.numero_dia_semana, v.dia_semana, v.numero_mes,
      v.nombre_mes))

/-- The header contains the name, letter case aside; a null header contains nothing. -/
def headerContains (h : Cell) (name : String) : Bool :=
  match h.toStringOpt with
  | some x => includes (toLowerCase x) (toLowerCase name)
  | none => false

/-- The table `t2` is the table `t` with at most one row appended. -/
def AtMostOneAdded {α : Type} (t t2 : Table α) : Prop :=
  ∃ l, t2.rows = t.rows ++ l ∧ l.length ≤ 1

/-! ## Lemmas on strings -/

theorem toNat_ofNat_of_lt (n : Nat) (h : n < 55296) : (Char.ofNat n).toNat = n := by
  have hv : n.isValidChar := Or.inl h
  simp only [Char.ofNat, hv, Char.ofNatAux, Char.toNat, dite_true]
  rfl

theorem isWhiteSpace_eq_false (c : Char)
    (h : (33 ≤ c.toNat ∧ c.toNat ≤ 159) ∨ (161 ≤ c.toNat ∧ c.toNat ≤ 5759)) :
    isWhiteSpace c = false := by
  simp only [isWhiteSpace, Bool.or_eq_false_iff, Bool.and_eq_false_iff, decide_eq_false_iff_not]
  omega

theorem lowerChar_of_upper (c : Char)
    (h : (65 ≤ c.toNat ∧ c.toNat ≤ 90) ∨ (192 ≤ c.toNat ∧ c.toNat ≤ 222 ∧ c.toNat ≠ 215)) :
    (lowerChar c).toNat = c.toNat + 32 := by
  simp only [lowerChar, h, if_true]
  exact toNat_ofNat_of_lt _ (by omega)

theorem lowerChar_of_not_upper (c : Char)
    (h : ¬ ((65 ≤ c.toNat ∧ c.toNat ≤ 90) ∨ (192 ≤ c.toNat ∧ c.toNat ≤ 222 ∧ c.toNat ≠ 215))) :
    lowerChar c = c := by
  simp only [lowerChar, h, if_false]

theorem isWhiteSpace_lowerChar (c : Char) : isWhiteSpace (lowerChar c) = isWhiteSpace c := by
  by_cases h : (65 ≤ c.toNat ∧ c.toNat ≤ 90) ∨ (192 ≤ c.toNat ∧ c.toNat ≤ 222 ∧ c.toNat ≠ 215)
  · have h1 := lowerChar_of_upper c h
    rw [isWhiteSpace_eq_false c (by omega), isWhiteSpace_eq_false (lowerChar c) (by omega)]
  · rw [lowerChar_of_not_upper c h]

theorem lowerChar_lowerChar (c : Char) : lowerChar (lowerChar c) = lowerChar c := by
  by_cases h : (65 ≤ c.toNat ∧ c.toNat ≤ 90) ∨ (192 ≤ c.toNat ∧ c.toNat ≤ 222 ∧ c.toNat ≠ 215)
  · have h1 := lowerChar_of_upper c h
    exact lowerChar_of_not_upper _ (by omega)
  · rw [lowerChar_of_not_upper c h, lowerChar_of_not_upper c h]

theorem lowerChar_sqlLowerChar (c : Char) : lowerChar (sqlLowerChar c) = lowerChar c := by
  by_cases h : 65 ≤ c.toNat ∧ c.toNat ≤ 90
  · have h1 : sqlLowerChar c = lowerChar c := by
      simp only [sqlLowerChar, lowerChar, h, if_true, and_self, true_or]
    rw [h1, lowerChar_lowerChar]
  · simp only [sqlLowerChar, h, if_false]

theorem toLowerCase_toLowerCase (s : String) : toLowerCase (toLowerCase s) = toLowerCase s := by
  simp only [toLowerCase, List.map_map]
  congr 1
  exact List.map_congr_left (fun c _ => lowerChar_lowerChar c)

theorem toLowerCase_sqlLower (s : String) : toLowerCase (sqlLower s) = toLowerCase s := by
  simp only [toLowerCase, sqlLower, List.map_map]
  congr 1
  exact List.map_congr_left (fun c _ => lowerChar_sqlLowerChar c)

theorem trimList_eq (l : List Char) :
    trimList l = List.rdropWhile isWhiteSpace (l.dropWhile isWhiteSpace) := rfl

theorem isWhiteSpace_comp_lowerChar : isWhiteSpace ∘ lowerChar = isWhiteSpace :=
  funext isWhiteSpace_lowerChar

theorem trimList_map_lowerChar (l : List Char) :
    trimList (l.map lowerChar) = (trimList l).map lowerChar := by
  simp only [trimList, List.dropWhile_map, ← List.map_reverse, isWhiteSpace_comp_lowerChar]

theorem trim_toLowerCase (s : String) : trim (toLowerCase s) = toLowerCase (trim s) := by
  simp only [trim, toLowerCase, trimList_map_lowerChar]

theorem get_zero_eq_head {α : Type} (l : List α) (hl : 0 < l.length) (hne : l ≠ []) :
    l.get ⟨0, hl⟩ = l.head hne := by
  cases l with
  | nil => exact absurd rfl hne
  | cons a t => rfl

theorem dropWhile_trimList (l : List Char) :
    (trimList l).dropWhile isWhiteSpace = trimList l := by
  rw [List.dropWhile_eq_self_iff]
  intro hl
  have hne : trimList l ≠ [] := List.length_pos.mp hl
  have hpre : trimList l <+: l.dropWhile isWhiteSpace := by
    rw [trimList_eq]; exact List.rdropWhile_prefix _ _
  have hne2 : l.dropWhile isWhiteSpace ≠ [] := by
    intro h0; rw [h0] at hpre; exact hne (List.prefix_nil.mp hpre)
  have hhead := List.IsPrefix.head hpre hne
  rw [get_zero_eq_head _ hl hne, hhead]
  have h2 := List.dropWhile_get_zero_not isWhiteSpace l (List.length_pos.mpr hne2)
  rw [get_zero_eq_head _ _ hne2] at h2
  simpa using h2

theorem trimList_trimList (l : List Char) : trimList (trimList l) = trimList l := by
  rw [trimList_eq (trimList l), dropWhile_trimList, trimList_eq l, List.rdropWhile_idempotent]

theorem trim_trim (s : String) : trim (trim s) = trim s := by
  simp only [trim, trimList_trimList]

/-- A key computed by a resolver is a fixed point of the normalisation. -/
theorem trim_toLowerCase_idem (x : String) :
    trim (toLowerCase (trim (toLowerCase x))) = trim (toLowerCase x) := by
  rw [trim_toLowerCase (trim (toLowerCase x)), trim_trim, ← trim_toLowerCase,
    toLowerCase_toLowerCase]

/-- A stored name that the `SELECT ... WHERE LOWER(name) = key` of a resolver matches has
that key as its own normalised form. -/
theorem key_of_sqlLower_eq (name x : String) (h : sqlLower name = trim (toLowerCase x)) :
    trim (toLowerCase name) = trim (toLowerCase x) := by
  rw [← toLowerCase_sqlLower name, h, trim_toLowerCase_idem]

/-! ## Lemmas on the shared resolver body -/

theorem Cache.hit_set (c : Cache) (k k2 : String) (v : Nat) :
    (c.set k v).hit k2 = if k2 = k then (if v = 0 then none else some v) else c.hit k2 := by
  by_cases h : k2 = k
  · subst h
    simp [Cache.hit, Cache.get, Cache.set, List.lookup_cons]
  · have hb : (k2 == k) = false := by simpa using h
    simp [Cache.hit, Cache.get, Cache.set, List.lookup_cons, hb, h]

theorem Table.nextId_pos {α : Type} (idOf : α → Nat) (t : Table α) : t.nextId idOf ≠ 0 := by
  simp [Table.nextId]

theorem lookupOrInsert_fst_indep {α : Type} (idOf : α → Nat) (isMatch : α → Bool)
    (mk mk2 : Nat → α) (key : String) (c : Cache) (t : Table α) :
    (lookupOrInsert idOf isMatch mk key c t).1 = (lookupOrInsert idOf isMatch mk2 key c t).1 := by
  unfold lookupOrInsert
  cases c.hit key <;> cases t.rows.find? isMatch <;> rfl

theorem settled_after {α : Type} (idOf : α → Nat) (isMatch : α → Bool) (mk : Nat → α)
    (key : String) (c : Cache) (t : Table α) :
    Settled idOf isMatch key (lookupOrInsert idOf isMatch mk key c t).1
      (lookupOrInsert idOf isMatch mk key c t).2.1 (lookupOrInsert idOf isMatch mk key c t).2.2 := by
  unfold lookupOrInsert Settled
  cases hh : c.hit key with
  | some id => exact Or.inl hh
  | none =>
    cases hf : t.rows.find? isMatch with
    | some r =>
      simp only [Cache.hit_set, if_true]
      by_cases h0 : idOf r = 0
      · right; simp [h0, hf]
      · left; simp [h0]
    | none =>
      left
      simp only [Cache.hit_set, if_true, Table.insert]
      simp [Table.nextId_pos]

theorem settled_result {α : Type} (idOf : α → Nat) (isMatch : α → Bool) (mk : Nat → α)
    (key : String) (id : Nat) (c : Cache) (t : Table α) (h : Settled idOf isMatch key id c t) :
    (lookupOrInsert idOf isMatch mk key c t).1 = id ∧
      (lookupOrInsert idOf isMatch mk key c t).2.2 = t := by
  unfold lookupOrInsert
  rcases h with h | ⟨h, r, hr, hid⟩
  · simp [h]
  · simp [h, hr, hid]

theorem settled_preserved {α : Type} (idOf : α → Nat) (isMatch isMatch2 : α → Bool)
    (mk : Nat → α) (key key2 : String) (id : Nat) (c : Cache) (t : Table α)
    (hm : key2 = key → isMatch2 = isMatch) (h : Settled idOf isMatch key id c t) :
    Settled idOf isMatch key id (lookupOrInsert idOf isMatch2 mk key2 c t).2.1
      (lookupOrInsert idOf isMatch2 mk key2 c t).2.2 := by
  unfold lookupOrInsert
  cases hh : c.hit key2 with
  | some id2 => exact h
  | none =>
    by_cases hk : key2 = key
    · have hm2 := hm hk
      subst hk
      subst hm2
      rcases h with h | ⟨_, r, hr, hid⟩
      · rw [hh] at h; cases h
      · simp only [hr]
        unfold Settled
        simp only [Cache.hit_set, if_true]
        by_cases h0 : idOf r = 0
        · right; simp only [h0, if_true, true_and]; exact ⟨r, hr, hid⟩
        · left; subst hid; simp [h0]
    · have hk2 : ¬ key = key2 := fun e => hk e.symm
      cases hf : t.rows.find? isMatch2 with
      | some r2 =>
        unfold Settled
        simp only [Cache.hit_set, hk2, if_false]
        exact h
      | none =>
        unfold Settled
        simp only [Cache.hit_set, hk2, if_false, Table.insert, List.find?_append]
        rcases h with h | ⟨h, r, hr, hid⟩
        · exact Or.inl h
        · right; exact ⟨h, r, by simp [hr], hid⟩

/-! ## Lemmas on the resolvers -/

theorem truthyKey_of_ne (a : Cell) (ha : a ≠ .null) (hne : toLowerCase (trim a.toStr) ≠ "") :
    truthyKey a = some (toLowerCase (trim a.toStr)) := by
  cases a with
  | null => exact absurd rfl ha
  | str w =>
    simp only [truthyKey, normKey, Cell.toStringOpt, Option.map_some', trim_toLowerCase]
    simp only [Cell.toStr] at hne
    simp [hne, Cell.toStr]
  | num d =>
    simp only [truthyKey, normKey, Cell.toStringOpt, Option.map_some', trim_toLowerCase]
    simp only [Cell.toStr] at hne
    simp [hne, Cell.toStr]

theorem trimList_of_all_ws (l : List Char) (h : ∀ c ∈ l, isWhiteSpace c = true) :
    trimList l = [] := by
  have h1 : l.dropWhile isWhiteSpace = [] := List.dropWhile_eq_nil_iff.mpr h
  simp [trimList, h1]

theorem truthyKey_of_blank (v : Cell) (h : Blank v) : truthyKey v = none := by
  rcases h with h | ⟨w, h, hw⟩
  · subst h; rfl
  · subst h
    have h1 : trim (toLowerCase w) = "" := by
      rw [trim_toLowerCase]
      have h2 : trim w = "" := by
        simp only [trim, trimList_of_all_ws w.data hw]
      rw [h2]; rfl
    simp [truthyKey, normKey, Cell.toStringOpt, h1]

theorem getOrCreateSucursalFuel_eq (fuel : Nat) (nombre direccion ciudad : Cell) (s : State) :
    getOrCreateSucursalFuel (fuel + 2) nombre direccion ciudad s =
      some (match truthyKey nombre with
        | some key => sucursalBody key nombre direccion ciudad s
        | none => sucursalBody "sucursal principal" (.str "Sucursal Principal")
            (.str "Sin dirección") (.str "Sin ciudad") s) := by
  have hd : truthyKey (.str "Sucursal Principal") = some "sucursal principal" := by decide
  cases h : truthyKey nombre with
  | none => simp [getOrCreateSucursalFuel, h, hd]
  | some key => simp [getOrCreateSucursalFuel, h]

theorem getOrCreateMetodoPagoFuel_eq (fuel : Nat) (tipoPago descripcion : Cell) (s : State) :
    getOrCreateMetodoPagoFuel (fuel + 2) tipoPago descripcion s =
      some (match truthyKey tipoPago with
        | some key => metodoPagoBody key tipoPago descripcion s
        | none => metodoPagoBody "efectivo" (.str "Efectivo") (.str "Pago en efectivo") s) := by
  have hd : truthyKey (.str "Efectivo") = some "efectivo" := by decide
  cases h : truthyKey tipoPago with
  | none => simp [getOrCreateMetodoPagoFuel, h, hd]
  | some key => simp [getOrCreateMetodoPagoFuel, h]

theorem getOrCreateSucursal_some (nombre direccion ciudad : Cell) (s : State) (key : String)
    (h : truthyKey nombre = some key) :
    getOrCreateSucursal nombre direccion ciudad s =
      (some (sucursalBody key nombre direccion ciudad s).1,
        (sucursalBody key nombre direccion ciudad s).2) := by
  simp [getOrCreateSucursal, getOrCreateSucursalFuel_eq 0, h]

theorem getOrCreateSucursal_none (nombre direccion ciudad : Cell) (s : State)
    (h : truthyKey nombre = none) :
    getOrCreateSucursal nombre direccion ciudad s =
      (some (sucursalBody "sucursal principal" (.str "Sucursal Principal")
          (.str "Sin dirección") (.str "Sin ciudad") s).1,
        (sucursalBody "sucursal principal" (.str "Sucursal Principal")
          (.str "Sin dirección") (.str "Sin ciudad") s).2) := by
  simp [getOrCreateSucursal, getOrCreateSucursalFuel_eq 0, h]

theorem getOrCreateMetodoPago_some (tipoPago descripcion : Cell) (s : State) (key : String)
    (h : truthyKey tipoPago = some key) :
    getOrCreateMetodoPago tipoPago descripcion s =
      (some (metodoPagoBody key tipoPago descripcion s).1,
        (metodoPagoBody key tipoPago descripcion s).2) := by
  simp [getOrCreateMetodoPago, getOrCreateMetodoPagoFuel_eq 0, h]

theorem getOrCreateMetodoPago_none (tipoPago descripcion : Cell) (s : State)
    (h : truthyKey tipoPago = none) :
    getOrCreateMetodoPago tipoPago descripcion s =
      (some (metodoPagoBody "efectivo" (.str "Efectivo") (.str "Pago en efectivo") s).1,
        (metodoPagoBody "efectivo" (.str "Efectivo") (.str "Pago en efectivo") s).2) := by
  simp [getOrCreateMetodoPago, getOrCreateMetodoPagoFuel_eq 0, h]

theorem getOrCreateProducto_some (nombre categoria precioBase : Cell) (s : State) (key : String)
    (h : truthyKey nombre = some key) :
    getOrCreateProducto nombre categoria precioBase s =
      (some (productoBody key nombre categoria precioBase s).1,
        (productoBody key nombre categoria precioBase s).2) := by
  simp [getOrCreateProducto, h]

theorem getOrCreateProducto_none (nombre categoria precioBase : Cell) (s : State)
    (h : truthyKey nombre = none) :
    getOrCreateProducto nombre categoria precioBase s = (none, s) := by
  simp [getOrCreateProducto, h]

/-! ### Settled keys stay settled -/

theorem settledProducto_productoBody (key key2 : String) (id : Nat) (n c p : Cell) (s : State)
    (h : SettledProducto key id s) : SettledProducto key id (productoBody key2 n c p s).2 :=
  settled_preserved _ _ _ _ key key2 id _ _ (fun e => by subst e; rfl) h

theorem settledSucursal_sucursalBody (key key2 : String) (id : Nat) (n d c : Cell) (s : State)
    (h : SettledSucursal key id s) : SettledSucursal key id (sucursalBody key2 n d c s).2 :=
  settled_preserved _ _ _ _ key key2 id _ _ (fun e => by subst e; rfl) h

theorem settledMetodoPago_metodoPagoBody (key key2 : String) (id : Nat) (t d : Cell) (s : State)
    (h : SettledMetodoPago key id s) : SettledMetodoPago key id (metodoPagoBody key2 t d s).2 :=
  settled_preserved _ _ _ _ key key2 id _ _ (fun e => by subst e; rfl) h

theorem settledProducto_run (key : String) (id : Nat) (call : ResolverCall) (s : State)
    (h : SettledProducto key id s) : SettledProducto key id (call.run s).2 := by
  cases call with
  | producto n c p =>
    cases hk : truthyKey n with
    | none => simpa [ResolverCall.run, getOrCreateProducto_none _ _ _ _ hk] using h
    | some k2 =>
      simpa [ResolverCall.run, getOrCreateProducto_some _ _ _ _ _ hk]
        using settledProducto_productoBody key k2 id n c p s h
  | cliente k t =>
    simp only [ResolverCall.run, getOrCreateCliente]
    split
    · exact h
    · exact h
  | sucursal n d c =>
    cases hk : truthyKey n with
    | none => simp only [ResolverCall.run, getOrCreateSucursal_none _ _ _ _ hk]; exact h
    | some k2 => simp only [ResolverCall.run, getOrCreateSucursal_some _ _ _ _ _ hk]; exact h
  | metodoPago t d =>
    cases hk : truthyKey t with
    | none => simp only [ResolverCall.run, getOrCreateMetodoPago_none _ _ _ hk]; exact h
    | some k2 => simp only [ResolverCall.run, getOrCreateMetodoPago_some _ _ _ _ hk]; exact h

theorem settledSucursal_run (key : String) (id : Nat) (call : ResolverCall) (s : State)
    (h : SettledSucursal key id s) : SettledSucursal key id (call.run s).2 := by
  cases call with
  | producto n c p =>
    cases hk : truthyKey n with
    | none => simpa [ResolverCall.run, getOrCreateProducto_none _ _ _ _ hk] using h
    | some k2 => simp only [ResolverCall.run, getOrCreateProducto_some _ _ _ _ _ hk]; exact h
  | cliente k t =>
    simp only [ResolverCall.run, getOrCreateCliente]
    split
    · exact h
    · exact h
  | sucursal n d c =>
    cases hk : truthyKey n with
    | none =>
      simp only [ResolverCall.run, getOrCreateSucursal_none _ _ _ _ hk]
      exact settledSucursal_sucursalBody key _ id _ _ _ s h
    | some k2 =>
      simp only [ResolverCall.run, getOrCreateSucursal_some _ _ _ _ _ hk]
      exact settledSucursal_sucursalBody key _ id _ _ _ s h
  | metodoPago t d =>
    cases hk : truthyKey t with
    | none => simp only [ResolverCall.run, getOrCreateMetodoPago_none _ _ _ hk]; exact h
    | some k2 => simp only [ResolverCall.run, getOrCreateMetodoPago_some _ _ _ _ hk]; exact h

theorem settledMetodoPago_run (key : String) (id : Nat) (call : ResolverCall) (s : State)
    (h : SettledMetodoPago key id s) : SettledMetodoPago key id (call.run s).2 := by
  cases call with
  | producto n c p =>
    cases hk : truthyKey n with
    | none => simpa [ResolverCall.run, getOrCreateProducto_none _ _ _ _ hk] using h
    | some k2 => simp only [ResolverCall.run, getOrCreateProducto_some _ _ _ _ _ hk]; exact h
  | cliente k t =>
    simp only [ResolverCall.run, getOrCreateCliente]
    split
    · exact h
    · exact h
  | sucursal n d c =>
    cases hk : truthyKey n with
    | none => simp only [ResolverCall.run, getOrCreateSucursal_none _ _ _ _ hk]; exact h
    | some k2 => simp only [ResolverCall.run, getOrCreateSucursal_some _ _ _ _ _ hk]; exact h
  | metodoPago t d =>
    cases hk : truthyKey t with
    | none =>
      simp only [ResolverCall.run, getOrCreateMetodoPago_none _ _ _ hk]
      exact settledMetodoPago_metodoPagoBody key _ id _ _ s h
    | some k2 =>
      simp only [ResolverCall.run, getOrCreateMetodoPago_some _ _ _ _ hk]
      exact settledMetodoPago_metodoPagoBody key _ id _ _ s h

theorem settledProducto_runCalls (key : String) (id : Nat) (calls : List ResolverCall) :
    ∀ s : State, SettledProducto key id s → SettledProducto key id (runCalls calls s) := by
  induction calls with
  | nil => intro s h; exact h
  | cons c rest ih => intro s h; exact ih _ (settledProducto_run key id c s h)

theorem settledSucursal_runCalls (key : String) (id : Nat) (calls : List ResolverCall) :
    ∀ s : State, SettledSucursal key id s → SettledSucursal key id (runCalls calls s) := by
  induction calls with
  | nil => intro s h; exact h
  | cons c rest ih => intro s h; exact ih _ (settledSucursal_run key id c s h)

theorem settledMetodoPago_runCalls (key : String) (id : Nat) (calls : List ResolverCall) :
    ∀ s : State, SettledMetodoPago key id s → SettledMetodoPago key id (runCalls calls s) := by
  induction calls with
  | nil => intro s h; exact h
  | cons c rest ih => intro s h; exact ih _ (settledMetodoPago_run key id c s h)

theorem settledProducto_after (key : String) (n c p : Cell) (s : State) :
    SettledProducto key (productoBody key n c p s).1 (productoBody key n c p s).2 :=
  settled_after _ _ _ key _ _

theorem settledSucursal_after (key : String) (n d c : Cell) (s : State) :
    SettledSucursal key (sucursalBody key n d c s).1 (sucursalBody key n d c s).2 :=
  settled_after _ _ _ key _ _

theorem settledMetodoPago_after (key : String) (t d : Cell) (s : State) :
    SettledMetodoPago key (metodoPagoBody key t d s).1 (metodoPagoBody key t d s).2 :=
  settled_after _ _ _ key _ _

theorem productoBody_of_settled (key : String) (id : Nat) (n c p : Cell) (s : State)
    (h : SettledProducto key id s) :
    (productoBody key n c p s).1 = id ∧ (productoBody key n c p s).2.productos = s.productos :=
  settled_result _ _ _ key id _ _ h

theorem sucursalBody_of_settled (key : String) (id : Nat) (n d c : Cell) (s : State)
    (h : SettledSucursal key id s) :
    (sucursalBody key n d c s).1 = id ∧ (sucursalBody key n d c s).2.sucursales = s.sucursales :=
  settled_result _ _ _ key id _ _ h

theorem metodoPagoBody_of_settled (key : String) (id : Nat) (t d : Cell) (s : State)
    (h : SettledMetodoPago key id s) :
    (metodoPagoBody key t d s).1 = id ∧
      (metodoPagoBody key t d s).2.metodos_pago = s.metodos_pago :=
  settled_result _ _ _ key id _ _ h

/-! ## Idempotent entity identity (C1) -/

/-- C1: for each of `getOrCreateProducto`, `getOrCreateSucursal` and `getOrCreateMetodoPago`,
two raw keys `a` and `b` whose normalised forms `lowercase(trim(·))` are non-empty and equal
resolve to the same identifier in one run: `a` is resolved in any state `s`, then any
resolver calls `mid` are performed, then `b` is resolved, whatever the auxiliary attributes
of the calls are. -/
theorem resolver_same_id_of_equal_normalized_keys (a b : Cell) (ha : a ≠ .null)
    (hb : b ≠ .null) (hne : toLowerCase (trim a.toStr) ≠ "")
    (heq : toLowerCase (trim a.toStr) = toLowerCase (trim b.toStr))
    (s : State) (mid : List ResolverCall) (x1 x2 y1 y2 : Cell) :
    (∃ id, (getOrCreateProducto a x1 x2 s).1 = some id ∧
      (getOrCreateProducto b y1 y2
        (runCalls mid (getOrCreateProducto a x1 x2 s).2)).1 = some id) ∧
    (∃ id, (getOrCreateSucursal a x1 x2 s).1 = some id ∧
      (getOrCreateSucursal b y1 y2
        (runCalls mid (getOrCreateSucursal a x1 x2 s).2)).1 = some id) ∧
    (∃ id, (getOrCreateMetodoPago a x1 s).1 = some id ∧
      (getOrCreateMetodoPago b y1
        (runCalls mid (getOrCreateMetodoPago a x1 s).2)).1 = some id) := by
  have hka := truthyKey_of_ne a ha hne
  have hkb := truthyKey_of_ne b hb (heq ▸ hne)
  rw [← heq] at hkb
  refine ⟨⟨(productoBody (toLowerCase (trim a.toStr)) a x1 x2 s).1, ?_, ?_⟩,
    ⟨(sucursalBody (toLowerCase (trim a.toStr)) a x1 x2 s).1, ?_, ?_⟩,
    ⟨(metodoPagoBody (toLowerCase (trim a.toStr)) a x1 s).1, ?_, ?_⟩⟩
  · rw [getOrCreateProducto_some _ _ _ _ _ hka]
  · rw [getOrCreateProducto_some _ _ _ _ _ hka, getOrCreateProducto_some _ _ _ _ _ hkb]
    exact congrArg some (productoBody_of_settled _ _ _ _ _ _
      (settledProducto_runCalls _ _ mid _ (settledProducto_after _ a x1 x2 s))).1
  · rw [getOrCreateSucursal_some _ _ _ _ _ hka]
  · rw [getOrCreateSucursal_some _ _ _ _ _ hka, getOrCreateSucursal_some _ _ _ _ _ hkb]
    exact congrArg some (sucursalBody_of_settled _ _ _ _ _ _
      (settledSucursal_runCalls _ _ mid _ (settledSucursal_after _ a x1 x2 s))).1
  · rw [getOrCreateMetodoPago_some _ _ _ _ hka]
  · rw [getOrCreateMetodoPago_some _ _ _ _ hka, getOrCreateMetodoPago_some _ _ _ _ hkb]
    exact congrArg some (metodoPagoBody_of_settled _ _ _ _ _
      (settledMetodoPago_runCalls _ _ mid _ (settledMetodoPago_after _ a x1 s))).1

/-- Witness of C1: the raw keys `"  Latte "` and `"LATTE"`, in a fresh store, with a
resolution of another product, a client and an empty store name in between. -/
theorem resolver_same_id_of_equal_normalized_keys_witness :
    toLowerCase (trim (Cell.str "  Latte ").toStr) ≠ "" ∧
    toLowerCase (trim (Cell.str "  Latte ").toStr) = toLowerCase (trim (Cell.str "LATTE").toStr) ∧
    ∃ id, (getOrCreateProducto (.str "  Latte ") .null .null freshState).1 = some id ∧
      (getOrCreateProducto (.str "LATTE") (.str "Hot") .null
        (runCalls [.producto (.str "Mocha") .null .null, .cliente (.str "C1") .null,
            .sucursal .null .null .null]
          (getOrCreateProducto (.str "  Latte ") .null .null freshState).2)).1 = some id :=
  ⟨by decide, by decide,
    (resolver_same_id_of_equal_normalized_keys (.str "  Latte ") (.str "LATTE") (by decide)
      (by decide) (by decide) (by decide) freshState
      [.producto (.str "Mocha") .null .null, .cliente (.str "C1") .null,
        .sucursal .null .null .null] .null .null (.str "Hot") .null).1⟩

/-! ## Default fallback (C5) -/

/-- C5: for a store name that is null, empty or white space only, `getOrCreateSucursal`
terminates (any recursion bound from two on gives the same result, which exists) and
returns the identifier that resolving `Sucursal Principal` returns in the same state; after
any resolver calls `mid`, resolving a blank name again returns that identifier and inserts
nothing, and the first call inserted at most the one default row.  The same holds for
`getOrCreateMetodoPago` and `Efectivo`. -/
theorem default_fallback (nombre nombre2 : Cell) (hn : Blank nombre) (hn2 : Blank nombre2)
    (s : State) (mid : List ResolverCall) (d c d1 c1 d2 c2 : Cell) :
    ((∀ fuel, getOrCreateSucursalFuel (fuel + 2) nombre d c s
        = getOrCreateSucursalFuel 2 nombre d c s) ∧
      (getOrCreateSucursalFuel 2 nombre d c s).isSome = true ∧
      ∃ id, (getOrCreateSucursal nombre d c s).1 = some id ∧
        (getOrCreateSucursal (.str "Sucursal Principal") d1 c1 s).1 = some id ∧
        (getOrCreateSucursal nombre2 d2 c2
          (runCalls mid (getOrCreateSucursal nombre d c s).2)).1 = some id ∧
        (getOrCreateSucursal nombre2 d2 c2
          (runCalls mid (getOrCreateSucursal nombre d c s).2)).2.sucursales
          = (runCalls mid (getOrCreateSucursal nombre d c s).2).sucursales ∧
        ((getOrCreateSucursal nombre d c s).2.sucursales.rows = s.sucursales.rows ∨
          (getOrCreateSucursal nombre d c s).2.sucursales.rows = s.sucursales.rows ++
            [⟨id, "Sucursal Principal", .str "Sin dirección", .str "Sin ciudad"⟩])) ∧
    ((∀ fuel, getOrCreateMetodoPagoFuel (fuel + 2) nombre d s
        = getOrCreateMetodoPagoFuel 2 nombre d s) ∧
      (getOrCreateMetodoPagoFuel 2 nombre d s).isSome = true ∧
      ∃ id, (getOrCreateMetodoPago nombre d s).1 = some id ∧
        (getOrCreateMetodoPago (.str "Efectivo") d1 s).1 = some id ∧
        (getOrCreateMetodoPago nombre2 d2
          (runCalls mid (getOrCreateMetodoPago nombre d s).2)).1 = some id ∧
        (getOrCreateMetodoPago nombre2 d2
          (runCalls mid (getOrCreateMetodoPago nombre d s).2)).2.metodos_pago
          = (runCalls mid (getOrCreateMetodoPago nombre d s).2).metodos_pago ∧
        ((getOrCreateMetodoPago nombre d s).2.metodos_pago.rows = s.metodos_pago.rows ∨
          (getOrCreateMetodoPago nombre d s).2.metodos_pago.rows = s.metodos_pago.rows ++
            [⟨id, "Efectivo", .str "Pago en efectivo"⟩])) := by
  have hk := truthyKey_of_blank nombre hn
  have hk2 := truthyKey_of_blank nombre2 hn2
  have hds : truthyKey (.str "Sucursal Principal") = some "sucursal principal" := by decide
  have hdm : truthyKey (.str "Efectivo") = some "efectivo" := by decide
  refine ⟨⟨?_, ?_, (sucursalBody "sucursal principal" (.str "Sucursal Principal")
      (.str "Sin dirección") (.str "Sin ciudad") s).1, ?_, ?_, ?_, ?_, ?_⟩,
    ⟨?_, ?_, (metodoPagoBody "efectivo" (.str "Efectivo") (.str "Pago en efectivo") s).1,
      ?_, ?_, ?_, ?_, ?_⟩⟩
  · intro fuel
    rw [getOrCreateSucursalFuel_eq fuel, getOrCreateSucursalFuel_eq 0]
  · rw [getOrCreateSucursalFuel_eq 0]; rfl
  · rw [getOrCreateSucursal_none _ _ _ _ hk]
  · rw [getOrCreateSucursal_some _ _ _ _ _ hds]
    exact congrArg some (lookupOrInsert_fst_indep _ _ _ _ _ _ _)
  · rw [getOrCreateSucursal_none _ _ _ _ hk, getOrCreateSucursal_none _ _ _ _ hk2]
    exact congrArg some (sucursalBody_of_settled _ _ _ _ _ _
      (settledSucursal_runCalls _ _ mid _ (settledSucursal_after _ _ _ _ s))).1
  · rw [getOrCreateSucursal_none _ _ _ _ hk, getOrCreateSucursal_none _ _ _ _ hk2]
    exact (sucursalBody_of_settled _ _ _ _ _ _
      (settledSucursal_runCalls _ _ mid _ (settledSucursal_after _ _ _ _ s))).2
  · rw [getOrCreateSucursal_none _ _ _ _ hk]
    simp only [sucursalBody, lookupOrInsert]
    cases s.lookupCaches.sucursales.hit "sucursal principal" with
    | some id => exact Or.inl rfl
    | none =>
      cases List.find? (fun x => decide (sqlLower x.nombre_sucursal = "sucursal principal"))
        s.sucursales.rows with
      | some r => exact Or.inl rfl
      | none => exact Or.inr rfl
  · intro fuel
    rw [getOrCreateMetodoPagoFuel_eq fuel, getOrCreateMetodoPagoFuel_eq 0]
  · rw [getOrCreateMetodoPagoFuel_eq 0]; rfl
  · rw [getOrCreateMetodoPago_none _ _ _ hk]
  · rw [getOrCreateMetodoPago_some _ _ _ _ hdm]
    exact congrArg some (lookupOrInsert_fst_indep _ _ _ _ _ _ _)
  · rw [getOrCreateMetodoPago_none _ _ _ hk, getOrCreateMetodoPago_none _ _ _ hk2]
    exact congrArg some (metodoPagoBody_of_settled _ _ _ _ _
      (settledMetodoPago_runCalls _ _ mid _ (settledMetodoPago_after _ _ _ s))).1
  · rw [getOrCreateMetodoPago_none _ _ _ hk, getOrCreateMetodoPago_none _ _ _ hk2]
    exact (metodoPagoBody_of_settled _ _ _ _ _
      (settledMetodoPago_runCalls _ _ mid _ (settledMetodoPago_after _ _ _ s))).2
  · rw [getOrCreateMetodoPago_none _ _ _ hk]
    simp only [metodoPagoBody, lookupOrInsert]
    cases s.lookupCaches.metodos_pago.hit "efectivo" with
    | some id => exact Or.inl rfl
    | none =>
      cases List.find? (fun x => decide (sqlLower x.tipo_pago = "efectivo"))
        s.metodos_pago.rows with
      | some r => exact Or.inl rfl
      | none => exact Or.inr rfl

/-- Witness of C5: the null store name and the white-space payment type in a fresh store. -/
theorem default_fallback_witness :
    Blank .null ∧ Blank (.str "  ") ∧
    ∃ id, (getOrCreateSucursal .null .null .null freshState).1 = some id ∧
      (getOrCreateSucursal (.str "Sucursal Principal") .null .null freshState).1 = some id :=
  ⟨Or.inl rfl, Or.inr ⟨"  ", rfl, by decide⟩,
    (default_fallback .null (.str "  ") (Or.inl rfl) (Or.inr ⟨"  ", rfl, by decide⟩) freshState
      [.producto (.str "Mocha") .null .null] .null .null .null .null .null .null).1.2.2.imp
      (fun _ h => ⟨h.1, h.2.1⟩)⟩

/-! ## At most one creation per key (C2) -/

theorem truthyKey_eq_some (n : Cell) (key : String) (h : truthyKey n = some key) :
    key = trim (toLowerCase n.toStr) := by
  cases n with
  | null => simp [truthyKey, normKey, Cell.toStringOpt] at h
  | str w =>
    simp only [truthyKey, normKey, Cell.toStringOpt, Option.map_some'] at h
    split at h
    · cases h
    · simpa [Cell.toStr] using h.symm
  | num d =>
    simp only [truthyKey, normKey, Cell.toStringOpt, Option.map_some'] at h
    split at h
    · cases h
    · simpa [Cell.toStr] using h.symm

/-- C2, the code at the failing input: from a freshly created schema, the two calls of
`getOrCreateCliente` with the codes `ABC123` and `abc123` both return a non-null
identifier (1 and 2) and leave two rows in `clientes`, although the two codes have one
normalised key (`abc123`, lower-cased and trimmed): more rows than distinct keys.  The
same two calls of `getOrCreateProducto` leave one row. -/
theorem cliente_rows_exceed_distinct_keys :
    toLowerCase (trim "ABC123") = "abc123" ∧ toLowerCase (trim "abc123") = "abc123" ∧
    (getOrCreateCliente (.str "ABC123") .null (createERSchema freshState)).1 = some 1 ∧
    (getOrCreateCliente (.str "abc123") .null
      (getOrCreateCliente (.str "ABC123") .null (createERSchema freshState)).2).1 = some 2 ∧
    (runCalls [.cliente (.str "ABC123") .null, .cliente (.str "abc123") .null]
      (createERSchema freshState)).clientes.rows
      = [⟨1, "ABC123", .null, none, none, 0, JSNum.ofInt 0⟩,
         ⟨2, "abc123", .null, none, none, 0, JSNum.ofInt 0⟩] ∧
    ([toLowerCase (trim "ABC123"), toLowerCase (trim "abc123")].dedup).length = 1 ∧
    (runCalls [.producto (.str "ABC123") .null .null, .producto (.str "abc123") .null .null]
      (createERSchema freshState)).productos.rows.length = 1 := by
  refine ⟨?_, ?_, ?_, ?_, ?_, ?_, ?_⟩ <;> decide

/-! ## Referential integrity (C3) -/

theorem idTruthy_some (o : Option Nat) (h : idTruthy o = true) : o = some (o.getD 0) := by
  cases o with
  | none => simp [idTruthy] at h
  | some id => rfl

theorem mapExcelRowToVenta_of_invalid (env : Env) (now : Int) (row headers : List Cell)
    (s : State) (hf : fechaObj env now (getValue headers row fechaNames) = none) :
    mapExcelRowToVenta env now row headers s = (.error "Invalid time value", s) := by
  unfold mapExcelRowToVenta
  rw [hf]

theorem mapExcelRowToVenta_of_truthy (env : Env) (now : Int) (row headers : List Cell)
    (s : State) (t : Int) (hf : fechaObj env now (getValue headers row fechaNames) = some t)
    (hk : keysTruthy (resolveRow row headers s).1 = true) :
    mapExcelRowToVenta env now row headers s =
      (.ok (ventaRecord env t (getValue headers row precioNames) (cantidadCell headers row)
        (resolveRow row headers s).1), (resolveRow row headers s).2) := by
  unfold mapExcelRowToVenta
  rw [hf]
  exact if_pos hk

theorem mapExcelRowToVenta_of_falsy (env : Env) (now : Int) (row headers : List Cell)
    (s : State) (t : Int) (hf : fechaObj env now (getValue headers row fechaNames) = some t)
    (hk : keysTruthy (resolveRow row headers s).1 = false) :
    mapExcelRowToVenta env now row headers s =
      (.error "Failed to resolve required foreign keys", (resolveRow row headers s).2) := by
  unfold mapExcelRowToVenta
  rw [hf]
  exact if_neg (by simp [hk])

theorem keysTruthy_iff (k : ForeignKeys) :
    keysTruthy k = true ↔
      idTruthy k.idProducto = true ∧ idTruthy k.idSucursal = true ∧
        idTruthy k.idMetodoPago = true := by
  simp [keysTruthy, and_assoc]

/-- Off the names inherited from `Object.prototype`, the full body is `lookupOrInsert`. -/
theorem lookupOrInsertFull_of_own {α : Type} (idOf : α → Nat) (isMatch : α → Bool)
    (mk : Nat → α) (key : String) (c : Cache) (t : Table α)
    (h : key ∉ objectPrototypeKeys) :
    lookupOrInsertFull idOf isMatch mk key c t
      = (.id (lookupOrInsert idOf isMatch mk key c t).1,
          (lookupOrInsert idOf isMatch mk key c t).2.1,
          (lookupOrInsert idOf isMatch mk key c t).2.2) := by
  unfold lookupOrInsertFull Cache.read
  cases c.get key with
  | none => simp [h]
  | some id => rfl

/-- For a product name whose key is not inherited from `Object.prototype`,
`getOrCreateProducto` is `getOrCreateProductoFull`. -/
theorem getOrCreateProductoFull_of_own (nombre categoria precioBase : Cell) (s : State)
    (key : String) (hk : truthyKey nombre = some key) (h : key ∉ objectPrototypeKeys) :
    getOrCreateProductoFull nombre categoria precioBase s
      = (.id (productoBody key nombre categoria precioBase s).1,
          (productoBody key nombre categoria precioBase s).2) ∧
    getOrCreateProducto nombre categoria precioBase s
      = (some (productoBody key nombre categoria precioBase s).1,
          (productoBody key nombre categoria precioBase s).2) := by
  refine ⟨?_, getOrCreateProducto_some _ _ _ _ _ hk⟩
  unfold getOrCreateProductoFull
  simp only [hk, lookupOrInsertFull_of_own _ _ _ key _ _ h]
  rfl

/-- C3, the code at the failing input: in a freshly created schema the product cell
`Constructor` has the key `constructor`, for which the empty product cache has no entry of
its own but `cache[key]` is the inherited function `Object`: the test of line 176 succeeds
and `getOrCreateProducto` returns that function, leaving `productos` empty and the state
as it was.  The value is truthy, so the check of line 408 lets the record through, and the
sale is stored with an `id_producto` that is the identifier of no row. -/
theorem inherited_value_as_product_identifier :
    truthyKey (.str "Constructor") = some "constructor" ∧
    (createERSchema freshState).lookupCaches.productos.get "constructor" = none ∧
    (createERSchema freshState).lookupCaches.productos.read "constructor"
      = .inherited "constructor" ∧
    getOrCreateProductoFull (.str "Constructor") .null .null (createERSchema freshState)
      = (.inherited "constructor", createERSchema freshState) ∧
    (Resolved.inherited "constructor").truthy = true ∧
    (getOrCreateProductoFull (.str "Constructor") .null .null
      (createERSchema freshState)).2.productos.rows = [] := by
  refine ⟨?_, ?_, ?_, ?_, ?_, ?_⟩ <;> decide

/-! ## Partial-failure isolation (C4) -/

theorem resolveForeignKeys_ventas (producto categoria precio cliente sucursal metodoPago : Cell)
    (s : State) :
    (resolveForeignKeys producto categoria precio cliente sucursal metodoPago s).2.ventas
      = s.ventas := by
  unfold resolveForeignKeys
  simp only []
  have h1 : (getOrCreateProducto producto categoria precio s).2.ventas = s.ventas := by
    cases hk : truthyKey producto with
    | none => rw [getOrCreateProducto_none _ _ _ _ hk]
    | some key => rw [getOrCreateProducto_some _ _ _ _ _ hk]; rfl
  generalize getOrCreateProducto producto categoria precio s = r1 at h1 ⊢
  have h2 : (if cliente.truthy = true then getOrCreateCliente cliente .null r1.2
      else (none, r1.2)).2.ventas = r1.2.ventas := by
    unfold getOrCreateCliente
    split <;> rfl
  generalize (if cliente.truthy = true then getOrCreateCliente cliente .null r1.2
    else (none, r1.2)) = r2 at h2 ⊢
  have h3 : (getOrCreateSucursal sucursal .null .null r2.2).2.ventas = r2.2.ventas := by
    cases hk : truthyKey sucursal with
    | none => rw [getOrCreateSucursal_none _ _ _ _ hk]; rfl
    | some key => rw [getOrCreateSucursal_some _ _ _ _ _ hk]; rfl
  generalize getOrCreateSucursal sucursal .null .null r2.2 = r3 at h3 ⊢
  have h4 : (getOrCreateMetodoPago metodoPago .null r3.2).2.ventas = r3.2.ventas := by
    cases hk : truthyKey metodoPago with
    | none => rw [getOrCreateMetodoPago_none _ _ _ hk]; rfl
    | some key => rw [getOrCreateMetodoPago_some _ _ _ _ hk]; rfl
  rw [h4, h3, h2, h1]

theorem mapExcelRowToVenta_ventas (env : Env) (now : Int) (row headers : List Cell) (s : State) :
    (mapExcelRowToVenta env now row headers s).2.ventas = s.ventas := by
  cases hf : fechaObj env now (getValue headers row fechaNames) with
  | none => rw [mapExcelRowToVenta_of_invalid env now row headers s hf]
  | some t =>
    cases hk : keysTruthy (resolveRow row headers s).1 with
    | true =>
      rw [mapExcelRowToVenta_of_truthy env now row headers s t hf hk]
      exact resolveForeignKeys_ventas _ _ _ _ _ _ s
    | false =>
      rw [mapExcelRowToVenta_of_falsy env now row headers s t hf hk]
      exact resolveForeignKeys_ventas _ _ _ _ _ _ s

theorem rowStep_state_indep (env : Env) (sheet : Nat) (headers row : List Cell) (i : Nat)
    (s : State) (r r2 : SheetReport) :
    (rowStep env sheet headers row i (s, r)).1 = (rowStep env sheet headers row i (s, r2)).1 := by
  unfold rowStep
  simp only []
  generalize mapExcelRowToVenta env (env.clock sheet i) row headers s = m
  obtain ⟨res, s2⟩ := m
  cases res <;> rfl

theorem rowStep_spec (env : Env) (sheet : Nat) (headers row : List Cell) (i : Nat)
    (acc : State × SheetReport) :
    (rowStep env sheet headers row i acc).1.ventas.rows.map Venta.data
        = acc.1.ventas.rows.map Venta.data
          ++ okRecords [(mapExcelRowToVenta env (env.clock sheet i) row headers acc.1).1] ∧
      (rowStep env sheet headers row i acc).2.errorCount = acc.2.errorCount
          + errorTotal [(mapExcelRowToVenta env (env.clock sheet i) row headers acc.1).1] ∧
      (rowStep env sheet headers row i acc).2.successCount = acc.2.successCount
          + (okRecords [(mapExcelRowToVenta env (env.clock sheet i) row headers acc.1).1]).length
      := by
  have hv := mapExcelRowToVenta_ventas env (env.clock sheet i) row headers acc.1
  unfold rowStep
  generalize mapExcelRowToVenta env (env.clock sheet i) row headers acc.1 = m at hv ⊢
  obtain ⟨res, s2⟩ := m
  simp only at hv
  cases res with
  | error msg => simp [okRecords, errorTotal, hv]
  | ok v => simp [okRecords, errorTotal, insertVenta, Table.insert, hv]

theorem okRecords_cons (r : Except String VentaData) (rest : List (Except String VentaData)) :
    okRecords (r :: rest) = okRecords [r] ++ okRecords rest := by
  cases r <;> simp [okRecords]

theorem errorTotal_cons (r : Except String VentaData) (rest : List (Except String VentaData)) :
    errorTotal (r :: rest) = errorTotal [r] + errorTotal rest := by
  cases r <;> simp [errorTotal, Nat.add_comm]

theorem okRecords_add_errorTotal (l : List (Except String VentaData)) :
    (okRecords l).length + errorTotal l = l.length := by
  induction l with
  | nil => rfl
  | cons r rest ih => cases r <;> simp [okRecords, errorTotal] <;> omega

theorem rowResults_length (env : Env) (sheet : Nat) (headers : List Cell)
    (rows : List (List Cell)) :
    ∀ (i : Nat) (s : State), (rowResults env sheet headers rows i s).length = rows.length := by
  induction rows with
  | nil => intro i s; rfl
  | cons row rest ih => intro i s; simp [rowResults, ih]

theorem rowLoop_spec (env : Env) (sheet : Nat) (headers : List Cell) (rows : List (List Cell)) :
    ∀ (i : Nat) (acc : State × SheetReport),
      (rowLoop env sheet headers rows i acc).1.ventas.rows.map Venta.data
          = acc.1.ventas.rows.map Venta.data
            ++ okRecords (rowResults env sheet headers rows i acc.1) ∧
        (rowLoop env sheet headers rows i acc).2.errorCount = acc.2.errorCount
            + errorTotal (rowResults env sheet headers rows i acc.1) ∧
        (rowLoop env sheet headers rows i acc).2.successCount = acc.2.successCount
            + (okRecords (rowResults env sheet headers rows i acc.1)).length := by
  induction rows with
  | nil => intro i acc; simp [rowLoop, rowResults, okRecords, errorTotal]
  | cons row rest ih =>
    intro i acc
    have hs := rowStep_spec env sheet headers row i acc
    have hi := ih (i + 1) (rowStep env sheet headers row i acc)
    have he : (rowStep env sheet headers row i acc).1
        = (rowStep env sheet headers row i (acc.1, ⟨0, 0, []⟩)).1 :=
      rowStep_state_indep env sheet headers row i acc.1 acc.2 _
    simp only [rowLoop, rowResults]
    rw [okRecords_cons, errorTotal_cons, ← he]
    refine ⟨?_, ?_, ?_⟩
    · rw [hi.1, hs.1, List.append_assoc]
    · rw [hi.2.1, hs.2.1, Nat.add_assoc]
    · rw [hi.2.2, hs.2.2, List.length_append, Nat.add_assoc]

/-- C4: the row loop, started with both counters at zero on the data rows of a sheet,
appends to `ventas` exactly the records of the rows whose `mapExcelRowToVenta` call
succeeds, in source order, and nothing for a failing row; every row is processed whatever
happened to the rows before it; `successCount` is the number of succeeding rows and
`errorCount` the number of failing rows, so they add up to the number of rows (100 rows of
which two fail give 98 and 2). -/
theorem partial_failure_isolation (env : Env) (sheet : Nat) (headers : List Cell)
    (rows : List (List Cell)) (s : State) :
    (rowLoop env sheet headers rows 0 (s, ⟨0, 0, []⟩)).1.ventas.rows.map Venta.data
      = s.ventas.rows.map Venta.data ++ okRecords (rowResults env sheet headers rows 0 s) ∧
    (rowResults env sheet headers rows 0 s).length = rows.length ∧
    (rowLoop env sheet headers rows 0 (s, ⟨0, 0, []⟩)).2.successCount
      = (okRecords (rowResults env sheet headers rows 0 s)).length ∧
    (rowLoop env sheet headers rows 0 (s, ⟨0, 0, []⟩)).2.errorCount
      = errorTotal (rowResults env sheet headers rows 0 s) ∧
    (rowLoop env sheet headers rows 0 (s, ⟨0, 0, []⟩)).2.successCount
      + (rowLoop env sheet headers rows 0 (s, ⟨0, 0, []⟩)).2.errorCount = rows.length ∧
    (rows.length = 100 → errorTotal (rowResults env sheet headers rows 0 s) = 2 →
      (rowLoop env sheet headers rows 0 (s, ⟨0, 0, []⟩)).2.successCount = 98 ∧
      (rowLoop env sheet headers rows 0 (s, ⟨0, 0, []⟩)).2.errorCount = 2) := by
  have h := rowLoop_spec env sheet headers rows 0 (s, ⟨0, 0, []⟩)
  have hl := rowResults_length env sheet headers rows 0 s
  have hsum := okRecords_add_errorTotal (rowResults env sheet headers rows 0 s)
  simp only [Nat.zero_add] at h
  refine ⟨h.1, hl, h.2.2, h.2.1, ?_, ?_⟩
  · rw [h.2.2, h.2.1, hsum, hl]
  · intro h100 h2
    rw [h.2.2, h.2.1]
    omega

/-- Witness of C4: one hundred rows of which rows 5 and 50 have no product. -/
theorem partial_failure_isolation_witness :
    sampleRows.length = 100 ∧
    errorTotal (rowResults sampleEnv 0 [.str "Producto", .str "Precio"] sampleRows 0 freshState)
      = 2 ∧
    (rowLoop sampleEnv 0 [.str "Producto", .str "Precio"] sampleRows 0
      (freshState, ⟨0, 0, []⟩)).2.successCount = 98 ∧
    (rowLoop sampleEnv 0 [.str "Producto", .str "Precio"] sampleRows 0
      (freshState, ⟨0, 0, []⟩)).2.errorCount = 2 :=
  ⟨by decide, by decide,
    (partial_failure_isolation sampleEnv 0 [.str "Producto", .str "Precio"] sampleRows
      freshState).2.2.2.2.2 (by decide) (by decide)⟩

/-! ## The resolvers work on separate parts of the state -/

theorem getOrCreateProducto_frame (n c p : Cell) (s : State) :
    (getOrCreateProducto n c p s).2.clientes = s.clientes ∧
    (getOrCreateProducto n c p s).2.sucursales = s.sucursales ∧
    (getOrCreateProducto n c p s).2.metodos_pago = s.metodos_pago ∧
    (getOrCreateProducto n c p s).2.lookupCaches.clientes = s.lookupCaches.clientes ∧
    (getOrCreateProducto n c p s).2.lookupCaches.sucursales = s.lookupCaches.sucursales ∧
    (getOrCreateProducto n c p s).2.lookupCaches.metodos_pago = s.lookupCaches.metodos_pago := by
  cases hk : truthyKey n with
  | none => rw [getOrCreateProducto_none _ _ _ _ hk]; exact ⟨rfl, rfl, rfl, rfl, rfl, rfl⟩
  | some key => rw [getOrCreateProducto_some _ _ _ _ _ hk]; exact ⟨rfl, rfl, rfl, rfl, rfl, rfl⟩

theorem getOrCreateCliente_frame (k t : Cell) (s : State) :
    (getOrCreateCliente k t s).2.productos = s.productos ∧
    (getOrCreateCliente k t s).2.sucursales = s.sucursales ∧
    (getOrCreateCliente k t s).2.metodos_pago = s.metodos_pago ∧
    (getOrCreateCliente k t s).2.lookupCaches.productos = s.lookupCaches.productos ∧
    (getOrCreateCliente k t s).2.lookupCaches.sucursales = s.lookupCaches.sucursales ∧
    (getOrCreateCliente k t s).2.lookupCaches.metodos_pago = s.lookupCaches.metodos_pago := by
  unfold getOrCreateCliente
  split <;> exact ⟨rfl, rfl, rfl, rfl, rfl, rfl⟩

theorem getOrCreateSucursal_frame (n d c : Cell) (s : State) :
    (getOrCreateSucursal n d c s).2.productos = s.productos ∧
    (getOrCreateSucursal n d c s).2.clientes = s.clientes ∧
    (getOrCreateSucursal n d c s).2.metodos_pago = s.metodos_pago ∧
    (getOrCreateSucursal n d c s).2.lookupCaches.productos = s.lookupCaches.productos ∧
    (getOrCreateSucursal n d c s).2.lookupCaches.clientes = s.lookupCaches.clientes ∧
    (getOrCreateSucursal n d c s).2.lookupCaches.metodos_pago = s.lookupCaches.metodos_pago := by
  cases hk : truthyKey n with
  | none => rw [getOrCreateSucursal_none _ _ _ _ hk]; exact ⟨rfl, rfl, rfl, rfl, rfl, rfl⟩
  | some key => rw [getOrCreateSucursal_some _ _ _ _ _ hk]; exact ⟨rfl, rfl, rfl, rfl, rfl, rfl⟩

theorem getOrCreateMetodoPago_frame (t d : Cell) (s : State) :
    (getOrCreateMetodoPago t d s).2.productos = s.productos ∧
    (getOrCreateMetodoPago t d s).2.clientes = s.clientes ∧
    (getOrCreateMetodoPago t d s).2.sucursales = s.sucursales ∧
    (getOrCreateMetodoPago t d s).2.lookupCaches.productos = s.lookupCaches.productos ∧
    (getOrCreateMetodoPago t d s).2.lookupCaches.clientes = s.lookupCaches.clientes ∧
    (getOrCreateMetodoPago t d s).2.lookupCaches.sucursales = s.lookupCaches.sucursales := by
  cases hk : truthyKey t with
  | none => rw [getOrCreateMetodoPago_none _ _ _ hk]; exact ⟨rfl, rfl, rfl, rfl, rfl, rfl⟩
  | some key => rw [getOrCreateMetodoPago_some _ _ _ _ hk]; exact ⟨rfl, rfl, rfl, rfl, rfl, rfl⟩

/-- The identifier a store resolution returns depends on the store table and cache only. -/
theorem getOrCreateSucursal_congr (n d c : Cell) (s s2 : State)
    (ht : s2.sucursales = s.sucursales)
    (hc : s2.lookupCaches.sucursales = s.lookupCaches.sucursales) :
    (getOrCreateSucursal n d c s2).1 = (getOrCreateSucursal n d c s).1 := by
  cases hk : truthyKey n with
  | none =>
    rw [getOrCreateSucursal_none _ _ _ _ hk, getOrCreateSucursal_none _ _ _ _ hk]
    simp only [sucursalBody, ht, hc]
  | some key =>
    rw [getOrCreateSucursal_some _ _ _ _ _ hk, getOrCreateSucursal_some _ _ _ _ _ hk]
    simp only [sucursalBody, ht, hc]

/-- The identifier a payment method resolution returns depends on its table and cache only. -/
theorem getOrCreateMetodoPago_congr (t d : Cell) (s s2 : State)
    (ht : s2.metodos_pago = s.metodos_pago)
    (hc : s2.lookupCaches.metodos_pago = s.lookupCaches.metodos_pago) :
    (getOrCreateMetodoPago t d s2).1 = (getOrCreateMetodoPago t d s).1 := by
  cases hk : truthyKey t with
  | none =>
    rw [getOrCreateMetodoPago_none _ _ _ hk, getOrCreateMetodoPago_none _ _ _ hk]
    simp only [metodoPagoBody, ht, hc]
  | some key =>
    rw [getOrCreateMetodoPago_some _ _ _ _ hk, getOrCreateMetodoPago_some _ _ _ _ hk]
    simp only [metodoPagoBody, ht, hc]

/-- The identifier a client resolution returns depends on the client table and cache only. -/
theorem getOrCreateCliente_congr (k t : Cell) (s s2 : State)
    (ht : s2.clientes = s.clientes)
    (hc : s2.lookupCaches.clientes = s.lookupCaches.clientes) :
    (getOrCreateCliente k t s2).1 = (getOrCreateCliente k t s).1 := by
  unfold getOrCreateCliente
  split
  · simp only [clienteBody, ht, hc]
  · rfl

/-- The four identifiers of line 403-406 are those the resolvers return in the state the
row started from: no resolver reads what another one writes. -/
theorem resolveForeignKeys_keys (producto categoria precio cliente sucursal metodoPago : Cell)
    (s : State) :
    (resolveForeignKeys producto categoria precio cliente sucursal metodoPago s).1 =
      ⟨(getOrCreateProducto producto categoria precio s).1,
        if cliente.truthy then (getOrCreateCliente cliente .null s).1 else none,
        (getOrCreateSucursal sucursal .null .null s).1,
        (getOrCreateMetodoPago metodoPago .null s).1⟩ := by
  unfold resolveForeignKeys
  simp only []
  have f1 := getOrCreateProducto_frame producto categoria precio s
  generalize getOrCreateProducto producto categoria precio s = r1 at f1 ⊢
  have e2 : (if cliente.truthy = true then getOrCreateCliente cliente .null r1.2
      else (none, r1.2)).1
      = if cliente.truthy = true then (getOrCreateCliente cliente .null s).1 else none := by
    split
    · exact getOrCreateCliente_congr _ _ _ _ f1.1 f1.2.2.2.1
    · rfl
  have f2 : (if cliente.truthy = true then getOrCreateCliente cliente .null r1.2
      else (none, r1.2)).2.sucursales = s.sucursales ∧
      (if cliente.truthy = true then getOrCreateCliente cliente .null r1.2
      else (none, r1.2)).2.metodos_pago = s.metodos_pago ∧
      (if cliente.truthy = true then getOrCreateCliente cliente .null r1.2
      else (none, r1.2)).2.lookupCaches.sucursales = s.lookupCaches.sucursales ∧
      (if cliente.truthy = true then getOrCreateCliente cliente .null r1.2
      else (none, r1.2)).2.lookupCaches.metodos_pago = s.lookupCaches.metodos_pago := by
    split
    · have f := getOrCreateCliente_frame cliente .null r1.2
      exact ⟨f.2.1.trans f1.2.1, f.2.2.1.trans f1.2.2.1, f.2.2.2.2.1.trans f1.2.2.2.2.1,
        f.2.2.2.2.2.trans f1.2.2.2.2.2⟩
    · exact ⟨f1.2.1, f1.2.2.1, f1.2.2.2.2.1, f1.2.2.2.2.2⟩
  generalize (if cliente.truthy = true then getOrCreateCliente cliente .null r1.2
    else (none, r1.2)) = r2 at e2 f2 ⊢
  have e3 := getOrCreateSucursal_congr sucursal .null .null s r2.2 f2.1 f2.2.2.1
  have f3 := getOrCreateSucursal_frame sucursal .null .null r2.2
  generalize getOrCreateSucursal sucursal .null .null r2.2 = r3 at e3 f3 ⊢
  have e4 := getOrCreateMetodoPago_congr metodoPago .null s r3.2 (f3.2.2.1.trans f2.2.1)
    (f3.2.2.2.2.2.trans f2.2.2.2)
  rw [e2, e3, e4]

theorem Cache.hit_ne_zero (c : Cache) (k : String) (id : Nat) (h : c.hit k = some id) :
    id ≠ 0 := by
  unfold Cache.hit at h
  split at h
  · split at h
    · cases h
    · cases h; assumption
  · cases h

theorem lookupOrInsert_ne_zero {α : Type} (idOf : α → Nat) (isMatch : α → Bool) (mk : Nat → α)
    (key : String) (c : Cache) (t : Table α) (h : ∀ r ∈ t.rows, idOf r ≠ 0) :
    (lookupOrInsert idOf isMatch mk key c t).1 ≠ 0 := by
  unfold lookupOrInsert
  cases hh : c.hit key with
  | some id => exact Cache.hit_ne_zero c key id hh
  | none =>
    cases hf : t.rows.find? isMatch with
    | some r => exact h r (List.mem_of_find?_eq_some hf)
    | none => exact Table.nextId_pos idOf t

theorem idTruthy_getOrCreateProducto (n c p : Cell) (s : State) (hpos : PositiveIds s) :
    idTruthy (getOrCreateProducto n c p s).1 = (truthyKey n).isSome := by
  cases hk : truthyKey n with
  | none => rw [getOrCreateProducto_none _ _ _ _ hk]; rfl
  | some key =>
    rw [getOrCreateProducto_some _ _ _ _ _ hk]
    have := lookupOrInsert_ne_zero Producto.id_producto
      (fun p => decide (sqlLower p.nombre_producto = key))
      (fun id => ⟨id, n.sqlText, c, p⟩) key s.lookupCaches.productos s.productos hpos.1
    simpa [idTruthy, productoBody] using this

theorem idTruthy_getOrCreateSucursal (n d c : Cell) (s : State) (hpos : PositiveIds s) :
    idTruthy (getOrCreateSucursal n d c s).1 = true := by
  cases hk : truthyKey n with
  | none =>
    rw [getOrCreateSucursal_none _ _ _ _ hk]
    have := lookupOrInsert_ne_zero Sucursal.id_sucursal
      (fun x => decide (sqlLower x.nombre_sucursal = "sucursal principal"))
      (fun id => ⟨id, (Cell.str "Sucursal Principal").toStr, .str "Sin dirección",
        .str "Sin ciudad"⟩) "sucursal principal" s.lookupCaches.sucursales s.sucursales
      hpos.2.1
    simpa [idTruthy, sucursalBody] using this
  | some key =>
    rw [getOrCreateSucursal_some _ _ _ _ _ hk]
    have := lookupOrInsert_ne_zero Sucursal.id_sucursal
      (fun x => decide (sqlLower x.nombre_sucursal = key))
      (fun id => ⟨id, n.sqlText, d, c⟩) key s.lookupCaches.sucursales s.sucursales hpos.2.1
    simpa [idTruthy, sucursalBody] using this

theorem idTruthy_getOrCreateMetodoPago (t d : Cell) (s : State) (hpos : PositiveIds s) :
    idTruthy (getOrCreateMetodoPago t d s).1 = true := by
  cases hk : truthyKey t with
  | none =>
    rw [getOrCreateMetodoPago_none _ _ _ hk]
    have := lookupOrInsert_ne_zero MetodoPago.id_metodo_pago
      (fun x => decide (sqlLower x.tipo_pago = "efectivo"))
      (fun id => ⟨id, (Cell.str "Efectivo").toStr, .str "Pago en efectivo"⟩) "efectivo"
      s.lookupCaches.metodos_pago s.metodos_pago hpos.2.2
    simpa [idTruthy, metodoPagoBody] using this
  | some key =>
    rw [getOrCreateMetodoPago_some _ _ _ _ hk]
    have := lookupOrInsert_ne_zero MetodoPago.id_metodo_pago
      (fun x => decide (sqlLower x.tipo_pago = key))
      (fun id => ⟨id, t.sqlText, d⟩) key s.lookupCaches.metodos_pago s.metodos_pago hpos.2.2
    simpa [idTruthy, metodoPagoBody] using this

/-- In a store without an identifier 0, the check of line 408 passes exactly when the
product value has a usable key. -/
theorem keysTruthy_resolveRow (row headers : List Cell) (s : State) (hpos : PositiveIds s) :
    keysTruthy (resolveRow row headers s).1
      = (truthyKey (getValue headers row productoNames)).isSome := by
  unfold resolveRow
  rw [resolveForeignKeys_keys]
  simp only [keysTruthy, idTruthy_getOrCreateProducto _ _ _ s hpos,
    idTruthy_getOrCreateSucursal _ _ _ s hpos, idTruthy_getOrCreateMetodoPago _ _ s hpos,
    Bool.and_true]

theorem mapExcelRowToVenta_ok_eq (env : Env) (now : Int) (row headers : List Cell) (s : State)
    (v : VentaData) (h : (mapExcelRowToVenta env now row headers s).1 = .ok v) :
    ∃ t, fechaObj env now (getValue headers row fechaNames) = some t ∧
      keysTruthy (resolveRow row headers s).1 = true ∧
      v = ventaRecord env t (getValue headers row precioNames) (cantidadCell headers row)
        (resolveRow row headers s).1 := by
  cases hf : fechaObj env now (getValue headers row fechaNames) with
  | none =>
    rw [mapExcelRowToVenta_of_invalid env now row headers s hf] at h
    exact Except.noConfusion h
  | some t =>
    cases hk : keysTruthy (resolveRow row headers s).1 with
    | true =>
      rw [mapExcelRowToVenta_of_truthy env now row headers s t hf hk] at h
      exact ⟨t, rfl, rfl, (Except.ok.inj h).symm⟩
    | false =>
      rw [mapExcelRowToVenta_of_falsy env now row headers s t hf hk] at h
      exact Except.noConfusion h

/-! ## Anonymous sales (C6) -/

theorem resolveForeignKeys_clientes_of_falsy
    (producto categoria precio cliente sucursal metodoPago : Cell) (s : State)
    (hc : cliente.truthy = false) :
    (resolveForeignKeys producto categoria precio cliente sucursal metodoPago s).2.clientes
        = s.clientes ∧
      (resolveForeignKeys producto categoria precio cliente sucursal
        metodoPago s).2.lookupCaches.clientes = s.lookupCaches.clientes := by
  unfold resolveForeignKeys
  simp only [hc, Bool.false_eq_true, if_false]
  have f1 := getOrCreateProducto_frame producto categoria precio s
  generalize getOrCreateProducto producto categoria precio s = r1 at f1 ⊢
  have f3 := getOrCreateSucursal_frame sucursal .null .null r1.2
  generalize getOrCreateSucursal sucursal .null .null r1.2 = r3 at f3 ⊢
  have f4 := getOrCreateMetodoPago_frame metodoPago .null r3.2
  exact ⟨f4.2.1.trans (f3.2.1.trans f1.1),
    f4.2.2.2.2.1.trans (f3.2.2.2.2.1.trans f1.2.2.2.1)⟩

/-- C6: for a client code that is null or the empty string, `getOrCreateCliente` returns
null and changes nothing (neither the `clientes` table nor any cache); and a row whose
client field is absent leaves `clientes` and its cache as they were, is mapped to a record
with `id_cliente` null whenever it is mapped, and is mapped whenever its date is valid and
its product has a usable key (in a store without an identifier 0): the missing client never
makes the row fail. -/
theorem absent_client_is_null (codigo tipo : Cell) (hc : codigo = .null ∨ codigo = .str "")
    (env : Env) (now : Int) (row headers : List Cell) (s : State)
    (habs : getValue headers row clienteNames = .null) :
    getOrCreateCliente codigo tipo s = (none, s) ∧
    (mapExcelRowToVenta env now row headers s).2.clientes = s.clientes ∧
    (mapExcelRowToVenta env now row headers s).2.lookupCaches.clientes
      = s.lookupCaches.clientes ∧
    (∀ v, (mapExcelRowToVenta env now row headers s).1 = .ok v → v.id_cliente = none) ∧
    (PositiveIds s → (fechaObj env now (getValue headers row fechaNames)).isSome = true →
      (truthyKey (getValue headers row productoNames)).isSome = true →
      ∃ v, (mapExcelRowToVenta env now row headers s).1 = .ok v ∧ v.id_cliente = none) := by
  have hfal : (getValue headers row clienteNames).truthy = false := by rw [habs]; rfl
  have hfr := resolveForeignKeys_clientes_of_falsy (getValue headers row productoNames)
    (getValue headers row categoriaNames) (getValue headers row precioNames)
    (getValue headers row clienteNames) (getValue headers row sucursalNames)
    (getValue headers row metodoPagoNames) s hfal
  have hid : (resolveRow row headers s).1.idCliente = none := by
    unfold resolveRow
    rw [resolveForeignKeys_keys]
    simp [hfal]
  refine ⟨?_, ?_, ?_, ?_, ?_⟩
  · rcases hc with hc | hc <;> subst hc <;> rfl
  · cases hf : fechaObj env now (getValue headers row fechaNames) with
    | none => rw [mapExcelRowToVenta_of_invalid env now row headers s hf]
    | some t =>
      cases hk : keysTruthy (resolveRow row headers s).1 with
      | true => rw [mapExcelRowToVenta_of_truthy env now row headers s t hf hk]; exact hfr.1
      | false => rw [mapExcelRowToVenta_of_falsy env now row headers s t hf hk]; exact hfr.1
  · cases hf : fechaObj env now (getValue headers row fechaNames) with
    | none => rw [mapExcelRowToVenta_of_invalid env now row headers s hf]
    | some t =>
      cases hk : keysTruthy (resolveRow row headers s).1 with
      | true => rw [mapExcelRowToVenta_of_truthy env now row headers s t hf hk]; exact hfr.2
      | false => rw [mapExcelRowToVenta_of_falsy env now row headers s t hf hk]; exact hfr.2
  · intro v hv
    obtain ⟨t, _, _, hv2⟩ := mapExcelRowToVenta_ok_eq env now row headers s v hv
    rw [hv2]
    exact hid
  · intro hpos hf hp
    cases hft : fechaObj env now (getValue headers row fechaNames) with
    | none => rw [hft] at hf; cases hf
    | some t =>
      have hk : keysTruthy (resolveRow row headers s).1 = true := by
        rw [keysTruthy_resolveRow row headers s hpos]; exact hp
      rw [mapExcelRowToVenta_of_truthy env now row headers s t hft hk]
      exact ⟨_, rfl, hid⟩

/-- Witness of C6: the null code, and the last row of the sample workbook (no client cell)
in a fresh store. -/
theorem absent_client_is_null_witness :
    getValue [.str "Producto", .str "Precio", .str "Cantidad", .str "Cliente"]
      [.str " latte ", .str "abc", .null, .null] clienteNames = .null ∧
    ∃ v, (mapExcelRowToVenta sampleEnv 0
        [.str " latte ", .str "abc", .null, .null]
        [.str "Producto", .str "Precio", .str "Cantidad", .str "Cliente"] freshState).1 = .ok v ∧
      v.id_cliente = none :=
  ⟨by decide,
    (absent_client_is_null .null .null (Or.inl rfl) sampleEnv 0
      [.str " latte ", .str "abc", .null, .null]
      [.str "Producto", .str "Precio", .str "Cantidad", .str "Cliente"] freshState
      (by decide)).2.2.2.2
      (by simp [PositiveIds, freshState, Table.empty]) (by decide) (by decide)⟩

/-! ## Fields without a matching header -/

theorem findIndex_eq_none {α : Type} (p : α → Bool) (l : List α) (h : ∀ a ∈ l, p a = false) :
    findIndex p l = none := by
  induction l with
  | nil => rfl
  | cons a t ih =>
    have ha : p a = false := h a (List.mem_cons_self a t)
    simp [findIndex, ha, ih (fun b hb => h b (List.mem_cons_of_mem a hb))]

/-- A field none of whose recognised substrings occurs in a header is absent. -/
theorem getValue_of_no_match (headers row : List Cell) (names : List String)
    (h : ∀ c ∈ headers, ∀ n ∈ names, headerMatches n c = false) :
    getValue headers row names = .null := by
  induction names with
  | nil => rfl
  | cons n rest ih =>
    have hn : findIndex (headerMatches n) headers = none :=
      findIndex_eq_none _ _ (fun c hc => h c hc n (List.mem_cons_self n rest))
    simp only [getValue, hn]
    exact ih (fun c hc m hm => h c hc m (List.mem_cons_of_mem n hm))

/-! ## Numeric coercion (C8) -/

/-- C8, the code at the failing input: a row whose quantity cell holds the integer 0 (with
product `Latte` and price 3.5) is mapped to a record whose `cantidad` is 1, not 0, and
whose `monto_total` is 3.5, not 0: `getValue(...) || 1` and `parseInt(cantidad) || 1`
replace the falsy value 0 by the default. -/
theorem zero_quantity_becomes_one :
    ∃ v, (mapExcelRowToVenta sampleEnv 0 [.str "Latte", .num ⟨35, -1⟩, .num ⟨0, 0⟩]
        [.str "Producto", .str "Precio", .str "Cantidad"] freshState).1 = .ok v ∧
      v.cantidad = JSNum.ofInt 1 ∧ v.cantidad ≠ JSNum.ofInt 0 ∧
      v.precio_unitario = .fin ⟨35, -1⟩ ∧ v.monto_total = .fin ⟨35, -1⟩ :=
  ⟨_, rfl, by decide, by decide, by decide, by decide⟩

/-! ## Day-period bucketing (C9) -/

theorem periodoDia_iff (h : Nat) :
    (periodoDia h = "Mañana" ↔ h < 12) ∧ (periodoDia h = "Tarde" ↔ (12 ≤ h ∧ h < 18)) ∧
      (periodoDia h = "Noche" ↔ 18 ≤ h) := by
  unfold periodoDia
  split
  · rename_i h1
    refine ⟨?_, ?_, ?_⟩
    · constructor
      · intro e; exact absurd e (by decide)
      · intro e; omega
    · exact ⟨fun _ => h1, fun _ => rfl⟩
    · constructor
      · intro e; exact absurd e (by decide)
      · intro e; omega
  · split
    · rename_i h1 h2
      refine ⟨?_, ?_, ?_⟩
      · constructor
        · intro e; exact absurd e (by decide)
        · intro e; omega
      · constructor
        · intro e; exact absurd e (by decide)
        · intro e; omega
      · exact ⟨fun _ => h2, fun _ => rfl⟩
    · rename_i h1 h2
      refine ⟨?_, ?_, ?_⟩
      · exact ⟨fun _ => by omega, fun _ => rfl⟩
      · constructor
        · intro e; exact absurd e (by decide)
        · intro e; omega
      · constructor
        · intro e; exact absurd e (by decide)
        · intro e; omega

theorem hourFromTime_lt (t : Int) : hourFromTime t < 24 := by
  unfold hourFromTime
  omega

theorem hourFromTime_of_mod (t ms : Int) (hour : Nat) (h0 : 0 ≤ ms)
    (h1 : ms < 3600000) (h : t % 86400000 = (hour : Int) * 3600000 + ms) :
    hourFromTime t = hour := by
  unfold hourFromTime
  omega

/-- C9: for every local hour `h`, `periodo_dia` is `Mañana` iff `h < 12`, `Tarde` iff
`12 ≤ h < 18` and `Noche` iff `18 ≤ h`, so exactly one bucket applies (11 is morning, 12
afternoon, 17 afternoon, 18 evening); the hour is the hour component (0 to 23) of the local
time of the sale, so the minutes are ignored (any instant from 17:00:00.000 to 17:59:59.999
local time is afternoon); the record of a mapped row carries the bucket of the local hour
of its date; and the three labels are exactly the three values, in the same order, that the
time-of-day preset of the query tool ranks. -/
theorem periodo_dia_buckets :
    (∀ h : Nat, (periodoDia h = "Mañana" ↔ h < 12) ∧
      (periodoDia h = "Tarde" ↔ (12 ≤ h ∧ h < 18)) ∧ (periodoDia h = "Noche" ↔ 18 ≤ h)) ∧
    (periodoDia 11 = "Mañana" ∧ periodoDia 12 = "Tarde" ∧ periodoDia 17 = "Tarde" ∧
      periodoDia 18 = "Noche") ∧
    (∀ (env : Env) (t : Int), getHours env t < 24) ∧
    (∀ (env : Env) (t ms : Int), 0 ≤ ms → ms < 3600000 →
      localTime env t % 86400000 = 17 * 3600000 + ms →
      periodoDia (getHours env t) = "Tarde") ∧
    (∀ (env : Env) (now : Int) (row headers : List Cell) (s : State) (v : VentaData),
      (mapExcelRowToVenta env now row headers s).1 = .ok v →
      ∃ t, fechaObj env now (getValue headers row fechaNames) = some t ∧
        v.periodo_dia = periodoDia (getHours env t)) ∧
    presetPeriodoOrder = [("Mañana", 1), ("Tarde", 2), ("Noche", 3)] ∧
    (∀ h : Nat, periodoDia h ∈ presetPeriodoOrder.map Prod.fst) ∧
    (∀ l ∈ presetPeriodoOrder.map Prod.fst, ∃ h : Nat, h < 24 ∧ periodoDia h = l) := by
  refine ⟨periodoDia_iff, by decide, fun env t => hourFromTime_lt _, ?_, ?_, rfl, ?_, ?_⟩
  · intro env t ms h0 h1 h
    have hh : getHours env t = 17 :=
      hourFromTime_of_mod (localTime env t) ms 17 h0 h1 (by simpa using h)
    rw [hh]
    decide
  · intro env now row headers s v h
    obtain ⟨t, ht, _, hv⟩ := mapExcelRowToVenta_ok_eq env now row headers s v h
    exact ⟨t, ht, by rw [hv]; rfl⟩
  · intro h
    unfold periodoDia
    split
    · decide
    · split <;> decide
  · intro l hl
    simp only [presetPeriodoOrder, List.map_cons, List.map_nil, List.mem_cons,
      List.mem_singleton, List.not_mem_nil, or_false] at hl
    rcases hl with hl | hl | hl
    · exact ⟨0, by decide, by rw [hl]; decide⟩
    · exact ⟨12, by decide, by rw [hl]; decide⟩
    · exact ⟨18, by decide, by rw [hl]; decide⟩

/-- Witness of C9: 17:59:00 local time on the first day of the epoch, in UTC. -/
theorem periodo_dia_buckets_witness :
    localTime sampleEnv 64740000 % 86400000 = 17 * 3600000 + 3540000 ∧
    periodoDia (getHours sampleEnv 64740000) = "Tarde" :=
  ⟨by decide, periodo_dia_buckets.2.2.2.1 sampleEnv 64740000 3540000 (by decide) (by decide)
    (by decide)⟩

/-! ## Column matching by substring priority (C10) -/

theorem findIndex_eq_some_of {α : Type} (p : α → Bool) (d : α) (hd : p d = false) :
    ∀ (l : List α) (k : Nat), p (l.getD k d) = true → (∀ j, j < k → p (l.getD j d) = false) →
      findIndex p l = some k := by
  intro l
  induction l with
  | nil =>
    intro k hk _
    simp [hd] at hk
  | cons a t ih =>
    intro k hk hlt
    cases k with
    | zero =>
      have ha : p a = true := by simpa using hk
      simp [findIndex, ha]
    | succ k =>
      have ha : p a = false := by simpa using hlt 0 (Nat.succ_pos k)
      have hk2 : p (t.getD k d) = true := by simpa using hk
      have hlt2 : ∀ j, j < k → p (t.getD j d) = false := by
        intro j hj
        simpa using hlt (j + 1) (Nat.succ_lt_succ hj)
      simp [findIndex, ha, ih k hk2 hlt2]

theorem getValue_append_of_no_match (headers row : List Cell) (pre rest : List String)
    (h : ∀ n ∈ pre, ∀ c ∈ headers, headerMatches n c = false) :
    getValue headers row (pre ++ rest) = getValue headers row rest := by
  induction pre with
  | nil => rfl
  | cons n pre ih =>
    have hn : findIndex (headerMatches n) headers = none :=
      findIndex_eq_none _ _ (fun c hc => h n (List.mem_cons_self n pre) c hc)
    simp only [List.cons_append, getValue, hn]
    exact ih (fun m hm c hc => h m (List.mem_cons_of_mem n hm) c hc)

/-- C10 as stated fails: with the headers `Precio A`, `Precio B`, `Price` and the cells
null, 5, 7, a header (`Precio B`) contains the first-priority substring `precio` of the
price field with a non-null cell, no substring of higher priority exists, the first header
containing `precio` is `Precio A` (index 0), and yet `getValue` does not return the cell of
that header: it returns 7, the cell of the header matching the lower-priority `price`. -/
theorem getValue_some_header_counterexample :
    headerMatches "precio" (Cell.str "Precio B") = true ∧
    cellAt [Cell.null, .num ⟨5, 0⟩, .num ⟨7, 0⟩] 1 ≠ .null ∧
    findIndex (headerMatches "precio") [Cell.str "Precio A", .str "Precio B", .str "Price"]
      = some 0 ∧
    getValue [.str "Precio A", .str "Precio B", .str "Price"]
      [.null, .num ⟨5, 0⟩, .num ⟨7, 0⟩] precioNames = .num ⟨7, 0⟩ ∧
    getValue [.str "Precio A", .str "Precio B", .str "Price"]
      [.null, .num ⟨5, 0⟩, .num ⟨7, 0⟩] precioNames
      ≠ cellAt [Cell.null, .num ⟨5, 0⟩, .num ⟨7, 0⟩] 0 := by
  decide

/-- C10 amended: for a field with substring list `pre ++ name :: post`, if no header
contains a substring of `pre` and the first header containing `name` (position `k`: it
matches, and no header before it does) has a non-null cell in the row, then `getValue`
returns that cell, wherever the headers matching `post` are; so with the headers
`Total Amount`, `Price` and a non-null `Price` cell the price field takes the `Price` cell. -/
theorem getValue_substring_priority (headers row : List Cell) (pre post : List String)
    (name : String) (k : Nat)
    (hpre : ∀ n ∈ pre, ∀ c ∈ headers, headerMatches n c = false)
    (hk : headerMatches name (headers.getD k .null) = true)
    (hfirst : ∀ j, j < k → headerMatches name (headers.getD j .null) = false)
    (hcell : cellAt row k ≠ .null) :
    getValue headers row (pre ++ name :: post) = cellAt row k ∧
    ∀ a b : Cell, b ≠ .null →
      getValue [.str "Total Amount", .str "Price"] [a, b] precioNames = b := by
  constructor
  · rw [getValue_append_of_no_match headers row pre (name :: post) hpre]
    have hidx : findIndex (headerMatches name) headers = some k :=
      findIndex_eq_some_of _ .null (by simp [headerMatches, Cell.truthy]) headers k hk hfirst
    simp only [getValue, hidx]
    rw [if_pos hcell]
  · intro a b hb
    have h1 : findIndex (headerMatches "precio") [Cell.str "Total Amount", .str "Price"]
        = none := by decide
    have h2 : findIndex (headerMatches "price") [Cell.str "Total Amount", .str "Price"]
        = some 1 := by decide
    simp only [precioNames, getValue, h1, h2]
    have h3 : cellAt [a, b] 1 = b := rfl
    rw [h3, if_pos hb]

/-- Witness of the amended C10: headers `Total Amount`, `Price`, both cells non-null. -/
theorem getValue_substring_priority_witness :
    getValue [.str "Total Amount", .str "Price"] [.num ⟨7, 0⟩, .num ⟨35, -1⟩] precioNames
      = .num ⟨35, -1⟩ :=
  (getValue_substring_priority [.str "Total Amount", .str "Price"]
    [.num ⟨7, 0⟩, .num ⟨35, -1⟩] ["precio"] ["total", "amount"] "price" 1 (by decide)
    (by decide) (by decide) (by decide)).1

/-! ## Headers sharing a substring (C11) -/

theorem getValue_eq_firstNonNull (headers row : List Cell) (names : List String) :
    getValue headers row names = firstNonNull (names.map (firstCell headers row)) := by
  induction names with
  | nil => rfl
  | cons n rest ih =>
    simp only [getValue, List.map_cons, firstNonNull, firstCell]
    cases h : findIndex (headerMatches n) headers with
    | none => simpa using ih
    | some k =>
      simp only []
      by_cases hc : cellAt row k = .null
      · simp only [hc, ne_eq, not_true_eq_false, if_false]; exact ih
      · simp only [ne_eq, hc, not_false_eq_true, if_true]

/-- C11 as stated fails: with the headers `Precio A`, `Precio B` and the cells null, 5, both
headers contain the recognised substring `precio` of the price field, the first of them
whose cell is not null is `Precio B` (cell 5), and yet `getValue` does not return 5: it
finds the field absent (null). -/
theorem getValue_second_header_counterexample :
    headerMatches "precio" (Cell.str "Precio A") = true ∧
    headerMatches "precio" (Cell.str "Precio B") = true ∧
    cellAt [Cell.null, .num ⟨5, 0⟩] 0 = .null ∧
    cellAt [Cell.null, .num ⟨5, 0⟩] 1 = .num ⟨5, 0⟩ ∧
    getValue [.str "Precio A", .str "Precio B"] [.null, .num ⟨5, 0⟩] precioNames = .null ∧
    getValue [.str "Precio A", .str "Precio B"] [.null, .num ⟨5, 0⟩] precioNames
      ≠ cellAt [Cell.null, .num ⟨5, 0⟩] 1 := by
  decide

/-- C11 amended: for every header list, row and logical field, the recognised substrings
are tried in priority order and, for each of them, only the first header containing it is
looked at: the value of the field is the first non-null one among the cells under these
first headers, and the field is absent (null) when there is none.  In particular, when two
headers contain the same substring and the cell of the first one is null, the cell of the
second one is not used: a field with that single substring is absent. -/
theorem getValue_first_header_only (headers row : List Cell) (names : List String) :
    getValue headers row names = firstNonNull (names.map (firstCell headers row)) ∧
    (∀ name : String, findIndex (headerMatches name) headers = none →
      firstCell headers row name = .null) ∧
    (∀ (name : String) (k : Nat), headerMatches name (headers.getD k .null) = true →
      (∀ j, j < k → headerMatches name (headers.getD j .null) = false) →
      firstCell headers row name = cellAt row k) ∧
    (∀ (name : String) (h1 h2 b : Cell), headerMatches name h1 = true →
      headerMatches name h2 = true → getValue [h1, h2] [.null, b] [name] = .null) := by
  refine ⟨getValue_eq_firstNonNull headers row names, ?_, ?_, ?_⟩
  · intro name h
    simp only [firstCell, h]
  · intro name k hk hfirst
    have hidx : findIndex (headerMatches name) headers = some k :=
      findIndex_eq_some_of _ .null (by simp [headerMatches, Cell.truthy]) headers k hk hfirst
    simp only [firstCell, hidx]
  · intro name h1 h2 b hm1 _
    have hidx : findIndex (headerMatches name) [h1, h2] = some 0 := by
      simp [findIndex, hm1]
    simp only [getValue, hidx]
    rfl

/-- Witness of the amended C11: the second `precio` header is ignored when the cell of the
first one is null. -/
theorem getValue_first_header_only_witness :
    getValue [.str "Precio A", .str "Precio B"] [.null, .num ⟨5, 0⟩] ["precio"] = .null :=
  (getValue_first_header_only [.str "Precio A", .str "Precio B"] [.null, .num ⟨5, 0⟩]
    ["precio"]).2.2.2 "precio" (.str "Precio A") (.str "Precio B") (.num ⟨5, 0⟩) (by decide)
    (by decide)

/-! ## Aggregation pass (C12, C13, C14) -/

theorem char_eq_of_toNat (a b : Char) (h : a.toNat = b.toNat) : a = b := by
  rw [← Char.ofNat_toNat a, ← Char.ofNat_toNat b, h]

theorem ltChars_iff : ∀ (a b : List Char), ltChars a b = true ↔ a < b
  | [], [] => by simp [ltChars]
  | _ :: _, [] => by simp [ltChars]
  | [], b :: bs => by simpa [ltChars] using List.nil_lt_cons b bs
  | a :: as, b :: bs => by
    have ih := ltChars_iff as bs
    simp only [ltChars]
    by_cases h1 : a.toNat < b.toNat
    · simp only [h1, if_true, true_iff]
      exact List.Lex.rel h1
    · by_cases h2 : a.toNat = b.toNat
      · have hab := char_eq_of_toNat a b h2
        subst hab
        simp only [h1, if_false, if_true, ih]
        exact (List.Lex.cons_iff).symm
      · simp only [h1, h2, if_false, Bool.false_eq_true, false_iff]
        intro hlt
        cases hlt with
        | cons h => exact h2 rfl
        | rel h => exact h1 h

/-- The text comparison of the model is the order of strings. -/
theorem textLt_iff (a b : String) : textLt a b = true ↔ a < b := by
  rw [String.lt_iff_toList_lt]
  exact ltChars_iff a.data b.data

theorem minFold_spec (l : List String) :
    ∀ a : String,
      (l.foldl (fun m x => if textLt x m then x else m) a = a ∨
        l.foldl (fun m x => if textLt x m then x else m) a ∈ l) ∧
      l.foldl (fun m x => if textLt x m then x else m) a ≤ a ∧
      ∀ x ∈ l, l.foldl (fun m x => if textLt x m then x else m) a ≤ x := by
  induction l with
  | nil => intro a; simp
  | cons y t ih =>
    intro a
    simp only [List.foldl_cons]
    by_cases h : textLt y a = true
    · have hlt : y < a := (textLt_iff y a).mp h
      obtain ⟨h1, h2, h3⟩ := ih y
      simp only [h, if_true]
      refine ⟨?_, le_trans h2 (le_of_lt hlt), ?_⟩
      · rcases h1 with h1 | h1
        · right; rw [h1]; exact List.mem_cons_self y t
        · right; exact List.mem_cons_of_mem y h1
      · intro x hx
        rcases List.mem_cons.mp hx with hx | hx
        · rw [hx]; exact h2
        · exact h3 x hx
    · have hnlt : ¬ y < a := fun hlt => h ((textLt_iff y a).mpr hlt)
      obtain ⟨h1, h2, h3⟩ := ih a
      simp only [h, Bool.false_eq_true, if_false]
      refine ⟨?_, h2, ?_⟩
      · rcases h1 with h1 | h1
        · left; exact h1
        · right; exact List.mem_cons_of_mem y h1
      · intro x hx
        rcases List.mem_cons.mp hx with hx | hx
        · rw [hx]; exact le_trans h2 (not_lt.mp hnlt)
        · exact h3 x hx

theorem maxFold_spec (l : List String) :
    ∀ a : String,
      (l.foldl (fun m x => if textLt m x then x else m) a = a ∨
        l.foldl (fun m x => if textLt m x then x else m) a ∈ l) ∧
      a ≤ l.foldl (fun m x => if textLt m x then x else m) a ∧
      ∀ x ∈ l, x ≤ l.foldl (fun m x => if textLt m x then x else m) a := by
  induction l with
  | nil => intro a; simp
  | cons y t ih =>
    intro a
    simp only [List.foldl_cons]
    by_cases h : textLt a y = true
    · have hlt : a < y := (textLt_iff a y).mp h
      obtain ⟨h1, h2, h3⟩ := ih y
      simp only [h, if_true]
      refine ⟨?_, le_trans (le_of_lt hlt) h2, ?_⟩
      · rcases h1 with h1 | h1
        · right; rw [h1]; exact List.mem_cons_self y t
        · right; exact List.mem_cons_of_mem y h1
      · intro x hx
        rcases List.mem_cons.mp hx with hx | hx
        · rw [hx]; exact h2
        · exact h3 x hx
    · have hnlt : ¬ a < y := fun hlt => h ((textLt_iff a y).mpr hlt)
      obtain ⟨h1, h2, h3⟩ := ih a
      simp only [h, Bool.false_eq_true, if_false]
      refine ⟨?_, h2, ?_⟩
      · rcases h1 with h1 | h1
        · left; exact h1
        · right; exact List.mem_cons_of_mem y h1
      · intro x hx
        rcases List.mem_cons.mp hx with hx | hx
        · rw [hx]; exact le_trans (not_lt.mp hnlt) h2
        · exact h3 x hx

/-- The text `MIN` of a non-empty list is one of its elements and is below all of them. -/
theorem minFecha_spec (l : List String) (hl : l ≠ []) :
    ∃ m, minFecha l = some m ∧ m ∈ l ∧ ∀ x ∈ l, m ≤ x := by
  cases l with
  | nil => exact absurd rfl hl
  | cons a t =>
    obtain ⟨h1, h2, h3⟩ := minFold_spec t a
    refine ⟨_, rfl, ?_, ?_⟩
    · rcases h1 with h1 | h1
      · rw [h1]; exact List.mem_cons_self a t
      · exact List.mem_cons_of_mem a h1
    · intro x hx
      rcases List.mem_cons.mp hx with hx | hx
      · rw [hx]; exact h2
      · exact h3 x hx

/-- The text `MAX` of a non-empty list is one of its elements and is above all of them. -/
theorem maxFecha_spec (l : List String) (hl : l ≠ []) :
    ∃ m, maxFecha l = some m ∧ m ∈ l ∧ ∀ x ∈ l, x ≤ m := by
  cases l with
  | nil => exact absurd rfl hl
  | cons a t =>
    obtain ⟨h1, h2, h3⟩ := maxFold_spec t a
    refine ⟨_, rfl, ?_, ?_⟩
    · rcases h1 with h1 | h1
      · rw [h1]; exact List.mem_cons_self a t
      · exact List.mem_cons_of_mem a h1
    · intro x hx
      rcases List.mem_cons.mp hx with hx | hx
      · rw [hx]; exact h2
      · exact h3 x hx

theorem ventasDeCliente_eq (s : State) (id : Nat) :
    ventasDeCliente s id = (ventasRowsDe s id).map Venta.data := by
  simp only [ventasDeCliente, ventasRowsDe, List.filter_map]
  rfl

theorem mem_clientes_updateClientStatistics (s : State) (c : Cliente)
    (hc : c ∈ (updateClientStatistics s).clientes.rows)
    (href : ∃ v ∈ s.ventas.rows, v.data.id_cliente = some c.id_cliente) :
    c.total_compras = (ventasDeCliente s c.id_cliente).length ∧
    c.monto_total_gastado = sumMontoTotal (ventasDeCliente s c.id_cliente) ∧
    c.fecha_primer_compra
      = minFecha ((ventasDeCliente s c.id_cliente).map VentaData.fecha_venta) ∧
    c.fecha_ultima_compra
      = maxFecha ((ventasDeCliente s c.id_cliente).map VentaData.fecha_venta) := by
  simp only [updateClientStatistics, List.mem_map] at hc
  obtain ⟨c0, _, hc0⟩ := hc
  obtain ⟨v, hv, hvid⟩ := href
  split at hc0
  · subst hc0
    exact ⟨rfl, rfl, rfl, rfl⟩
  · rename_i hnot
    subst hc0
    exact absurd (List.mem_filterMap.mpr ⟨v, hv, hvid⟩) hnot

theorem clienteStats_idem (s : State) (c : Cliente) :
    (fun c : Cliente =>
      if c.id_cliente ∈ s.ventas.rows.filterMap (fun v => v.data.id_cliente) then
        { c with
          total_compras := (ventasDeCliente s c.id_cliente).length
          monto_total_gastado := sumMontoTotal (ventasDeCliente s c.id_cliente)
          fecha_primer_compra :=
            minFecha ((ventasDeCliente s c.id_cliente).map VentaData.fecha_venta)
          fecha_ultima_compra :=
            maxFecha ((ventasDeCliente s c.id_cliente).map VentaData.fecha_venta) }
      else c)
      (if c.id_cliente ∈ s.ventas.rows.filterMap (fun v => v.data.id_cliente) then
        { c with
          total_compras := (ventasDeCliente s c.id_cliente).length
          monto_total_gastado := sumMontoTotal (ventasDeCliente s c.id_cliente)
          fecha_primer_compra :=
            minFecha ((ventasDeCliente s c.id_cliente).map VentaData.fecha_venta)
          fecha_ultima_compra :=
            maxFecha ((ventasDeCliente s c.id_cliente).map VentaData.fecha_venta) }
      else c)
    = (if c.id_cliente ∈ s.ventas.rows.filterMap (fun v => v.data.id_cliente) then
        { c with
          total_compras := (ventasDeCliente s c.id_cliente).length
          monto_total_gastado := sumMontoTotal (ventasDeCliente s c.id_cliente)
          fecha_primer_compra :=
            minFecha ((ventasDeCliente s c.id_cliente).map VentaData.fecha_venta)
          fecha_ultima_compra :=
            maxFecha ((ventasDeCliente s c.id_cliente).map VentaData.fecha_venta) }
      else c) := by
  by_cases h : c.id_cliente ∈ s.ventas.rows.filterMap (fun v => v.data.id_cliente)
  · simp only [h, if_true]
  · simp only [h, if_false]

theorem updateClientStatistics_eq_with (s : State) :
    updateClientStatistics s = updateClientStatisticsWith exactSum s := by
  have h : ∀ vs : List VentaData,
      sumMontoTotal vs = (exactSum (vs.map VentaData.monto_total)).getD (JSNum.ofInt 0) := by
    intro vs
    unfold sumMontoTotal exactSum
    cases (vs.map VentaData.monto_total).foldl JSNum.add (JSNum.ofInt 0) <;> rfl
  simp only [updateClientStatistics, updateClientStatisticsWith, h]

theorem mem_clientes_updateClientStatisticsWith (sqlSum : List JSNum → Option JSNum)
    (s : State) (c : Cliente)
    (hc : c ∈ (updateClientStatisticsWith sqlSum s).clientes.rows)
    (href : ∃ v ∈ s.ventas.rows, v.data.id_cliente = some c.id_cliente) :
    c.total_compras = (ventasDeCliente s c.id_cliente).length ∧
    c.monto_total_gastado
      = (sqlSum ((ventasDeCliente s c.id_cliente).map VentaData.monto_total)).getD
          (JSNum.ofInt 0) ∧
    c.fecha_primer_compra
      = minFecha ((ventasDeCliente s c.id_cliente).map VentaData.fecha_venta) ∧
    c.fecha_ultima_compra
      = maxFecha ((ventasDeCliente s c.id_cliente).map VentaData.fecha_venta) := by
  simp only [updateClientStatisticsWith, List.mem_map] at hc
  obtain ⟨c0, _, hc0⟩ := hc
  obtain ⟨v, hv, hvid⟩ := href
  split at hc0
  · subst hc0
    exact ⟨rfl, rfl, rfl, rfl⟩
  · rename_i hnot
    subst hc0
    exact absurd (List.mem_filterMap.mpr ⟨v, hv, hvid⟩) hnot

/-- C12: after `updateClientStatistics`, whatever floating-point summation the aggregate
`SUM` of the store performs, every `clientes` row `c` that at least one `ventas` row refers
to has `total_compras` equal to the number of `ventas` rows with its identifier,
`monto_total_gastado` equal to the `SUM` of the `monto_total` of exactly these rows (in
rowid order; 0 when the `SUM` is NULL), `fecha_primer_compra` equal to the least and
`fecha_ultima_compra` to the greatest of their `fecha_venta`, in the order of text values,
both being the date of one of these rows. -/
theorem aggregation_correct (sqlSum : List JSNum → Option JSNum) (s : State) (c : Cliente)
    (hc : c ∈ (updateClientStatisticsWith sqlSum s).clientes.rows)
    (href : ∃ v ∈ (updateClientStatisticsWith sqlSum s).ventas.rows,
      v.data.id_cliente = some c.id_cliente) :
    c.total_compras
      = (ventasRowsDe (updateClientStatisticsWith sqlSum s) c.id_cliente).length ∧
    c.monto_total_gastado
      = (sqlSum ((ventasRowsDe (updateClientStatisticsWith sqlSum s) c.id_cliente).map
          (fun v => v.data.monto_total))).getD (JSNum.ofInt 0) ∧
    (∃ m, c.fecha_primer_compra = some m ∧
      m ∈ (ventasRowsDe (updateClientStatisticsWith sqlSum s) c.id_cliente).map
        (fun v => v.data.fecha_venta) ∧
      ∀ x ∈ (ventasRowsDe (updateClientStatisticsWith sqlSum s) c.id_cliente).map
        (fun v => v.data.fecha_venta), m ≤ x) ∧
    (∃ m, c.fecha_ultima_compra = some m ∧
      m ∈ (ventasRowsDe (updateClientStatisticsWith sqlSum s) c.id_cliente).map
        (fun v => v.data.fecha_venta) ∧
      ∀ x ∈ (ventasRowsDe (updateClientStatisticsWith sqlSum s) c.id_cliente).map
        (fun v => v.data.fecha_venta), x ≤ m) := by
  have hrows : ventasRowsDe (updateClientStatisticsWith sqlSum s) c.id_cliente
      = ventasRowsDe s c.id_cliente := rfl
  have href2 : ∃ v ∈ s.ventas.rows, v.data.id_cliente = some c.id_cliente := href
  obtain ⟨h1, h2, h3, h4⟩ := mem_clientes_updateClientStatisticsWith sqlSum s c hc href2
  rw [hrows]
  rw [ventasDeCliente_eq] at h1 h2 h3 h4
  simp only [List.map_map, List.length_map] at h1 h2 h3 h4
  have hne : (ventasRowsDe s c.id_cliente).map (VentaData.fecha_venta ∘ Venta.data) ≠ [] := by
    obtain ⟨v, hv, hvid⟩ := href2
    have hmem : v ∈ ventasRowsDe s c.id_cliente := by
      simp only [ventasRowsDe, List.mem_filter, decide_eq_true_eq]
      exact ⟨hv, hvid⟩
    intro h0
    have := List.mem_map_of_mem (VentaData.fecha_venta ∘ Venta.data) hmem
    rw [h0] at this
    exact List.not_mem_nil _ this
  refine ⟨h1, h2, ?_, ?_⟩
  · obtain ⟨m, hm1, hm2, hm3⟩ := minFecha_spec _ hne
    exact ⟨m, by rw [h3]; exact hm1, hm2, hm3⟩
  · obtain ⟨m, hm1, hm2, hm3⟩ := maxFecha_spec _ hne
    exact ⟨m, by rw [h4]; exact hm1, hm2, hm3⟩

theorem aggregation_correct_witness :
    (⟨1, "C1", .null, some "1970-01-01", some "1970-01-04", 3, .fin ⟨9, 0⟩⟩ : Cliente)
      ∈ (updateClientStatisticsWith exactSum sampleLoaded).clientes.rows ∧
    (∃ v ∈ (updateClientStatisticsWith exactSum sampleLoaded).ventas.rows,
      v.data.id_cliente = some 1) ∧
    (ventasRowsDe (updateClientStatisticsWith exactSum sampleLoaded) 1).length = 3 ∧
    (ventasRowsDe (updateClientStatisticsWith exactSum sampleLoaded) 1).map
      (fun v => v.data.monto_total) = [.fin ⟨35, -1⟩, .fin ⟨2, 0⟩, .fin ⟨35, -1⟩] ∧
    (⟨1, "C1", .null, some "1970-01-01", some "1970-01-04", 3, .fin ⟨9, 0⟩⟩ :
      Cliente).total_compras
      = (ventasRowsDe (updateClientStatisticsWith exactSum sampleLoaded) 1).length ∧
    (⟨1, "C1", .null, some "1970-01-01", some "1970-01-04", 3, .fin ⟨9, 0⟩⟩ :
      Cliente).monto_total_gastado
      = (exactSum ((ventasRowsDe (updateClientStatisticsWith exactSum sampleLoaded) 1).map
          (fun v => v.data.monto_total))).getD (JSNum.ofInt 0) :=
  ⟨by decide, by decide, by decide, by decide,
    (aggregation_correct exactSum sampleLoaded
      ⟨1, "C1", .null, some "1970-01-01", some "1970-01-04", 3, .fin ⟨9, 0⟩⟩ (by decide)
      (by decide)).1,
    (aggregation_correct exactSum sampleLoaded
      ⟨1, "C1", .null, some "1970-01-01", some "1970-01-04", 3, .fin ⟨9, 0⟩⟩ (by decide)
      (by decide)).2.1⟩

/-- C13: running `updateClientStatistics` twice in a row gives the same state, hence the
same `clientes` table, as running it once, for every store state. -/
theorem aggregation_idempotent (s : State) :
    updateClientStatistics (updateClientStatistics s) = updateClientStatistics s ∧
    (updateClientStatistics (updateClientStatistics s)).clientes
      = (updateClientStatistics s).clientes := by
  have h : updateClientStatistics (updateClientStatistics s) = updateClientStatistics s := by
    have hv : ∀ id, ventasDeCliente (updateClientStatistics s) id = ventasDeCliente s id :=
      fun _ => rfl
    have hr : (updateClientStatistics s).ventas = s.ventas := rfl
    have hrows : (updateClientStatistics (updateClientStatistics s)).clientes.rows
        = (updateClientStatistics s).clientes.rows := by
      show ((updateClientStatistics s).clientes.rows.map _) = _
      simp only [hv, hr]
      show ((s.clientes.rows.map _).map _) = s.clientes.rows.map _
      rw [List.map_map]
      apply List.map_congr_left
      intro c _
      exact clienteStats_idem s c
    cases hs : updateClientStatistics s with
    | mk cl pr mp su ve lc =>
      rw [hs] at hrows
      simp only [updateClientStatistics] at hrows ⊢
      cases cl with
      | mk rows seq =>
        simp only at hrows
        simp only [hrows]
  exact ⟨h, by rw [h]⟩

/-- C14: `updateClientStatistics` does not modify `ventas`, `productos`, `sucursales` or
`metodos_pago` (nor the caches, nor the counter of `clientes`); the rows of `clientes` stay
in place, each keeps its identifier, code and type (so only the four aggregate fields can
change), and a row that no `ventas` row refers to is left exactly as it was. -/
theorem aggregation_frame (s : State) :
    (updateClientStatistics s).ventas = s.ventas ∧
    (updateClientStatistics s).productos = s.productos ∧
    (updateClientStatistics s).sucursales = s.sucursales ∧
    (updateClientStatistics s).metodos_pago = s.metodos_pago ∧
    (updateClientStatistics s).lookupCaches = s.lookupCaches ∧
    (updateClientStatistics s).clientes.seq = s.clientes.seq ∧
    List.Forall₂
      (fun c c2 : Cliente =>
        c2.id_cliente = c.id_cliente ∧ c2.codigo_anonimo = c.codigo_anonimo ∧
        c2.tipo_cliente = c.tipo_cliente ∧
        ((∀ v ∈ s.ventas.rows, v.data.id_cliente ≠ some c.id_cliente) → c2 = c))
      s.clientes.rows (updateClientStatistics s).clientes.rows := by
  refine ⟨rfl, rfl, rfl, rfl, rfl, rfl, ?_⟩
  simp only [updateClientStatistics, List.forall₂_map_right_iff, List.forall₂_same]
  intro c _
  split
  · rename_i hin
    refine ⟨rfl, rfl, rfl, ?_⟩
    intro hno
    obtain ⟨v, hv, hvid⟩ := List.mem_filterMap.mp hin
    exact absurd hvid (hno v hv)
  · exact ⟨rfl, rfl, rfl, fun _ => rfl⟩

/-- Witness of C14: the row of client `C9`, who has no sale, is left as it was. -/
theorem aggregation_frame_witness :
    (∀ v ∈ sampleIdle.ventas.rows, v.data.id_cliente ≠ some 3) ∧
    (updateClientStatistics sampleIdle).clientes.rows.get ⟨2, by decide⟩
      = sampleIdle.clientes.rows.get ⟨2, by decide⟩ :=
  ⟨by decide,
    ((aggregation_frame sampleIdle).2.2.2.2.2.2.get (by decide) (by decide)).2.2.2
      (by decide)⟩

/-! ## Client codes and letter case (C15) -/

/-- C15, the code at the failing input: in a fresh store the client codes `ABC123` and
`abc123`, which differ only in letter case, are resolved to two different identifiers and
two `clientes` rows are created: `getOrCreateCliente` trims the code but, unlike the three
other resolvers, does not lower-case it, and its `SELECT` compares the code exactly. -/
theorem cliente_codes_differing_in_case :
    (getOrCreateCliente (.str "ABC123") .null freshState).1 = some 1 ∧
    (getOrCreateCliente (.str "abc123") .null
      (getOrCreateCliente (.str "ABC123") .null freshState).2).1 = some 2 ∧
    (getOrCreateCliente (.str "abc123") .null
      (getOrCreateCliente (.str "ABC123") .null freshState).2).2.clientes.rows
      = [⟨1, "ABC123", .null, none, none, 0, JSNum.ofInt 0⟩,
         ⟨2, "abc123", .null, none, none, 0, JSNum.ofInt 0⟩] ∧
    (getOrCreateProducto (.str "abc123") .null .null
      (getOrCreateProducto (.str "ABC123") .null .null freshState).2).1
      = (getOrCreateProducto (.str "ABC123") .null .null freshState).1 := by
  decide

/-! ## Resolving a key again (C16) -/

/-- C16 as stated fails: the store holds the row that an earlier resolution of `LATTE`
created (row 1, with the category `A`).  A new importer instance over that store begins
with `createERSchema`, which drops and recreates `productos` and empties the cache, so
that resolving `LATTE` again finds no row and inserts one: the row 1 the store holds
afterwards is the new row (category `B`), not the existing one. -/
theorem rerun_inserts_a_new_row_counterexample :
    (getOrCreateProducto (.str "LATTE") (.str "A") .null
      (createERSchema freshState)).2.productos.rows = [⟨1, "LATTE", .str "A", .null⟩] ∧
    (createERSchema (getOrCreateProducto (.str "LATTE") (.str "A") .null
      (createERSchema freshState)).2).productos.rows = [] ∧
    (createERSchema (getOrCreateProducto (.str "LATTE") (.str "A") .null
      (createERSchema freshState)).2).lookupCaches.productos = [] ∧
    (getOrCreateProducto (.str "LATTE") (.str "B") .null
      (createERSchema (getOrCreateProducto (.str "LATTE") (.str "A") .null
        (createERSchema freshState)).2)).2.productos.rows
      = [⟨1, "LATTE", .str "B", .null⟩] := by
  refine ⟨?_, ?_, ?_, ?_⟩ <;> decide

/-- C16 amended: no run resumes over a filled store.  `createERSchema`, with which every
run begins, leaves the five tables and the four caches empty whatever the store held, so
nothing of an earlier run is left to look up or to duplicate.  Within a run, a raw key
with a usable normalised key that has been resolved by `getOrCreateProducto` or
`getOrCreateSucursal` is resolved again, after any resolver calls in between and whatever
the auxiliary attributes are, to the same identifier, and that resolution leaves the table
as it is. -/
theorem resolve_again_within_a_run (v a1 a2 b1 b2 : Cell) (key : String)
    (hk : truthyKey v = some key) (s0 s : State) (mid : List ResolverCall) :
    (createERSchema s0).productos = Table.empty ∧ (createERSchema s0).sucursales = Table.empty ∧
    (createERSchema s0).metodos_pago = Table.empty ∧ (createERSchema s0).clientes = Table.empty ∧
    (createERSchema s0).ventas = Table.empty ∧
    (createERSchema s0).lookupCaches = ⟨[], [], [], []⟩ ∧
    (∃ id, (getOrCreateProducto v a1 a2 s).1 = some id ∧
      (getOrCreateProducto v b1 b2 (runCalls mid (getOrCreateProducto v a1 a2 s).2)).1
        = some id ∧
      (getOrCreateProducto v b1 b2
        (runCalls mid (getOrCreateProducto v a1 a2 s).2)).2.productos
        = (runCalls mid (getOrCreateProducto v a1 a2 s).2).productos) ∧
    (∃ id, (getOrCreateSucursal v a1 a2 s).1 = some id ∧
      (getOrCreateSucursal v b1 b2 (runCalls mid (getOrCreateSucursal v a1 a2 s).2)).1
        = some id ∧
      (getOrCreateSucursal v b1 b2
        (runCalls mid (getOrCreateSucursal v a1 a2 s).2)).2.sucursales
        = (runCalls mid (getOrCreateSucursal v a1 a2 s).2).sucursales) := by
  refine ⟨rfl, rfl, rfl, rfl, rfl, rfl,
    ⟨(productoBody key v a1 a2 s).1, ?_, ?_, ?_⟩, ⟨(sucursalBody key v a1 a2 s).1, ?_, ?_, ?_⟩⟩
  · rw [getOrCreateProducto_some _ _ _ _ _ hk]
  · rw [getOrCreateProducto_some _ _ _ _ _ hk, getOrCreateProducto_some _ _ _ _ _ hk]
    exact congrArg some (productoBody_of_settled _ _ _ _ _ _
      (settledProducto_runCalls _ _ mid _ (settledProducto_after _ v a1 a2 s))).1
  · rw [getOrCreateProducto_some _ _ _ _ _ hk, getOrCreateProducto_some _ _ _ _ _ hk]
    exact (productoBody_of_settled _ _ _ _ _ _
      (settledProducto_runCalls _ _ mid _ (settledProducto_after _ v a1 a2 s))).2
  · rw [getOrCreateSucursal_some _ _ _ _ _ hk]
  · rw [getOrCreateSucursal_some _ _ _ _ _ hk, getOrCreateSucursal_some _ _ _ _ _ hk]
    exact congrArg some (sucursalBody_of_settled _ _ _ _ _ _
      (settledSucursal_runCalls _ _ mid _ (settledSucursal_after _ v a1 a2 s))).1
  · rw [getOrCreateSucursal_some _ _ _ _ _ hk, getOrCreateSucursal_some _ _ _ _ _ hk]
    exact (sucursalBody_of_settled _ _ _ _ _ _
      (settledSucursal_runCalls _ _ mid _ (settledSucursal_after _ v a1 a2 s))).2

theorem resolve_again_within_a_run_witness :
    truthyKey (.str " Latte ") = some "latte" ∧
    (∃ id, (getOrCreateProducto (.str " Latte ") (.str "A") .null freshState).1 = some id ∧
      (getOrCreateProducto (.str " Latte ") (.str "B") .null
        (runCalls [.producto (.str "Mocha") .null .null, .cliente (.str "C1") .null]
          (getOrCreateProducto (.str " Latte ") (.str "A") .null freshState).2)).1 = some id ∧
      (getOrCreateProducto (.str " Latte ") (.str "B") .null
        (runCalls [.producto (.str "Mocha") .null .null, .cliente (.str "C1") .null]
          (getOrCreateProducto (.str " Latte ") (.str "A") .null freshState).2)).2.productos
        = (runCalls [.producto (.str "Mocha") .null .null, .cliente (.str "C1") .null]
          (getOrCreateProducto (.str " Latte ") (.str "A") .null freshState).2).productos) ∧
    (runCalls [.producto (.str "Mocha") .null .null, .cliente (.str "C1") .null]
      (getOrCreateProducto (.str " Latte ") (.str "A") .null freshState).2).productos.rows
      = [⟨1, " Latte ", .str "A", .null⟩, ⟨2, "Mocha", .null, .null⟩] :=
  ⟨by decide,
    (resolve_again_within_a_run (.str " Latte ") (.str "A") .null (.str "B") .null "latte"
      (by decide) freshState freshState
      [.producto (.str "Mocha") .null .null, .cliente (.str "C1") .null]).2.2.2.2.2.2.1,
    by decide⟩

/-! ## No default product (C17) -/

/-- C17 as stated fails: in a fresh store, resolving the null product name or the empty
product name returns null and creates no row, whereas the null store name is resolved to
the identifier 1 of the default store. -/
theorem producto_no_default_counterexample :
    getOrCreateProducto .null .null .null freshState = (none, freshState) ∧
    getOrCreateProducto (.str "") .null .null freshState = (none, freshState) ∧
    (getOrCreateProducto .null .null .null freshState).2.productos.rows = [] ∧
    (getOrCreateSucursal .null .null .null freshState).1 = some 1 := by
  decide

theorem keysTruthy_of_blank_producto (row headers : List Cell) (s : State)
    (h : truthyKey (getValue headers row productoNames) = none) :
    keysTruthy (resolveRow row headers s).1 = false := by
  unfold resolveRow
  rw [resolveForeignKeys_keys, getOrCreateProducto_none _ _ _ _ h]
  simp [keysTruthy, idTruthy]

/-- C17 amended: resolving a null, empty or white-space product name with
`getOrCreateProducto` returns null and changes nothing: there is no default product (line
173 returns before any lookup).  A row whose product value is such a name, with a valid
date, is not mapped: `mapExcelRowToVenta` fails with the message of line 409. -/
theorem producto_blank_is_null (nombre categoria precioBase : Cell) (hn : Blank nombre)
    (s : State) (env : Env) (now : Int) (row headers : List Cell)
    (hp : Blank (getValue headers row productoNames))
    (hf : (fechaObj env now (getValue headers row fechaNames)).isSome = true) :
    getOrCreateProducto nombre categoria precioBase s = (none, s) ∧
    (mapExcelRowToVenta env now row headers s).1
      = .error "Failed to resolve required foreign keys" := by
  constructor
  · exact getOrCreateProducto_none _ _ _ _ (truthyKey_of_blank nombre hn)
  · cases hft : fechaObj env now (getValue headers row fechaNames) with
    | none => rw [hft] at hf; cases hf
    | some t =>
      rw [mapExcelRowToVenta_of_falsy env now row headers s t hft
        (keysTruthy_of_blank_producto row headers s (truthyKey_of_blank _ hp))]

/-- Witness of the amended C17: the second data row of the sample workbook, which has no
product. -/
theorem producto_blank_is_null_witness :
    Blank (getValue [.str "Producto", .str "Precio", .str "Cantidad", .str "Cliente"]
      [.null, .num ⟨35, -1⟩, .num ⟨1, 0⟩] productoNames) ∧
    (mapExcelRowToVenta sampleEnv 0 [.null, .num ⟨35, -1⟩, .num ⟨1, 0⟩]
      [.str "Producto", .str "Precio", .str "Cantidad", .str "Cliente"] freshState).1
      = .error "Failed to resolve required foreign keys" :=
  ⟨Or.inl (by decide),
    (producto_blank_is_null .null .null .null (Or.inl rfl) freshState sampleEnv 0
      [.null, .num ⟨35, -1⟩, .num ⟨1, 0⟩]
      [.str "Producto", .str "Precio", .str "Cantidad", .str "Cliente"] (Or.inl (by decide))
      (by decide)).2⟩

/-! ## Resolution order (C18) -/

theorem Cache.get_set (c : Cache) (k k2 : String) (v : Nat) :
    (c.set k v).get k2 = if k2 = k then some v else c.get k2 := by
  by_cases h : k2 = k
  · subst h
    simp [Cache.get, Cache.set, List.lookup_cons]
  · have hb : (k2 == k) = false := by simpa using h
    simp [Cache.get, Cache.set, List.lookup_cons, hb, h]

/-- C18, the code at the failing input: in a freshly created schema the client code
`toString` is a key that the client cache does not hold and that no `clientes` row
matches, so the resolution order asks for the insertion of one row and for a cache entry;
but `cache[key]` is the inherited function of that name, the test of line 209 succeeds,
and `getOrCreateCliente` returns that function with no `SELECT`, no row inserted and no
cache entry written.  The same happens to `getOrCreateProducto` for the product name
`__proto__` over a filled store. -/
theorem inherited_key_skips_resolution_order :
    Cell.truthy (.str "toString") = true ∧ trim "toString" = "toString" ∧
    (createERSchema freshState).lookupCaches.clientes.get "toString" = none ∧
    (createERSchema freshState).clientes.rows = [] ∧
    getOrCreateClienteFull (.str "toString") .null (createERSchema freshState)
      = (.inherited "toString", createERSchema freshState) ∧
    truthyKey (.str "__proto__") = some "__proto__" ∧
    sampleLoaded.lookupCaches.productos.get "__proto__" = none ∧
    sampleLoaded.productos.rows.find? (fun p => decide (sqlLower p.nombre_producto = "__proto__"))
      = none ∧
    getOrCreateProductoFull (.str "__proto__") .null .null sampleLoaded
      = (.inherited "__proto__", sampleLoaded) := by
  refine ⟨?_, ?_, ?_, ?_, ?_, ?_, ?_, ?_, ?_⟩ <;> decide

/-! ## Error report of a sheet (C19) -/

theorem failureLines_length :
    ∀ (res : List (Except String VentaData)) (i : Nat),
      (failureLines res i).length = errorTotal res := by
  intro res
  induction res with
  | nil => intro i; rfl
  | cons x rest ih =>
    intro i
    cases x with
    | ok v => simp [failureLines, errorTotal, ih]
    | error m => simp [failureLines, errorTotal, ih]

theorem failureLines_cons (x : Except String VentaData) (rest : List (Except String VentaData))
    (i : Nat) : failureLines (x :: rest) i = failureLines [x] i ++ failureLines rest (i + 1) := by
  cases x <;> simp [failureLines]

theorem failureLines_gt :
    ∀ (res : List (Except String VentaData)) (i : Nat), ∀ p ∈ failureLines res i, i < p.1 := by
  intro res
  induction res with
  | nil => intro i p hp; simp [failureLines] at hp
  | cons x rest ih =>
    intro i p hp
    cases x with
    | ok v =>
      simp only [failureLines] at hp
      have := ih (i + 1) p hp
      omega
    | error m =>
      simp only [failureLines, List.mem_cons] at hp
      rcases hp with hp | hp
      · rw [hp]; exact Nat.lt_succ_self i
      · have := ih (i + 1) p hp
        omega

theorem failureLines_pairwise :
    ∀ (res : List (Except String VentaData)) (i : Nat),
      (failureLines res i).Pairwise (fun a b => a.1 < b.1) := by
  intro res
  induction res with
  | nil => intro i; simp [failureLines]
  | cons x rest ih =>
    intro i
    cases x with
    | ok v => simpa [failureLines] using ih (i + 1)
    | error m =>
      simp only [failureLines, List.pairwise_cons]
      exact ⟨fun p hp => failureLines_gt rest (i + 1) p hp, ih (i + 1)⟩

theorem failureLines_mem :
    ∀ (res : List (Except String VentaData)) (i : Nat), ∀ p ∈ failureLines res i,
      ∃ n, res[n]? = some (.error p.2) ∧ p.1 = i + n + 1 := by
  intro res
  induction res with
  | nil => intro i p hp; simp [failureLines] at hp
  | cons x rest ih =>
    intro i p hp
    cases x with
    | ok v =>
      simp only [failureLines] at hp
      obtain ⟨n, h1, h2⟩ := ih (i + 1) p hp
      exact ⟨n + 1, by simpa using h1, by omega⟩
    | error m =>
      simp only [failureLines, List.mem_cons] at hp
      rcases hp with hp | hp
      · exact ⟨0, by simp [hp], by simp [hp]⟩
      · obtain ⟨n, h1, h2⟩ := ih (i + 1) p hp
        exact ⟨n + 1, by simpa using h1, by omega⟩

theorem rowStep_reported (env : Env) (sheet : Nat) (headers row : List Cell) (i : Nat)
    (acc : State × SheetReport) :
    (rowStep env sheet headers row i acc).2.reported = acc.2.reported ++
      (failureLines [(mapExcelRowToVenta env (env.clock sheet i) row headers acc.1).1] i).take
        (10 - acc.2.errorCount) := by
  unfold rowStep
  generalize mapExcelRowToVenta env (env.clock sheet i) row headers acc.1 = m
  obtain ⟨res, s2⟩ := m
  cases res with
  | ok v => simp [failureLines]
  | error msg =>
    simp only [failureLines]
    by_cases h : acc.2.errorCount + 1 ≤ 10
    · have h2 : 10 - acc.2.errorCount = (10 - acc.2.errorCount - 1) + 1 := by omega
      rw [if_pos h, h2]
      simp
    · have h2 : 10 - acc.2.errorCount = 0 := by omega
      rw [if_neg h, h2]
      simp

theorem rowLoop_reported (env : Env) (sheet : Nat) (headers : List Cell)
    (rows : List (List Cell)) :
    ∀ (i : Nat) (acc : State × SheetReport),
      (rowLoop env sheet headers rows i acc).2.reported = acc.2.reported ++
        (failureLines (rowResults env sheet headers rows i acc.1) i).take
          (10 - acc.2.errorCount) := by
  induction rows with
  | nil => intro i acc; simp [rowLoop, rowResults, failureLines]
  | cons row rest ih =>
    intro i acc
    have hs := rowStep_state_indep env sheet headers row i acc.1 acc.2 ⟨0, 0, []⟩
    have he := (rowStep_spec env sheet headers row i acc).2.1
    have hr := rowStep_reported env sheet headers row i acc
    have hl := failureLines_length
      [(mapExcelRowToVenta env (env.clock sheet i) row headers acc.1).1] i
    have hc := failureLines_cons
      (mapExcelRowToVenta env (env.clock sheet i) row headers acc.1).1
      (rowResults env sheet headers rest (i + 1)
        (rowStep env sheet headers row i (acc.1, ⟨0, 0, []⟩)).1) i
    have hacc : (acc.1, acc.2) = acc := rfl
    rw [hacc] at hs
    simp only [rowLoop, rowResults]
    rw [hc, ih (i + 1) (rowStep env sheet headers row i acc), hr, he,
      List.take_append_eq_append_take, hl, ← hs, List.append_assoc, Nat.sub_add_eq]

theorem failureLines_of_error :
    ∀ (res : List (Except String VentaData)) (i n : Nat) (m : String),
      res[n]? = some (.error m) → (i + n + 1, m) ∈ failureLines res i := by
  intro res
  induction res with
  | nil => intro i n m h; simp at h
  | cons x rest ih =>
    intro i n m h
    cases n with
    | zero =>
      simp only [List.getElem?_cons_zero, Option.some.injEq] at h
      subst h
      simp [failureLines]
    | succ n =>
      simp only [List.getElem?_cons_succ] at h
      have h2 := ih (i + 1) n m h
      have e : i + (n + 1) + 1 = i + 1 + n + 1 := by omega
      rw [e]
      cases x with
      | ok v => simpa [failureLines] using h2
      | error m2 => simp only [failureLines, List.mem_cons]; exact Or.inr h2

theorem importSheets_report (env : Env) (sheets : List (List (List Cell))) :
    ∀ (j : Nat) (s : State) (k : Nat) (data : List (List Cell)), sheets[k]? = some data →
      (importSheets env sheets j s).2[k]?
        = some (importSheet env (j + k) data (importSheets env (sheets.take k) j s).1).2 := by
  induction sheets with
  | nil => intro j s k data h; simp at h
  | cons d rest ih =>
    intro j s k data h
    cases k with
    | zero =>
      simp only [List.getElem?_cons_zero, Option.some.injEq] at h
      subst h
      simp [importSheets]
    | succ n =>
      simp only [List.getElem?_cons_succ] at h
      have h2 := ih (j + 1) (importSheet env j d s).1 n data h
      have e : j + (n + 1) = j + 1 + n := by omega
      simp only [importSheets, List.take_succ_cons, List.getElem?_cons_succ]
      rw [h2, e]

/-- C19: for every sheet of the workbook that has data rows, the report of that sheet lists
the failing rows of the sheet in source order, each with its 1-based data-row number and its
message, up to the tenth and no further: the n-th reported line is the n-th failure when
n is below 10 and there is none from 10 on, so min(errorCount, 10) lines are reported, while
errorCount is the number of all failures of that sheet alone. -/
theorem error_report_cap (env : Env) (workbook : List (List (List Cell))) (s : State) (k : Nat)
    (headers row : List Cell) (rows : List (List Cell))
    (h : workbook[k]? = some (headers :: row :: rows)) :
    ∃ rep, (importData env workbook s).2[k]? = some (some rep) ∧
      rep.errorCount = errorTotal (sheetResults env workbook s k headers (row :: rows)) ∧
      (failureLines (sheetResults env workbook s k headers (row :: rows)) 0).length
        = rep.errorCount ∧
      rep.reported = (failureLines (sheetResults env workbook s k headers (row :: rows)) 0).take 10 ∧
      rep.reported.length = min rep.errorCount 10 ∧
      (∀ n, rep.reported[n]? = if n < 10 then
        (failureLines (sheetResults env workbook s k headers (row :: rows)) 0)[n]? else none) ∧
      (failureLines (sheetResults env workbook s k headers (row :: rows)) 0).Pairwise
        (fun a b => a.1 < b.1) ∧
      (∀ p ∈ failureLines (sheetResults env workbook s k headers (row :: rows)) 0,
        ∃ i, (sheetResults env workbook s k headers (row :: rows))[i]? = some (.error p.2) ∧
          p.1 = i + 1) ∧
      (∀ i m, (sheetResults env workbook s k headers (row :: rows))[i]? = some (.error m) →
        (i + 1, m) ∈ failureLines (sheetResults env workbook s k headers (row :: rows)) 0) := by
  have hrep := importSheets_report env workbook 0 s k _ h
  have hspec := rowLoop_spec env k headers (row :: rows) 0
    ((importSheets env (workbook.take k) 0 s).1, ⟨0, 0, []⟩)
  have hlist := rowLoop_reported env k headers (row :: rows) 0
    ((importSheets env (workbook.take k) 0 s).1, ⟨0, 0, []⟩)
  have hlen := failureLines_length (sheetResults env workbook s k headers (row :: rows)) 0
  simp only [Nat.zero_add, importSheet] at hrep
  simp only [Nat.zero_add, Nat.sub_zero, List.nil_append] at hspec hlist
  refine ⟨_, hrep, ?_, ?_, ?_, ?_, ?_, ?_, ?_, ?_⟩
  · exact hspec.2.1
  · rw [hlen]; exact hspec.2.1.symm
  · exact hlist
  · have hlen2 : (failureLines (rowResults env k headers (row :: rows) 0
        (importSheets env (workbook.take k) 0 s).1) 0).length
        = errorTotal (sheetResults env workbook s k headers (row :: rows)) := hlen
    have he : errorTotal (sheetResults env workbook s k headers (row :: rows))
        = errorTotal (rowResults env k headers (row :: rows) 0
          (importSheets env (workbook.take k) 0 s).1) := rfl
    rw [hlist, List.length_take, hlen2, hspec.2.1, he]
    exact Nat.min_comm _ _
  · intro n
    rw [hlist]
    by_cases hn : n < 10
    · rw [if_pos hn, List.getElem?_take_of_lt hn]
      rfl
    · rw [if_neg hn]
      exact List.getElem?_eq_none (by rw [List.length_take]; omega)
  · exact failureLines_pairwise _ 0
  · intro p hp
    obtain ⟨n, h1, h2⟩ := failureLines_mem _ 0 p hp
    exact ⟨n, h1, by omega⟩
  · intro i m hm
    have := failureLines_of_error _ 0 i m hm
    simpa using this

theorem error_report_cap_witness :
    sampleWorkbookErrors[0]? = some ([.str "Producto", .str "Precio"] :: [.null, .num ⟨1, 0⟩] ::
      (List.replicate 11 [.null, .num ⟨1, 0⟩] ++ [[.str "Latte", .num ⟨35, -1⟩]])) ∧
    sampleWorkbookErrors[1]? = some ([.str "Producto", .str "Precio"] :: [.null, .num ⟨1, 0⟩] ::
      [[.str "Latte", .num ⟨35, -1⟩]]) ∧
    (∃ rep, (importData sampleEnv sampleWorkbookErrors freshState).2[0]? = some (some rep) ∧
      rep.errorCount = 12 ∧ rep.reported.length = 10 ∧
      rep.reported[9]? = some (10, "Failed to resolve required foreign keys") ∧
      rep.reported[10]? = none) ∧
    (∃ rep, (importData sampleEnv sampleWorkbookErrors freshState).2[1]? = some (some rep) ∧
      rep.errorCount = 1 ∧
      rep.reported = [(1, "Failed to resolve required foreign keys")]) := by
  obtain ⟨rep0, a1, a2, _, _, a5, a6, _⟩ := error_report_cap sampleEnv sampleWorkbookErrors
    freshState 0 [.str "Producto", .str "Precio"] [.null, .num ⟨1, 0⟩]
    (List.replicate 11 [.null, .num ⟨1, 0⟩] ++ [[.str "Latte", .num ⟨35, -1⟩]]) (by decide)
  obtain ⟨rep1, b1, b2, _, b4, _⟩ := error_report_cap sampleEnv sampleWorkbookErrors
    freshState 1 [.str "Producto", .str "Precio"] [.null, .num ⟨1, 0⟩]
    [[.str "Latte", .num ⟨35, -1⟩]] (by decide)
  have e0 : rep0.errorCount = 12 := by rw [a2]; decide
  refine ⟨by decide, by decide, ⟨rep0, a1, e0, ?_, ?_, ?_⟩, ⟨rep1, b1, ?_, ?_⟩⟩
  · rw [a5, e0]; rfl
  · rw [a6 9]; decide
  · rw [a6 10]; rfl
  · rw [b2]; decide
  · rw [b4]; decide

/-! ## Sheets without data rows (C20) -/

theorem importSheet_of_short (env : Env) (j : Nat) (data : List (List Cell)) (s : State)
    (hlen : data.length ≤ 1) : importSheet env j data s = (s, none) := by
  match data, hlen with
  | [], _ => rfl
  | [_], _ => rfl
  | _ :: _ :: _, hlen => simp at hlen

theorem importSheets_take_succ (env : Env) (sheets : List (List (List Cell))) :
    ∀ (j : Nat) (s : State) (k : Nat) (data : List (List Cell)), sheets[k]? = some data →
      (importSheets env (sheets.take (k + 1)) j s).1
        = (importSheet env (j + k) data (importSheets env (sheets.take k) j s).1).1 := by
  induction sheets with
  | nil => intro j s k data h; simp at h
  | cons d rest ih =>
    intro j s k data h
    cases k with
    | zero =>
      simp only [List.getElem?_cons_zero, Option.some.injEq] at h
      subst h
      simp [importSheets]
    | succ n =>
      simp only [List.getElem?_cons_succ] at h
      have h2 := ih (j + 1) (importSheet env j d s).1 n data h
      have e : j + (n + 1) = j + 1 + n := by omega
      simp only [importSheets, List.take_succ_cons]
      rw [h2, e]

/-- C20: a sheet with at most one row in total (empty, or a header row only) is skipped.
Wherever it stands in the workbook, the store after it is the store before it (no ventas
row, no reference entity and no cache entry is added), the sheet has no report (no row is
counted as imported or failed), and the loop goes on with the sheets after it from the
unchanged store. -/
theorem short_sheet_is_skipped (env : Env) (workbook : List (List (List Cell))) (s : State)
    (k : Nat) (data : List (List Cell)) (h : workbook[k]? = some data)
    (hlen : data.length ≤ 1) :
    (∀ j s2, importSheet env j data s2 = (s2, none)) ∧
    (importSheets env (workbook.take (k + 1)) 0 s).1 = (importSheets env (workbook.take k) 0 s).1 ∧
    (importData env workbook s).2[k]? = some none ∧
    (∀ rest j s2, importSheets env (data :: rest) j s2
      = ((importSheets env rest (j + 1) s2).1, none :: (importSheets env rest (j + 1) s2).2)) := by
  refine ⟨fun j s2 => importSheet_of_short env j data s2 hlen, ?_, ?_, ?_⟩
  · rw [importSheets_take_succ env workbook 0 s k data h, importSheet_of_short env _ data _ hlen]
  · show (importSheets env workbook 0 s).2[k]? = some none
    rw [importSheets_report env workbook 0 s k data h, importSheet_of_short env _ data _ hlen]
  · intro rest j s2
    simp only [importSheets, importSheet_of_short env j data s2 hlen]

theorem short_sheet_is_skipped_witness :
    sampleWorkbookShort[1]? = some [[.str "Producto", .str "Precio"]] ∧
    [[Cell.str "Producto", Cell.str "Precio"]].length ≤ 1 ∧
    (importSheets sampleEnv (sampleWorkbookShort.take 2) 0 freshState).1
      = (importSheets sampleEnv (sampleWorkbookShort.take 1) 0 freshState).1 ∧
    (importData sampleEnv sampleWorkbookShort freshState).2[1]? = some none ∧
    (importData sampleEnv sampleWorkbookShort freshState).2
      = [none, none, some ⟨1, 0, []⟩] ∧
    (importData sampleEnv sampleWorkbookShort freshState).1.ventas.rows.length = 1 ∧
    (importData sampleEnv sampleWorkbookShort freshState).1.productos.rows.length = 1 :=
  ⟨by decide, by decide,
    (short_sheet_is_skipped sampleEnv sampleWorkbookShort freshState 1
      [[.str "Producto", .str "Precio"]] (by decide) (by decide)).2.1,
    (short_sheet_is_skipped sampleEnv sampleWorkbookShort freshState 1
      [[.str "Producto", .str "Precio"]] (by decide) (by decide)).2.2.1,
    by decide, by decide, by decide⟩

/-! ## States reached by resolver calls and row imports -/

theorem rowsKept_refl {α : Type} (t : Table α) : RowsKept t t := ⟨[], by simp⟩

theorem rowsKept_trans {α : Type} (t t2 t3 : Table α) (h1 : RowsKept t t2)
    (h2 : RowsKept t2 t3) : RowsKept t t3 := by
  obtain ⟨l1, e1⟩ := h1
  obtain ⟨l2, e2⟩ := h2
  exact ⟨l1 ++ l2, by rw [e2, e1, List.append_assoc]⟩

theorem rowsKept_of_eq {α : Type} (t t2 : Table α) (h : t2 = t) : RowsKept t t2 := by
  rw [h]; exact rowsKept_refl t

theorem rowsKept_mem {α : Type} (t t2 : Table α) (h : RowsKept t t2) (r : α)
    (hr : r ∈ t.rows) : r ∈ t2.rows := by
  obtain ⟨l, e⟩ := h
  rw [e]
  exact List.mem_append_left l hr

theorem allRowsKept_refl (s : State) : AllRowsKept s s :=
  ⟨⟨rowsKept_refl _, rowsKept_refl _, rowsKept_refl _⟩, rowsKept_refl _⟩

theorem allRowsKept_trans (s s2 s3 : State) (h1 : AllRowsKept s s2) (h2 : AllRowsKept s2 s3) :
    AllRowsKept s s3 :=
  ⟨⟨rowsKept_trans _ _ _ h1.1.1 h2.1.1, rowsKept_trans _ _ _ h1.1.2.1 h2.1.2.1,
    rowsKept_trans _ _ _ h1.1.2.2 h2.1.2.2⟩, rowsKept_trans _ _ _ h1.2 h2.2⟩

theorem lookupOrInsert_rowsKept {α : Type} (idOf : α → Nat) (isMatch : α → Bool)
    (mk : Nat → α) (key : String) (c : Cache) (t : Table α) :
    ∃ l, (lookupOrInsert idOf isMatch mk key c t).2.2.rows = t.rows ++ l ∧ l.length ≤ 1 := by
  unfold lookupOrInsert
  cases hh : c.hit key with
  | some id0 => exact ⟨[], by simp, by simp⟩
  | none =>
    cases hf : t.rows.find? isMatch with
    | some r0 => exact ⟨[], by simp, by simp⟩
    | none => exact ⟨[mk (t.nextId idOf)], rfl, by simp⟩

theorem productoBody_kept (key : String) (n c p : Cell) (s : State) :
    AllRowsKept s (productoBody key n c p s).2 := by
  obtain ⟨l, h, _⟩ := lookupOrInsert_rowsKept Producto.id_producto
    (fun p => decide (sqlLower p.nombre_producto = key))
    (fun id => ⟨id, n.sqlText, c, p⟩) key s.lookupCaches.productos s.productos
  exact ⟨⟨⟨l, h⟩, rowsKept_refl _, rowsKept_refl _⟩, rowsKept_refl _⟩

theorem clienteBody_kept (key : String) (t : Cell) (s : State) :
    AllRowsKept s (clienteBody key t s).2 := by
  obtain ⟨l, h, _⟩ := lookupOrInsert_rowsKept Cliente.id_cliente
    (fun c => decide (c.codigo_anonimo = key))
    (fun id => ⟨id, key, t, none, none, 0, JSNum.ofInt 0⟩) key
    s.lookupCaches.clientes s.clientes
  exact ⟨⟨rowsKept_refl _, rowsKept_refl _, rowsKept_refl _⟩, ⟨l, h⟩⟩

theorem sucursalBody_kept (key : String) (n d c : Cell) (s : State) :
    AllRowsKept s (sucursalBody key n d c s).2 := by
  obtain ⟨l, h, _⟩ := lookupOrInsert_rowsKept Sucursal.id_sucursal
    (fun x => decide (sqlLower x.nombre_sucursal = key))
    (fun id => ⟨id, n.sqlText, d, c⟩) key s.lookupCaches.sucursales s.sucursales
  exact ⟨⟨rowsKept_refl _, ⟨l, h⟩, rowsKept_refl _⟩, rowsKept_refl _⟩

theorem metodoPagoBody_kept (key : String) (t d : Cell) (s : State) :
    AllRowsKept s (metodoPagoBody key t d s).2 := by
  obtain ⟨l, h, _⟩ := lookupOrInsert_rowsKept MetodoPago.id_metodo_pago
    (fun x => decide (sqlLower x.tipo_pago = key))
    (fun id => ⟨id, t.sqlText, d⟩) key s.lookupCaches.metodos_pago s.metodos_pago
  exact ⟨⟨rowsKept_refl _, rowsKept_refl _, ⟨l, h⟩⟩, rowsKept_refl _⟩

theorem getOrCreateProducto_kept (n c p : Cell) (s : State) :
    AllRowsKept s (getOrCreateProducto n c p s).2 ∧
      (getOrCreateProducto n c p s).2.ventas = s.ventas := by
  cases hk : truthyKey n with
  | none =>
    rw [getOrCreateProducto_none _ _ _ _ hk]
    exact ⟨allRowsKept_refl s, rfl⟩
  | some key =>
    rw [getOrCreateProducto_some _ _ _ _ _ hk]
    exact ⟨productoBody_kept key n c p s, rfl⟩

theorem getOrCreateCliente_kept (k t : Cell) (s : State) :
    AllRowsKept s (getOrCreateCliente k t s).2 ∧
      (getOrCreateCliente k t s).2.ventas = s.ventas := by
  unfold getOrCreateCliente
  split
  · exact ⟨clienteBody_kept _ t s, rfl⟩
  · exact ⟨allRowsKept_refl s, rfl⟩

theorem getOrCreateSucursal_kept (n d c : Cell) (s : State) :
    AllRowsKept s (getOrCreateSucursal n d c s).2 ∧
      (getOrCreateSucursal n d c s).2.ventas = s.ventas := by
  cases hk : truthyKey n with
  | none =>
    rw [getOrCreateSucursal_none _ _ _ _ hk]
    exact ⟨sucursalBody_kept _ _ _ _ s, rfl⟩
  | some key =>
    rw [getOrCreateSucursal_some _ _ _ _ _ hk]
    exact ⟨sucursalBody_kept _ _ _ _ s, rfl⟩

theorem getOrCreateMetodoPago_kept (t d : Cell) (s : State) :
    AllRowsKept s (getOrCreateMetodoPago t d s).2 ∧
      (getOrCreateMetodoPago t d s).2.ventas = s.ventas := by
  cases hk : truthyKey t with
  | none =>
    rw [getOrCreateMetodoPago_none _ _ _ hk]
    exact ⟨metodoPagoBody_kept _ _ _ s, rfl⟩
  | some key =>
    rw [getOrCreateMetodoPago_some _ _ _ _ hk]
    exact ⟨metodoPagoBody_kept _ _ _ s, rfl⟩

theorem resolverCall_kept (call : ResolverCall) (s : State) :
    AllRowsKept s (call.run s).2 ∧ (call.run s).2.ventas = s.ventas := by
  cases call with
  | producto n c p => exact getOrCreateProducto_kept n c p s
  | cliente k t => exact getOrCreateCliente_kept k t s
  | sucursal n d c => exact getOrCreateSucursal_kept n d c s
  | metodoPago t d => exact getOrCreateMetodoPago_kept t d s

theorem cliente_step_kept (cliente : Cell) (s : State) :
    AllRowsKept s (if cliente.truthy then getOrCreateCliente cliente .null s else (none, s)).2 ∧
      (if cliente.truthy then getOrCreateCliente cliente .null s else (none, s)).2.ventas
        = s.ventas := by
  split
  · exact getOrCreateCliente_kept cliente .null s
  · exact ⟨allRowsKept_refl s, rfl⟩

theorem resolveForeignKeys_kept
    (producto categoria precio cliente sucursal metodoPago : Cell) (s : State) :
    AllRowsKept s
        (resolveForeignKeys producto categoria precio cliente sucursal metodoPago s).2 ∧
      (resolveForeignKeys producto categoria precio cliente sucursal metodoPago s).2.ventas
        = s.ventas := by
  unfold resolveForeignKeys
  simp only []
  have h1 := getOrCreateProducto_kept producto categoria precio s
  generalize getOrCreateProducto producto categoria precio s = r1 at h1 ⊢
  have h2 := cliente_step_kept cliente r1.2
  generalize (if cliente.truthy = true then getOrCreateCliente cliente .null r1.2
    else (none, r1.2)) = r2 at h2 ⊢
  have h3 := getOrCreateSucursal_kept sucursal .null .null r2.2
  generalize getOrCreateSucursal sucursal .null .null r2.2 = r3 at h3 ⊢
  have h4 := getOrCreateMetodoPago_kept metodoPago .null r3.2
  generalize getOrCreateMetodoPago metodoPago .null r3.2 = r4 at h4 ⊢
  refine ⟨allRowsKept_trans _ _ _ h1.1 (allRowsKept_trans _ _ _ h2.1
    (allRowsKept_trans _ _ _ h3.1 h4.1)), ?_⟩
  rw [h4.2, h3.2, h2.2, h1.2]

theorem mapExcelRowToVenta_kept (env : Env) (now : Int) (row headers : List Cell)
    (s : State) :
    AllRowsKept s (mapExcelRowToVenta env now row headers s).2 ∧
      (mapExcelRowToVenta env now row headers s).2.ventas = s.ventas := by
  cases hf : fechaObj env now (getValue headers row fechaNames) with
  | none =>
    rw [mapExcelRowToVenta_of_invalid env now row headers s hf]
    exact ⟨allRowsKept_refl s, rfl⟩
  | some t =>
    have hr := resolveForeignKeys_kept (getValue headers row productoNames)
      (getValue headers row categoriaNames) (getValue headers row precioNames)
      (getValue headers row clienteNames) (getValue headers row sucursalNames)
      (getValue headers row metodoPagoNames) s
    cases hk : keysTruthy (resolveRow row headers s).1 with
    | true =>
      rw [mapExcelRowToVenta_of_truthy env now row headers s t hf hk]
      exact hr
    | false =>
      rw [mapExcelRowToVenta_of_falsy env now row headers s t hf hk]
      exact hr

theorem rowStep_kept (env : Env) (sheet : Nat) (headers row : List Cell) (i : Nat)
    (acc : State × SheetReport) :
    AllRowsKept acc.1 (rowStep env sheet headers row i acc).1 := by
  have hm := mapExcelRowToVenta_kept env (env.clock sheet i) row headers acc.1
  unfold rowStep
  generalize mapExcelRowToVenta env (env.clock sheet i) row headers acc.1 = m at hm ⊢
  obtain ⟨res, s2⟩ := m
  cases res with
  | error msg => exact hm.1
  | ok v => exact hm.1

theorem rowLoop_kept (env : Env) (sheet : Nat) (headers : List Cell)
    (rows : List (List Cell)) :
    ∀ (i : Nat) (acc : State × SheetReport),
      AllRowsKept acc.1 (rowLoop env sheet headers rows i acc).1 := by
  induction rows with
  | nil => intro i acc; exact allRowsKept_refl _
  | cons row rest ih =>
    intro i acc
    exact allRowsKept_trans _ _ _ (rowStep_kept env sheet headers row i acc)
      (ih (i + 1) (rowStep env sheet headers row i acc))

theorem importSheet_kept (env : Env) (sheet : Nat) (data : List (List Cell)) (s : State) :
    AllRowsKept s (importSheet env sheet data s).1 := by
  unfold importSheet
  split
  · exact rowLoop_kept env sheet _ _ 0 (s, ⟨0, 0, []⟩)
  · exact allRowsKept_refl _

theorem importSheets_kept (env : Env) (workbook : List (List (List Cell))) :
    ∀ (j : Nat) (s : State), AllRowsKept s (importSheets env workbook j s).1 := by
  induction workbook with
  | nil => intro j s; exact allRowsKept_refl _
  | cons data rest ih =>
    intro j s
    exact allRowsKept_trans _ _ _ (importSheet_kept env j data s)
      (ih (j + 1) (importSheet env j data s).1)

theorem step_kept (st : Step) (s : State) : AllRowsKept s (st.run s) := by
  cases st with
  | resolve call => exact (resolverCall_kept call s).1
  | importRow env sheet headers row i =>
    exact rowStep_kept env sheet headers row i (s, ⟨0, 0, []⟩)

theorem runSteps_kept (steps : List Step) :
    ∀ s : State, AllRowsKept s (runSteps steps s) := by
  induction steps with
  | nil => intro s; exact allRowsKept_refl s
  | cons st rest ih =>
    intro s
    exact allRowsKept_trans _ _ _ (step_kept st s) (ih (st.run s))

/-! ## Reference rows are immutable (C21) -/

theorem lookupOrInsert_known {α : Type} (idOf : α → Nat) (isMatch : α → Bool) (mk : Nat → α)
    (key : String) (c : Cache) (t : Table α)
    (h : c.hit key ≠ none ∨ ∃ r ∈ t.rows, isMatch r = true) :
    (lookupOrInsert idOf isMatch mk key c t).2.2 = t := by
  unfold lookupOrInsert
  cases hh : c.hit key with
  | some id0 => rfl
  | none =>
    cases hf : t.rows.find? isMatch with
    | some r0 => rfl
    | none =>
      rcases h with h | ⟨r, hr, hm⟩
      · exact absurd hh h
      · have := List.find?_eq_none.mp hf r hr
        rw [hm] at this
        exact absurd rfl this

theorem importData_referenceRowsKept (env : Env) (workbook : List (List (List Cell)))
    (s : State) : ReferenceRowsKept s (importData env workbook s).1 :=
  (importSheets_kept env workbook 0 s).1

/-- C21: the rows of `productos`, `sucursales` and `metodos_pago` are immutable once
created.  After any resolver call, any row import, any sequence of them and the whole of
`importData`, started in any state, each of the three tables consists of its former rows,
unchanged and in place, followed by appended rows.  Resolving a key that is already known
(its cache entry is truthy, or the `SELECT` of the resolver matches a row) leaves the table
exactly as it was, whatever auxiliary attributes are passed. -/
theorem reference_rows_immutable :
    (∀ (call : ResolverCall) (s : State), ReferenceRowsKept s (call.run s).2) ∧
    (∀ (env : Env) (sheet : Nat) (headers row : List Cell) (i : Nat)
        (acc : State × SheetReport),
      ReferenceRowsKept acc.1 (rowStep env sheet headers row i acc).1) ∧
    (∀ (steps : List Step) (s : State), ReferenceRowsKept s (runSteps steps s)) ∧
    (∀ (env : Env) (workbook : List (List (List Cell))) (s : State),
      ReferenceRowsKept s (importData env workbook s).1) ∧
    (∀ (nombre categoria precioBase : Cell) (key : String) (s : State),
      truthyKey nombre = some key →
      (s.lookupCaches.productos.hit key ≠ none ∨
        ∃ r ∈ s.productos.rows, sqlLower r.nombre_producto = key) →
      (getOrCreateProducto nombre categoria precioBase s).2.productos = s.productos) ∧
    (∀ (nombre direccion ciudad : Cell) (s : State),
      (s.lookupCaches.sucursales.hit (sucursalKey nombre) ≠ none ∨
        ∃ r ∈ s.sucursales.rows, sqlLower r.nombre_sucursal = sucursalKey nombre) →
      (getOrCreateSucursal nombre direccion ciudad s).2.sucursales = s.sucursales) ∧
    (∀ (tipoPago descripcion : Cell) (s : State),
      (s.lookupCaches.metodos_pago.hit (metodoPagoKey tipoPago) ≠ none ∨
        ∃ r ∈ s.metodos_pago.rows, sqlLower r.tipo_pago = metodoPagoKey tipoPago) →
      (getOrCreateMetodoPago tipoPago descripcion s).2.metodos_pago = s.metodos_pago) := by
  refine ⟨fun call s => (resolverCall_kept call s).1.1,
    fun env sheet headers row i acc => (rowStep_kept env sheet headers row i acc).1,
    fun steps s => (runSteps_kept steps s).1,
    fun env workbook s => importData_referenceRowsKept env workbook s, ?_, ?_, ?_⟩
  · intro nombre categoria precioBase key s hk hknown
    rw [getOrCreateProducto_some _ _ _ _ _ hk]
    apply lookupOrInsert_known
    rcases hknown with h | ⟨r, hr, hm⟩
    · exact Or.inl h
    · exact Or.inr ⟨r, hr, by simpa using hm⟩
  · intro nombre direccion ciudad s hknown
    cases hk : truthyKey nombre with
    | none =>
      have hkey : sucursalKey nombre = "sucursal principal" := by simp [sucursalKey, hk]
      rw [hkey] at hknown
      rw [getOrCreateSucursal_none _ _ _ _ hk]
      apply lookupOrInsert_known
      rcases hknown with h | ⟨r, hr, hm⟩
      · exact Or.inl h
      · exact Or.inr ⟨r, hr, by simpa using hm⟩
    | some key =>
      have hkey : sucursalKey nombre = key := by simp [sucursalKey, hk]
      rw [hkey] at hknown
      rw [getOrCreateSucursal_some _ _ _ _ _ hk]
      apply lookupOrInsert_known
      rcases hknown with h | ⟨r, hr, hm⟩
      · exact Or.inl h
      · exact Or.inr ⟨r, hr, by simpa using hm⟩
  · intro tipoPago descripcion s hknown
    cases hk : truthyKey tipoPago with
    | none =>
      have hkey : metodoPagoKey tipoPago = "efectivo" := by simp [metodoPagoKey, hk]
      rw [hkey] at hknown
      rw [getOrCreateMetodoPago_none _ _ _ hk]
      apply lookupOrInsert_known
      rcases hknown with h | ⟨r, hr, hm⟩
      · exact Or.inl h
      · exact Or.inr ⟨r, hr, by simpa using hm⟩
    | some key =>
      have hkey : metodoPagoKey tipoPago = key := by simp [metodoPagoKey, hk]
      rw [hkey] at hknown
      rw [getOrCreateMetodoPago_some _ _ _ _ hk]
      apply lookupOrInsert_known
      rcases hknown with h | ⟨r, hr, hm⟩
      · exact Or.inl h
      · exact Or.inr ⟨r, hr, by simpa using hm⟩

theorem reference_rows_immutable_witness :
    truthyKey (.str " LATTE ") = some "latte" ∧
    (∃ r ∈ sampleLoaded.productos.rows, sqlLower r.nombre_producto = "latte") ∧
    sampleLoaded.productos.rows
      = [⟨1, "Latte", .null, .num ⟨35, -1⟩⟩, ⟨2, "Mocha", .null, .num ⟨2, 0⟩⟩] ∧
    (getOrCreateProducto (.str " LATTE ") (.str "Bebidas") (.num ⟨99, 0⟩)
      (initializeLookupCaches sampleLoaded)).2.productos = sampleLoaded.productos ∧
    (getOrCreateProducto (.str "Té") (.str "Bebidas") (.num ⟨99, 0⟩)
      sampleLoaded).2.productos.rows
      = sampleLoaded.productos.rows ++ [⟨3, "Té", .str "Bebidas", .num ⟨99, 0⟩⟩] :=
  ⟨by decide, by decide, by decide,
    reference_rows_immutable.2.2.2.2.1 (.str " LATTE ") (.str "Bebidas") (.num ⟨99, 0⟩)
      "latte" (initializeLookupCaches sampleLoaded) (by decide) (Or.inr (by decide)),
    by decide⟩

/-! ## Failure condition of the row mapper (C22) -/

theorem trimList_ne_nil (l : List Char) (c : Char) (hc : c ∈ l) (hw : isWhiteSpace c = false) :
    trimList l ≠ [] := by
  intro h
  unfold trimList at h
  have h1 : (l.dropWhile isWhiteSpace).reverse.dropWhile isWhiteSpace = [] := by
    simpa using h
  have h2 : ∀ x ∈ l.dropWhile isWhiteSpace, isWhiteSpace x = true := by
    intro x hx
    exact List.dropWhile_eq_nil_iff.mp h1 x (List.mem_reverse.mpr hx)
  cases hd : l.dropWhile isWhiteSpace with
  | nil =>
    have := List.dropWhile_eq_nil_iff.mp hd c hc
    rw [hw] at this
    cases this
  | cons a rest =>
    have hne : l.dropWhile isWhiteSpace ≠ [] := by rw [hd]; simp
    have h3 := List.head_dropWhile_not isWhiteSpace l hne
    have h4 := h2 ((l.dropWhile isWhiteSpace).head hne) (List.head_mem hne)
    rw [h4] at h3
    simp at h3

theorem digitChar_not_ws (n : Nat) : isWhiteSpace (digitChar n) = false := by
  have h : (digitChar n).toNat = 48 + n % 10 := toNat_ofNat_of_lt _ (by omega)
  exact isWhiteSpace_eq_false _ (Or.inl (by omega))

theorem digitChar_mem_natDigitsFuel (fuel n : Nat) : digitChar n ∈ natDigitsFuel fuel n := by
  cases fuel with
  | zero => simp [natDigitsFuel]
  | succ f =>
    simp only [natDigitsFuel]
    split
    · simp
    · simp

set_option linter.unusedTactic false in
theorem numToString_not_blank (d : Dec) :
    ∃ c ∈ (numToString d).data, isWhiteSpace c = false := by
  have hdig : digitChar d.norm.mant.natAbs ∈ natDigits d.norm.mant.natAbs :=
    digitChar_mem_natDigitsFuel _ _
  simp only [numToString]
  split_ifs
  all_goals first
    | (refine ⟨'-', ?_, by decide⟩; simp; done)
    | (refine ⟨'.', ?_, by decide⟩; simp; done)
    | (refine ⟨'e', ?_, by decide⟩; simp; done)
    | (refine ⟨digitChar d.norm.mant.natAbs, ?_, digitChar_not_ws _⟩; simp [hdig]; done)
    | (refine ⟨'0', ?_, by decide⟩; simp; done)

theorem blank_of_truthyKey_none (v : Cell) (h : truthyKey v = none) : Blank v := by
  cases v with
  | null => exact Or.inl rfl
  | str w =>
    right
    refine ⟨w, rfl, ?_⟩
    intro c hc
    by_contra hw
    have hw2 : isWhiteSpace c = false := by simpa using hw
    have hmem : lowerChar c ∈ (toLowerCase w).data := by
      simp only [toLowerCase]
      exact List.mem_map_of_mem _ hc
    have hne := trimList_ne_nil (toLowerCase w).data (lowerChar c) hmem
      (by rw [isWhiteSpace_lowerChar]; exact hw2)
    simp only [truthyKey, normKey, Cell.toStringOpt, Option.map_some'] at h
    split at h
    · rename_i hk
      apply hne
      simpa [trim] using congrArg String.data hk
    · cases h
  | num d =>
    exfalso
    obtain ⟨c, hc, hw⟩ := numToString_not_blank d
    have hmem : lowerChar c ∈ (toLowerCase (numToString d)).data := by
      simp only [toLowerCase]
      exact List.mem_map_of_mem _ hc
    have hne := trimList_ne_nil (toLowerCase (numToString d)).data (lowerChar c) hmem
      (by rw [isWhiteSpace_lowerChar]; exact hw)
    simp only [truthyKey, normKey, Cell.toStringOpt, Option.map_some'] at h
    split at h
    · rename_i hk
      apply hne
      simpa [trim] using congrArg String.data hk
    · cases h

theorem idTruthy_ne_zero (o : Option Nat) (h : idTruthy o = true) :
    o = some (o.getD 0) ∧ o.getD 0 ≠ 0 := by
  cases o with
  | none => simp [idTruthy] at h
  | some id => exact ⟨rfl, by simpa [idTruthy] using h⟩

/-- C22: for a row whose date value is a valid date or absent, in a store whose
identifiers are positive, `mapExcelRowToVenta` fails with `Failed to resolve required
foreign keys` if and only if the product value is null (absent), empty or made of white
space only.  Hence a row with a usable product is mapped whatever its store, payment method
and client values are, and the record returned has the non-null identifiers the resolvers
gave for product, payment method and store. -/
theorem mapper_failure_condition (env : Env) (now : Int) (row headers : List Cell) (s : State)
    (t : Int) (hf : fechaObj env now (getValue headers row fechaNames) = some t)
    (hpos : PositiveIds s) :
    ((mapExcelRowToVenta env now row headers s).1
        = .error "Failed to resolve required foreign keys" ↔
      Blank (getValue headers row productoNames)) ∧
    (¬ Blank (getValue headers row productoNames) →
      ∃ v, (mapExcelRowToVenta env now row headers s).1 = .ok v) ∧
    (∀ v, (mapExcelRowToVenta env now row headers s).1 = .ok v →
      ((resolveRow row headers s).1.idProducto = some v.id_producto ∧ v.id_producto ≠ 0) ∧
      ((resolveRow row headers s).1.idMetodoPago = some v.id_metodo_pago ∧
        v.id_metodo_pago ≠ 0) ∧
      ((resolveRow row headers s).1.idSucursal = some v.id_sucursal ∧ v.id_sucursal ≠ 0)) := by
  have hkt := keysTruthy_resolveRow row headers s hpos
  refine ⟨⟨?_, ?_⟩, ?_, ?_⟩
  · intro herr
    cases hk : truthyKey (getValue headers row productoNames) with
    | none => exact blank_of_truthyKey_none _ hk
    | some key =>
      rw [hk] at hkt
      rw [mapExcelRowToVenta_of_truthy env now row headers s t hf hkt] at herr
      exact Except.noConfusion herr
  · intro hb
    rw [truthyKey_of_blank _ hb] at hkt
    rw [mapExcelRowToVenta_of_falsy env now row headers s t hf hkt]
  · intro hnb
    cases hk : truthyKey (getValue headers row productoNames) with
    | none => exact absurd (blank_of_truthyKey_none _ hk) hnb
    | some key =>
      rw [hk] at hkt
      rw [mapExcelRowToVenta_of_truthy env now row headers s t hf hkt]
      exact ⟨_, rfl⟩
  · intro v hv
    obtain ⟨t2, _, hk, hrec⟩ := mapExcelRowToVenta_ok_eq env now row headers s v hv
    have h3 := (keysTruthy_iff _).mp hk
    rw [hrec]
    exact ⟨idTruthy_ne_zero _ h3.1, idTruthy_ne_zero _ h3.2.2, idTruthy_ne_zero _ h3.2.1⟩

theorem mapper_failure_condition_witness :
    fechaObj sampleEnv 0 (getValue [.str "Producto", .str "Precio"]
      [.str "   ", .num ⟨35, -1⟩] fechaNames) = some 0 ∧
    PositiveIds freshState ∧
    Blank (getValue [.str "Producto", .str "Precio"] [.str "   ", .num ⟨35, -1⟩]
      productoNames) ∧
    (mapExcelRowToVenta sampleEnv 0 [.str "   ", .num ⟨35, -1⟩]
      [.str "Producto", .str "Precio"] freshState).1
        = .error "Failed to resolve required foreign keys" ∧
    ¬ Blank (getValue [.str "Producto", .str "Precio"] [.str "Latte", .num ⟨35, -1⟩]
      productoNames) ∧
    (∃ v, (mapExcelRowToVenta sampleEnv 0 [.str "Latte", .num ⟨35, -1⟩]
      [.str "Producto", .str "Precio"] freshState).1 = .ok v) := by
  have hpos : PositiveIds freshState := by simp [PositiveIds, freshState, Table.empty]
  have hb : Blank (getValue [.str "Producto", .str "Precio"] [.str "   ", .num ⟨35, -1⟩]
      productoNames) := Or.inr ⟨"   ", by decide, by decide⟩
  have hnb : ¬ Blank (getValue [.str "Producto", .str "Precio"]
      [.str "Latte", .num ⟨35, -1⟩] productoNames) := by
    intro h
    have := truthyKey_of_blank _ h
    revert this
    decide
  exact ⟨by decide, hpos, hb,
    (mapper_failure_condition sampleEnv 0 [.str "   ", .num ⟨35, -1⟩]
      [.str "Producto", .str "Precio"] freshState 0 (by decide) hpos).1.mpr hb,
    hnb,
    (mapper_failure_condition sampleEnv 0 [.str "Latte", .num ⟨35, -1⟩]
      [.str "Producto", .str "Precio"] freshState 0 (by decide) hpos).2.1 hnb⟩

/-! ### Identifiers are positive in every state reached from a fresh schema -/

theorem lookupOrInsert_pos {α : Type} (idOf : α → Nat) (isMatch : α → Bool) (mk : Nat → α)
    (key : String) (c : Cache) (t : Table α) (hid : ∀ id, idOf (mk id) = id)
    (h : ∀ r ∈ t.rows, idOf r ≠ 0) :
    ∀ r ∈ (lookupOrInsert idOf isMatch mk key c t).2.2.rows, idOf r ≠ 0 := by
  unfold lookupOrInsert
  cases hh : c.hit key with
  | some id0 => exact h
  | none =>
    cases hf : t.rows.find? isMatch with
    | some r0 => exact h
    | none =>
      intro r hr
      simp only [Table.insert, List.mem_append, List.mem_singleton] at hr
      rcases hr with hr | hr
      · exact h r hr
      · rw [hr, hid]; exact Table.nextId_pos idOf t

theorem productoBody_pos (key : String) (n c p : Cell) (s : State) (h : PositiveIds s) :
    PositiveIds (productoBody key n c p s).2 :=
  ⟨lookupOrInsert_pos Producto.id_producto _ _ key _ _ (fun _ => rfl) h.1, h.2.1, h.2.2⟩

theorem sucursalBody_pos (key : String) (n d c : Cell) (s : State) (h : PositiveIds s) :
    PositiveIds (sucursalBody key n d c s).2 :=
  ⟨h.1, lookupOrInsert_pos Sucursal.id_sucursal _ _ key _ _ (fun _ => rfl) h.2.1, h.2.2⟩

theorem metodoPagoBody_pos (key : String) (t d : Cell) (s : State) (h : PositiveIds s) :
    PositiveIds (metodoPagoBody key t d s).2 :=
  ⟨h.1, h.2.1, lookupOrInsert_pos MetodoPago.id_metodo_pago _ _ key _ _ (fun _ => rfl) h.2.2⟩

theorem resolverCall_pos (call : ResolverCall) (s : State) (h : PositiveIds s) :
    PositiveIds (call.run s).2 := by
  cases call with
  | producto n c p =>
    show PositiveIds (getOrCreateProducto n c p s).2
    cases hk : truthyKey n with
    | none => rw [getOrCreateProducto_none _ _ _ _ hk]; exact h
    | some key => rw [getOrCreateProducto_some _ _ _ _ _ hk]; exact productoBody_pos _ _ _ _ s h
  | cliente k t =>
    show PositiveIds (getOrCreateCliente k t s).2
    have hfr := getOrCreateCliente_frame k t s
    unfold PositiveIds
    rw [hfr.1, hfr.2.1, hfr.2.2.1]
    exact h
  | sucursal n d c =>
    show PositiveIds (getOrCreateSucursal n d c s).2
    cases hk : truthyKey n with
    | none => rw [getOrCreateSucursal_none _ _ _ _ hk]; exact sucursalBody_pos _ _ _ _ s h
    | some key => rw [getOrCreateSucursal_some _ _ _ _ _ hk]; exact sucursalBody_pos _ _ _ _ s h
  | metodoPago t d =>
    show PositiveIds (getOrCreateMetodoPago t d s).2
    cases hk : truthyKey t with
    | none => rw [getOrCreateMetodoPago_none _ _ _ hk]; exact metodoPagoBody_pos _ _ _ s h
    | some key => rw [getOrCreateMetodoPago_some _ _ _ _ hk]; exact metodoPagoBody_pos _ _ _ s h

theorem resolveForeignKeys_pos (producto categoria precio cliente sucursal metodoPago : Cell)
    (s : State) (h : PositiveIds s) :
    PositiveIds (resolveForeignKeys producto categoria precio cliente sucursal metodoPago s).2 := by
  unfold resolveForeignKeys
  simp only []
  have h1 := resolverCall_pos (.producto producto categoria precio) s h
  have h2 : PositiveIds (if cliente.truthy
      then getOrCreateCliente cliente .null (getOrCreateProducto producto categoria precio s).2
      else (none, (getOrCreateProducto producto categoria precio s).2)).2 := by
    split
    · exact resolverCall_pos (.cliente cliente .null) _ h1
    · exact h1
  exact resolverCall_pos (.metodoPago metodoPago .null) _
    (resolverCall_pos (.sucursal sucursal .null .null) _ h2)

theorem mapExcelRowToVenta_pos (env : Env) (now : Int) (row headers : List Cell) (s : State)
    (h : PositiveIds s) : PositiveIds (mapExcelRowToVenta env now row headers s).2 := by
  cases hf : fechaObj env now (getValue headers row fechaNames) with
  | none => rw [mapExcelRowToVenta_of_invalid env now row headers s hf]; exact h
  | some t =>
    have hr := resolveForeignKeys_pos (getValue headers row productoNames)
      (getValue headers row categoriaNames) (getValue headers row precioNames)
      (getValue headers row clienteNames) (getValue headers row sucursalNames)
      (getValue headers row metodoPagoNames) s h
    cases hk : keysTruthy (resolveRow row headers s).1 with
    | true => rw [mapExcelRowToVenta_of_truthy env now row headers s t hf hk]; exact hr
    | false => rw [mapExcelRowToVenta_of_falsy env now row headers s t hf hk]; exact hr

theorem rowStep_pos (env : Env) (sheet : Nat) (headers row : List Cell) (i : Nat)
    (acc : State × SheetReport) (h : PositiveIds acc.1) :
    PositiveIds (rowStep env sheet headers row i acc).1 := by
  have hm := mapExcelRowToVenta_pos env (env.clock sheet i) row headers acc.1 h
  unfold rowStep
  generalize mapExcelRowToVenta env (env.clock sheet i) row headers acc.1 = m at hm ⊢
  obtain ⟨res, s2⟩ := m
  cases res with
  | error msg => exact hm
  | ok v => exact hm

theorem runSteps_pos (steps : List Step) :
    ∀ s : State, PositiveIds s → PositiveIds (runSteps steps s) := by
  induction steps with
  | nil => intro s h; exact h
  | cons st rest ih =>
    intro s h
    apply ih
    cases st with
    | resolve call => exact resolverCall_pos call s h
    | importRow env sheet headers row i =>
      exact rowStep_pos env sheet headers row i (s, ⟨0, 0, []⟩) h

theorem positiveIds_fresh : PositiveIds freshState := by
  simp [PositiveIds, freshState, Table.empty]

/-! ## Calendar fields and the stored date (C23) -/

/-- C23, the code at the failing input: in a process whose local time is six hours behind
UTC, the row with the date `2024-01-15` (a Monday) and the product `Latte` is mapped to a
record with `fecha_venta` = `2024-01-15` and `hora_del_dia` = `00:00:00`, taken from the
UTC form of the date, but with the weekday index 0 and name `Domingo`, taken from local
time, where the date is still January 14; the row with the date `2024-02-01` gets
`fecha_venta` = `2024-02-01` with the month number 1 and name `Enero`.  With local time
equal to UTC the same rows get the weekday 1 `Lunes` and the month 2 `Febrero`. -/
theorem calendar_fields_disagree_with_fecha_venta :
    calendarFields [(mapExcelRowToVenta sampleEnvWest 0 [.str "2024-01-15", .str "Latte"]
        [.str "Fecha", .str "Producto"] freshState).1]
      = [("2024-01-15", "00:00:00", 0, "Domingo", 1, "Enero")] ∧
    weekDay 1705276800000 = 1 ∧
    splitAt (toISOString 1705276800000) 'T' 0 = "2024-01-15" ∧
    calendarFields [(mapExcelRowToVenta sampleEnvWest 0 [.str "2024-02-01", .str "Latte"]
        [.str "Fecha", .str "Producto"] freshState).1]
      = [("2024-02-01", "00:00:00", 3, "Miércoles", 1, "Enero")] ∧
    weekDay 1706745600000 = 4 ∧
    calendarFields [(mapExcelRowToVenta sampleEnvUTC 0 [.str "2024-01-15", .str "Latte"]
        [.str "Fecha", .str "Producto"] freshState).1]
      = [("2024-01-15", "00:00:00", 1, "Lunes", 1, "Enero")] ∧
    calendarFields [(mapExcelRowToVenta sampleEnvUTC 0 [.str "2024-02-01", .str "Latte"]
        [.str "Fecha", .str "Producto"] freshState).1]
      = [("2024-02-01", "00:00:00", 4, "Jueves", 2, "Febrero")] := by
  refine ⟨?_, ?_, ?_, ?_, ?_, ?_, ?_⟩ <;> decide

/-! ## Absent fields and defaults (C24) -/

theorem headerContains_of_headerMatches (name : String) (h : Cell)
    (hm : headerMatches name h = true) : headerContains h name = true := by
  cases h with
  | null => simp [headerMatches, Cell.truthy] at hm
  | str w =>
    simp only [headerMatches, Bool.and_eq_true, Cell.toStr] at hm
    simpa [headerContains, Cell.toStringOpt] using hm.2
  | num d =>
    simp only [headerMatches, Bool.and_eq_true, Cell.toStr] at hm
    simpa [headerContains, Cell.toStringOpt] using hm.2

theorem getValue_of_not_contained (headers row : List Cell) (names : List String)
    (h : ∀ c ∈ headers, ∀ n ∈ names, headerContains c n = false) :
    getValue headers row names = .null := by
  apply getValue_of_no_match
  intro c hc n hn
  cases hm : headerMatches n c with
  | false => rfl
  | true =>
    have := headerContains_of_headerMatches n c hm
    rw [h c hc n hn] at this
    cases this

theorem toLowerCase_eq_empty_iff (a b : String) (h : toLowerCase a = toLowerCase b) :
    a = "" ↔ b = "" := by
  have hd : a.data.map lowerChar = b.data.map lowerChar := by
    simpa [toLowerCase] using congrArg String.data h
  have hl : a.data.length = b.data.length := by
    simpa using congrArg List.length hd
  constructor
  · intro ha
    subst ha
    have : b.data = [] := List.length_eq_zero.mp (by rw [← hl]; rfl)
    exact String.ext this
  · intro hb
    subst hb
    have : a.data = [] := List.length_eq_zero.mp (by rw [hl]; rfl)
    exact String.ext this

theorem headerMatches_congr (name a b : String) (h : toLowerCase a = toLowerCase b) :
    headerMatches name (.str a) = headerMatches name (.str b) := by
  have he := toLowerCase_eq_empty_iff a b h
  simp only [headerMatches, Cell.truthy, Cell.toStr, h]
  congr 1
  simp only [ne_eq, decide_not, he]

/-- C24: when no header contains, letter case aside, any recognised substring of a logical
field, `getValue` returns null for that field.  With the quantity field absent every record
returned has `cantidad` = 1; with the date field absent the date is the current timestamp
`now` of the call, so the row never fails on its date and the record carries the ISO form
of `now`.  Header matching ignores letter case on both sides: two headers equal up to case
match the same names, and the headers `FECHA` and `Product Name` match `fecha` and
`product`. -/
theorem absent_fields_and_defaults :
    (∀ (headers row : List Cell) (names : List String),
      (∀ c ∈ headers, ∀ n ∈ names, headerContains c n = false) →
      getValue headers row names = .null) ∧
    (∀ (env : Env) (now : Int) (row headers : List Cell) (s : State),
      (∀ c ∈ headers, ∀ n ∈ cantidadNames, headerContains c n = false) →
      ∀ v, (mapExcelRowToVenta env now row headers s).1 = .ok v →
        v.cantidad = JSNum.ofInt 1 ∧ v.monto_total = v.precio_unitario.mul (JSNum.ofInt 1)) ∧
    (∀ (env : Env) (now : Int) (row headers : List Cell) (s : State),
      (∀ c ∈ headers, ∀ n ∈ fechaNames, headerContains c n = false) →
      fechaObj env now (getValue headers row fechaNames) = some now ∧
      (mapExcelRowToVenta env now row headers s).1 ≠ .error "Invalid time value" ∧
      ∀ v, (mapExcelRowToVenta env now row headers s).1 = .ok v →
        v.fecha_hora_venta = toISOString now ∧
        v.fecha_venta = splitAt (toISOString now) 'T' 0 ∧
        v.hora_del_dia = splitAt (splitAt (toISOString now) 'T' 1) '.' 0) ∧
    (∀ (name a b : String), toLowerCase a = toLowerCase b →
      headerMatches name (.str a) = headerMatches name (.str b)) ∧
    (∀ (name : String) (h : Cell),
      headerMatches (toLowerCase name) h = headerMatches name h) ∧
    headerMatches "fecha" (.str "FECHA") = true ∧
    headerMatches "product" (.str "Product Name") = true ∧
    getValue [.str "FECHA", .str "Product Name"] [.num ⟨5, 0⟩, .str "Latte"] fechaNames
      = .num ⟨5, 0⟩ ∧
    getValue [.str "FECHA", .str "Product Name"] [.num ⟨5, 0⟩, .str "Latte"] productoNames
      = .str "Latte" := by
  refine ⟨getValue_of_not_contained, ?_, ?_, headerMatches_congr, ?_, by decide, by decide,
    by decide, by decide⟩
  · intro env now row headers s hno v hv
    obtain ⟨t, _, _, hrec⟩ := mapExcelRowToVenta_ok_eq env now row headers s v hv
    have hnull := getValue_of_not_contained headers row cantidadNames hno
    have hc : cantidadCell headers row = .num ⟨1, 0⟩ := by
      simp [cantidadCell, hnull, Cell.truthy]
    rw [hrec, hc]
    exact ⟨by rfl, by rfl⟩
  · intro env now row headers s hno
    have hnull := getValue_of_not_contained headers row fechaNames hno
    have hf : fechaObj env now (getValue headers row fechaNames) = some now := by
      rw [hnull]; rfl
    refine ⟨hf, ?_, ?_⟩
    · cases hk : keysTruthy (resolveRow row headers s).1 with
      | true =>
        rw [mapExcelRowToVenta_of_truthy env now row headers s now hf hk]
        intro h; exact Except.noConfusion h
      | false =>
        rw [mapExcelRowToVenta_of_falsy env now row headers s now hf hk]
        intro h
        have := Except.error.inj h
        revert this
        decide
    · intro v hv
      obtain ⟨t, ht, _, hrec⟩ := mapExcelRowToVenta_ok_eq env now row headers s v hv
      rw [hf] at ht
      cases ht
      rw [hrec]
      exact ⟨rfl, rfl, rfl⟩
  · intro name h
    simp only [headerMatches, toLowerCase_toLowerCase]

theorem absent_fields_and_defaults_witness :
    (∀ c ∈ [Cell.str "Product Name", Cell.str "Price"], ∀ n ∈ cantidadNames,
      headerContains c n = false) ∧
    (∀ c ∈ [Cell.str "Product Name", Cell.str "Price"], ∀ n ∈ fechaNames,
      headerContains c n = false) ∧
    (ventaRecord sampleEnv 1730847600123
      (getValue [.str "Product Name", .str "Price"] [.str "Latte", .num ⟨35, -1⟩] precioNames)
      (cantidadCell [.str "Product Name", .str "Price"] [.str "Latte", .num ⟨35, -1⟩])
      (resolveRow [.str "Latte", .num ⟨35, -1⟩] [.str "Product Name", .str "Price"]
        freshState).1).cantidad = JSNum.ofInt 1 ∧
    fechaObj sampleEnv 1730847600123
      (getValue [.str "Product Name", .str "Price"] [.str "Latte", .num ⟨35, -1⟩] fechaNames)
      = some 1730847600123 ∧
    toISOString 1730847600123 = "2024-11-05T23:00:00.123Z" :=
  ⟨by decide, by decide,
    (absent_fields_and_defaults.2.1 sampleEnv 1730847600123 [.str "Latte", .num ⟨35, -1⟩]
      [.str "Product Name", .str "Price"] freshState (by decide) _
      (congrArg Prod.fst (mapExcelRowToVenta_of_truthy sampleEnv 1730847600123
        [.str "Latte", .num ⟨35, -1⟩] [.str "Product Name", .str "Price"] freshState
        1730847600123 (by decide) (by decide)))).1,
    (absent_fields_and_defaults.2.2.1 sampleEnv 1730847600123 [.str "Latte", .num ⟨35, -1⟩]
      [.str "Product Name", .str "Price"] freshState (by decide)).1,
    by decide⟩

/-! ## Client codes made of white space (C25) -/

/-- C25, the code at the failing input: in a fresh store the client code of three spaces is
truthy, so `getOrCreateCliente` does not return null for it as it does for the empty
string: it trims the code to the empty key, finds no row and inserts a `clientes` row with
the empty `codigo_anonimo`, whose identifier 1 it returns.  A row whose client cell holds
the three spaces is mapped to a record with `id_cliente` = 1, and a later code of one tab
resolves to the same row.  The product resolver returns null for the same name. -/
theorem whitespace_client_code_creates_row :
    trim "   " = "" ∧
    getOrCreateCliente (.str "") .null freshState = (none, freshState) ∧
    (getOrCreateCliente (.str "   ") .null freshState).1 = some 1 ∧
    (getOrCreateCliente (.str "   ") .null freshState).2.clientes.rows
      = [⟨1, "", .null, none, none, 0, JSNum.ofInt 0⟩] ∧
    (okRecords [(mapExcelRowToVenta sampleEnv 0 [.str "Latte", .str "   "]
        [.str "Producto", .str "Cliente"] freshState).1]).map (fun v => v.id_cliente)
      = [some 1] ∧
    (mapExcelRowToVenta sampleEnv 0 [.str "Latte", .str "   "]
        [.str "Producto", .str "Cliente"] freshState).2.clientes.rows
      = [⟨1, "", .null, none, none, 0, JSNum.ofInt 0⟩] ∧
    (getOrCreateCliente (.str "\t") .null
      (getOrCreateCliente (.str "   ") .null freshState).2).1 = some 1 ∧
    getOrCreateProducto (.str "   ") .null .null freshState = (none, freshState) := by
  refine ⟨?_, ?_, ?_, ?_, ?_, ?_, ?_, ?_⟩ <;> decide

/-! ## Cache coherence (C26) -/

/-- C26, the code at the failing input: in a freshly created schema the product cell is
the number 7501234567890 (a bar code).  The key is its JavaScript text `7501234567890`,
but the `INSERT` binds the raw number, which is outside the 32-bit integers and is stored
in the TEXT column as the text of a REAL, `7501234567890.0`.  The cache entry
`7501234567890 -> 1` then points at a row whose stored name does not normalise to the
key. -/
theorem numeric_name_breaks_cache_coherence :
    truthyKey (.num ⟨7501234567890, 0⟩) = some "7501234567890" ∧
    (getOrCreateProducto (.num ⟨7501234567890, 0⟩) .null .null
      (createERSchema freshState)).2.lookupCaches.productos = [("7501234567890", 1)] ∧
    (getOrCreateProducto (.num ⟨7501234567890, 0⟩) .null .null
      (createERSchema freshState)).2.productos.rows
      = [⟨1, "7501234567890.0", .null, .null⟩] ∧
    trim (toLowerCase "7501234567890.0") = "7501234567890.0" ∧
    trim (toLowerCase "7501234567890.0") ≠ "7501234567890" := by
  refine ⟨?_, ?_, ?_, ?_, ?_⟩ <;> decide

/-! ## What a failed row leaves behind (C27) -/

/-- C27 as stated fails: in a fresh store the row without a product but with the client
`C1`, the store `Centro` and the payment method `Tarjeta` fails with `Failed to resolve
required foreign keys`, and yet the state after it is not the state before it: a client
row, a store row and a payment method row have been created and cached.  A failing row that
names no store and no payment method creates the default store and the default payment
method. -/
theorem failed_row_not_atomic_counterexample :
    (mapExcelRowToVenta sampleEnv 0 [.null, .str "C1", .str "Centro", .str "Tarjeta"]
      [.str "Producto", .str "Cliente", .str "Sucursal", .str "Pago"] freshState).1
      = .error "Failed to resolve required foreign keys" ∧
    (mapExcelRowToVenta sampleEnv 0 [.null, .str "C1", .str "Centro", .str "Tarjeta"]
      [.str "Producto", .str "Cliente", .str "Sucursal", .str "Pago"] freshState).2
      ≠ freshState ∧
    (mapExcelRowToVenta sampleEnv 0 [.null, .str "C1", .str "Centro", .str "Tarjeta"]
      [.str "Producto", .str "Cliente", .str "Sucursal", .str "Pago"] freshState).2
      = { freshState with
          clientes := ⟨[⟨1, "C1", .null, none, none, 0, JSNum.ofInt 0⟩], 1⟩
          sucursales := ⟨[⟨1, "Centro", .null, .null⟩], 1⟩
          metodos_pago := ⟨[⟨1, "Tarjeta", .null⟩], 1⟩
          lookupCaches := ⟨[], [("C1", 1)], [("centro", 1)], [("tarjeta", 1)]⟩ } ∧
    (rowStep sampleEnv 0 [.str "Producto", .str "Cliente", .str "Sucursal", .str "Pago"]
      [.null, .str "C1", .str "Centro", .str "Tarjeta"] 0 (freshState, ⟨0, 0, []⟩)).2.errorCount
      = 1 ∧
    (rowStep sampleEnv 0 [.str "Producto", .str "Cliente", .str "Sucursal", .str "Pago"]
      [.null, .str "C1", .str "Centro", .str "Tarjeta"] 0 (freshState, ⟨0, 0, []⟩)).1.clientes.rows
      = [⟨1, "C1", .null, none, none, 0, JSNum.ofInt 0⟩] ∧
    (mapExcelRowToVenta sampleEnv 0 [.null] [.str "Producto"] freshState).2
      = { freshState with
          sucursales := ⟨[⟨1, "Sucursal Principal", .str "Sin dirección", .str "Sin ciudad"⟩], 1⟩
          metodos_pago := ⟨[⟨1, "Efectivo", .str "Pago en efectivo"⟩], 1⟩
          lookupCaches := ⟨[], [], [("sucursal principal", 1)], [("efectivo", 1)]⟩ } := by
  refine ⟨by rfl, ?_, ?_, ?_, ?_, ?_⟩ <;> decide

theorem atMostOneAdded_refl {α : Type} (t : Table α) : AtMostOneAdded t t :=
  ⟨[], by simp, by simp⟩

theorem getOrCreateCliente_atMostOne (k t : Cell) (s : State) :
    AtMostOneAdded s.clientes (getOrCreateCliente k t s).2.clientes := by
  unfold getOrCreateCliente
  split
  · exact lookupOrInsert_rowsKept Cliente.id_cliente _ _ _ _ _
  · exact atMostOneAdded_refl _

theorem getOrCreateSucursal_atMostOne (n d c : Cell) (s : State) :
    AtMostOneAdded s.sucursales (getOrCreateSucursal n d c s).2.sucursales := by
  cases hk : truthyKey n with
  | none =>
    rw [getOrCreateSucursal_none _ _ _ _ hk]
    exact lookupOrInsert_rowsKept Sucursal.id_sucursal _ _ _ _ _
  | some key =>
    rw [getOrCreateSucursal_some _ _ _ _ _ hk]
    exact lookupOrInsert_rowsKept Sucursal.id_sucursal _ _ _ _ _

theorem getOrCreateMetodoPago_atMostOne (t d : Cell) (s : State) :
    AtMostOneAdded s.metodos_pago (getOrCreateMetodoPago t d s).2.metodos_pago := by
  cases hk : truthyKey t with
  | none =>
    rw [getOrCreateMetodoPago_none _ _ _ hk]
    exact lookupOrInsert_rowsKept MetodoPago.id_metodo_pago _ _ _ _ _
  | some key =>
    rw [getOrCreateMetodoPago_some _ _ _ _ hk]
    exact lookupOrInsert_rowsKept MetodoPago.id_metodo_pago _ _ _ _ _

theorem resolveForeignKeys_of_no_product
    (producto categoria precio cliente sucursal metodoPago : Cell) (s : State)
    (h : truthyKey producto = none) :
    (resolveForeignKeys producto categoria precio cliente sucursal metodoPago s).2.productos
        = s.productos ∧
      (resolveForeignKeys producto categoria precio cliente sucursal
        metodoPago s).2.lookupCaches.productos = s.lookupCaches.productos ∧
      AtMostOneAdded s.clientes
        (resolveForeignKeys producto categoria precio cliente sucursal
          metodoPago s).2.clientes ∧
      AtMostOneAdded s.sucursales
        (resolveForeignKeys producto categoria precio cliente sucursal
          metodoPago s).2.sucursales ∧
      AtMostOneAdded s.metodos_pago
        (resolveForeignKeys producto categoria precio cliente sucursal
          metodoPago s).2.metodos_pago := by
  unfold resolveForeignKeys
  simp only [getOrCreateProducto_none _ _ _ _ h]
  have f2 : (if cliente.truthy = true then getOrCreateCliente cliente .null s
        else (none, s)).2.productos = s.productos ∧
      (if cliente.truthy = true then getOrCreateCliente cliente .null s
        else (none, s)).2.sucursales = s.sucursales ∧
      (if cliente.truthy = true then getOrCreateCliente cliente .null s
        else (none, s)).2.metodos_pago = s.metodos_pago ∧
      (if cliente.truthy = true then getOrCreateCliente cliente .null s
        else (none, s)).2.lookupCaches.productos = s.lookupCaches.productos ∧
      AtMostOneAdded s.clientes (if cliente.truthy = true then getOrCreateCliente cliente .null s
        else (none, s)).2.clientes := by
    split
    · have f := getOrCreateCliente_frame cliente .null s
      exact ⟨f.1, f.2.1, f.2.2.1, f.2.2.2.1, getOrCreateCliente_atMostOne cliente .null s⟩
    · exact ⟨rfl, rfl, rfl, rfl, atMostOneAdded_refl _⟩
  generalize (if cliente.truthy = true then getOrCreateCliente cliente .null s
    else (none, s)) = r2 at f2 ⊢
  have f3 := getOrCreateSucursal_frame sucursal .null .null r2.2
  have a3 := getOrCreateSucursal_atMostOne sucursal .null .null r2.2
  generalize getOrCreateSucursal sucursal .null .null r2.2 = r3 at f3 a3 ⊢
  have f4 := getOrCreateMetodoPago_frame metodoPago .null r3.2
  have a4 := getOrCreateMetodoPago_atMostOne metodoPago .null r3.2
  generalize getOrCreateMetodoPago metodoPago .null r3.2 = r4 at f4 a4 ⊢
  refine ⟨f4.1.trans (f3.1.trans f2.1), f4.2.2.2.1.trans (f3.2.2.2.1.trans f2.2.2.2.1),
    ?_, ?_, ?_⟩
  · rw [f4.2.1, f3.2.1]; exact f2.2.2.2.2
  · rw [f4.2.2.1, ← f2.2.1]; exact a3
  · rw [← f2.2.2.1, ← f3.2.2.1]; exact a4

/-- C27 amended: whenever `mapExcelRowToVenta` fails for a row, in a store whose
identifiers are positive, the failure is either the invalid date, and then the store and
the caches are exactly as they were before the row, or the missing product, and then
`ventas`, `productos` and the product cache are as before, while the client, the store and
the payment method of the row have still been resolved: at most one row each may have been
appended to `clientes`, `sucursales` and `metodos_pago`, no existing row being changed.
The row loop counts the row as an error and keeps that state. -/
theorem failed_row_effects (env : Env) (now : Int) (row headers : List Cell) (s : State)
    (msg : String) (hpos : PositiveIds s)
    (hfail : (mapExcelRowToVenta env now row headers s).1 = .error msg) :
    (msg = "Invalid time value" ∨ msg = "Failed to resolve required foreign keys") ∧
    (msg = "Invalid time value" → (mapExcelRowToVenta env now row headers s).2 = s) ∧
    (mapExcelRowToVenta env now row headers s).2.ventas = s.ventas ∧
    (mapExcelRowToVenta env now row headers s).2.productos = s.productos ∧
    (mapExcelRowToVenta env now row headers s).2.lookupCaches.productos
      = s.lookupCaches.productos ∧
    AtMostOneAdded s.clientes (mapExcelRowToVenta env now row headers s).2.clientes ∧
    AtMostOneAdded s.sucursales (mapExcelRowToVenta env now row headers s).2.sucursales ∧
    AtMostOneAdded s.metodos_pago (mapExcelRowToVenta env now row headers s).2.metodos_pago ∧
    (∀ (sheet i : Nat) (rep : SheetReport), env.clock sheet i = now →
      (rowStep env sheet headers row i (s, rep)).1
        = (mapExcelRowToVenta env now row headers s).2 ∧
      (rowStep env sheet headers row i (s, rep)).2.errorCount = rep.errorCount + 1 ∧
      (rowStep env sheet headers row i (s, rep)).2.successCount = rep.successCount) := by
  have hstep : ∀ (sheet i : Nat) (rep : SheetReport), env.clock sheet i = now →
      (rowStep env sheet headers row i (s, rep)).1
        = (mapExcelRowToVenta env now row headers s).2 ∧
      (rowStep env sheet headers row i (s, rep)).2.errorCount = rep.errorCount + 1 ∧
      (rowStep env sheet headers row i (s, rep)).2.successCount = rep.successCount := by
    intro sheet i rep hclock
    unfold rowStep
    simp only [hclock]
    generalize mapExcelRowToVenta env now row headers s = m at hfail ⊢
    obtain ⟨res, s2⟩ := m
    simp only at hfail
    subst hfail
    exact ⟨rfl, rfl, rfl⟩
  cases hf : fechaObj env now (getValue headers row fechaNames) with
  | none =>
    rw [mapExcelRowToVenta_of_invalid env now row headers s hf] at hfail ⊢
    have hm : msg = "Invalid time value" := (Except.error.inj hfail).symm
    exact ⟨Or.inl hm, fun _ => rfl, rfl, rfl, rfl, atMostOneAdded_refl _,
      atMostOneAdded_refl _, atMostOneAdded_refl _,
      by rw [← mapExcelRowToVenta_of_invalid env now row headers s hf]; exact hstep⟩
  | some t =>
    cases hk : keysTruthy (resolveRow row headers s).1 with
    | true =>
      rw [mapExcelRowToVenta_of_truthy env now row headers s t hf hk] at hfail
      exact Except.noConfusion hfail
    | false =>
      have hkt := keysTruthy_resolveRow row headers s hpos
      rw [hk] at hkt
      have hnone : truthyKey (getValue headers row productoNames) = none := by
        cases hq : truthyKey (getValue headers row productoNames) with
        | none => rfl
        | some key => rw [hq] at hkt; cases hkt
      have hr := resolveForeignKeys_of_no_product (getValue headers row productoNames)
        (getValue headers row categoriaNames) (getValue headers row precioNames)
        (getValue headers row clienteNames) (getValue headers row sucursalNames)
        (getValue headers row metodoPagoNames) s hnone
      have hv := (resolveForeignKeys_kept (getValue headers row productoNames)
        (getValue headers row categoriaNames) (getValue headers row precioNames)
        (getValue headers row clienteNames) (getValue headers row sucursalNames)
        (getValue headers row metodoPagoNames) s).2
      have heq := mapExcelRowToVenta_of_falsy env now row headers s t hf hk
      rw [heq] at hfail
      have hm : msg = "Failed to resolve required foreign keys" :=
        (Except.error.inj hfail).symm
      refine ⟨Or.inr hm, ?_, ?_, ?_, ?_, ?_, ?_, ?_, hstep⟩
      · intro hm2
        rw [hm] at hm2
        exact absurd hm2 (by decide)
      · rw [heq]; exact hv
      · rw [heq]; exact hr.1
      · rw [heq]; exact hr.2.1
      · rw [heq]; exact hr.2.2.1
      · rw [heq]; exact hr.2.2.2.1
      · rw [heq]; exact hr.2.2.2.2

theorem failed_row_effects_witness :
    PositiveIds freshState ∧
    (mapExcelRowToVenta sampleEnv 0 [.null, .str "C1", .str "Centro", .str "Tarjeta"]
      [.str "Producto", .str "Cliente", .str "Sucursal", .str "Pago"] freshState).1
      = .error "Failed to resolve required foreign keys" ∧
    (mapExcelRowToVenta sampleEnv 0 [.null, .str "C1", .str "Centro", .str "Tarjeta"]
      [.str "Producto", .str "Cliente", .str "Sucursal", .str "Pago"] freshState).2.productos
      = freshState.productos ∧
    (mapExcelRowToVenta sampleEnv 0 [.null, .str "C1", .str "Centro", .str "Tarjeta"]
      [.str "Producto", .str "Cliente", .str "Sucursal", .str "Pago"] freshState).2.ventas
      = freshState.ventas ∧
    AtMostOneAdded freshState.clientes
      (mapExcelRowToVenta sampleEnv 0 [.null, .str "C1", .str "Centro", .str "Tarjeta"]
        [.str "Producto", .str "Cliente", .str "Sucursal", .str "Pago"] freshState).2.clientes ∧
    (mapExcelRowToVenta sampleEnv 0 [.null, .str "C1", .str "Centro", .str "Tarjeta"]
      [.str "Producto", .str "Cliente", .str "Sucursal", .str "Pago"] freshState).2.clientes.rows
      = [⟨1, "C1", .null, none, none, 0, JSNum.ofInt 0⟩] :=
  ⟨positiveIds_fresh, by rfl,
    (failed_row_effects sampleEnv 0 [.null, .str "C1", .str "Centro", .str "Tarjeta"]
      [.str "Producto", .str "Cliente", .str "Sucursal", .str "Pago"] freshState
      "Failed to resolve required foreign keys" positiveIds_fresh (by rfl)).2.2.2.1,
    (failed_row_effects sampleEnv 0 [.null, .str "C1", .str "Centro", .str "Tarjeta"]
      [.str "Producto", .str "Cliente", .str "Sucursal", .str "Pago"] freshState
      "Failed to resolve required foreign keys" positiveIds_fresh (by rfl)).2.2.1,
    (failed_row_effects sampleEnv 0 [.null, .str "C1", .str "Centro", .str "Tarjeta"]
      [.str "Producto", .str "Cliente", .str "Sucursal", .str "Pago"] freshState
      "Failed to resolve required foreign keys" positiveIds_fresh (by rfl)).2.2.2.2.2.1,
    by decide⟩

/-! ## Resolver injectivity (C28) -/

/-- C28, the code at the failing input: in a freshly created schema the product cell with
the number 7501234567890 is resolved (key `7501234567890`, identifier 1, stored as
`7501234567890.0`), and then the product cell with the text `7501234567890.0`, whose key
`7501234567890.0` is different and not in the cache: the `SELECT` finds the stored name
and the resolver returns the identifier 1 again, with no new row.  Two different keys are
merged into one row. -/
theorem numeric_name_merges_distinct_keys :
    truthyKey (.num ⟨7501234567890, 0⟩) = some "7501234567890" ∧
    truthyKey (.str "7501234567890.0") = some "7501234567890.0" ∧
    (getOrCreateProducto (.num ⟨7501234567890, 0⟩) .null .null
      (createERSchema freshState)).1 = some 1 ∧
    (getOrCreateProducto (.num ⟨7501234567890, 0⟩) .null .null
      (createERSchema freshState)).2.lookupCaches.productos.get "7501234567890.0" = none ∧
    (getOrCreateProducto (.str "7501234567890.0") .null .null
      (getOrCreateProducto (.num ⟨7501234567890, 0⟩) .null .null
        (createERSchema freshState)).2).1 = some 1 ∧
    (getOrCreateProducto (.str "7501234567890.0") .null .null
      (getOrCreateProducto (.num ⟨7501234567890, 0⟩) .null .null
        (createERSchema freshState)).2).2.productos.rows
      = [⟨1, "7501234567890.0", .null, .null⟩] := by
  refine ⟨?_, ?_, ?_, ?_, ?_, ?_⟩ <;> decide

end CoffeeSales
